import Mathlib

/-!
# RazerGenie main-window controller (`src/razergenie.cpp`)

A shallow embedding of the device-list reconciliation code, of the DPI
handlers, of the USB enumeration, of the construction of a device panel and of
the effect selection and dispatch of `RazerGenie`.

Conventions of the embedding.

* Heap objects (`new libopenrazer::Device`, `new RazerDeviceWidget`,
  `new QWidget`) are identified by an address taken from a counter `heap`;
  two handles are the same instance exactly when they are equal.
* `QHash<QString, Device*> devices` is an association list; a `QHash` holds
  each key once, which is the predicate `KeysUnique`.  The iteration order of
  a `QHash` is unspecified: the order of the association list stands for it,
  and the theorems hold for every order.
* `QStackedWidget` is the list of its pages.  `widget(i)` is null out of
  range, `removeWidget` of a null pointer does nothing, and `addWidget` of a
  widget that is already a page moves it to the end (`QLayout::addChildWidget`
  takes the widget out of the layout it is in first), so a page never occurs
  twice.
* The daemon's answer to `libopenrazer::getConnectedDevices()` is the
  argument `serialnrs` of the operations that ask for it.
* The contents of a device panel (combo boxes, sliders) play no part in the
  reconciliation; a panel is recorded with its address and its serial.
* `delete dev` and `deleteLater()` are recorded in logs.  `deleteLater()`
  only posts an event: no page is destroyed before the operation returns, and
  a call through a null pointer is recorded as `none` and goes on.
* The states are those at the return of an operation.
-/

namespace RazerGenie

/-! ## Data model -/

/-- Handle of a `libopenrazer::Device` made by `new libopenrazer::Device(serial)`. -/
structure Device where
  addr : Nat
  serial : String
deriving DecidableEq, Repr

/-- Pages of `ui_main.stackedWidget`: the cached placeholder widget or a
`RazerDeviceWidget(name, serial)`. -/
inductive Widget where
  | placeholder (addr : Nat)
  | razerDeviceWidget (addr : Nat) (serial : String)
deriving DecidableEq, Repr

/-- Address of a page. -/
def Widget.addr : Widget → Nat
  | .placeholder a => a
  | .razerDeviceWidget a _ => a

/-- `RazerDeviceWidget::getSerial()`, absent for the placeholder. -/
def Widget.getSerial : Widget → Option String
  | .placeholder _ => none
  | .razerDeviceWidget _ serial => some serial

/-- Whether the page is a device panel. -/
def Widget.isPanel : Widget → Bool
  | .placeholder _ => false
  | .razerDeviceWidget _ _ => true

/-- Whether the page is the placeholder view. -/
def Widget.isPlaceholder : Widget → Bool
  | .placeholder _ => true
  | .razerDeviceWidget _ _ => false

/-- An entry of `ui_main.listWidget`: the `DeviceListWidget` set on the item,
which holds the device handle it was built with. -/
structure DeviceListWidget where
  device : Device
deriving DecidableEq, Repr

/-- Notifications shown through `util::showInfo` and `util::showError`. -/
inductive Message where
  | info (text : String)
  | error (text : String)
deriving DecidableEq, Repr

/-- The members of `RazerGenie` that the device-list code reads and writes,
with the logs of what it frees and what it shows. -/
@[ext]
structure State where
  /-- `QHash<QString, libopenrazer::Device*> devices` -/
  devices : List (String × Device)
  /-- `ui_main.listWidget` -/
  listWidget : List DeviceListWidget
  /-- `ui_main.stackedWidget` -/
  stackedWidget : List Widget
  /-- `QWidget *noDevicePlaceholder`: address of the cached placeholder, `none` for `NULL` -/
  noDevicePlaceholder : Option Nat
  /-- next free address -/
  heap : Nat
  /-- devices released with `delete dev`, in order -/
  deleted : List Device
  /-- receivers of `deleteLater()`, in order; `none` is a call on a null pointer -/
  deleteLater : List (Option Widget)
  /-- notifications shown, in order -/
  messages : List Message
deriving DecidableEq, Repr

/-! ## Qt containers -/

/-- `QStackedWidget::widget(index)`: the page at `index`, null out of range. -/
def widget (stack : List Widget) (index : Nat) : Option Widget :=
  stack.get? index

/-- `QStackedWidget::removeWidget(widget)`. -/
def removeWidget (stack : List Widget) : Option Widget → List Widget
  | none => stack
  | some w => stack.filter (fun x => decide (x ≠ w))

/-- `QStackedWidget::addWidget(widget)`. -/
def addWidget (stack : List Widget) (w : Widget) : List Widget :=
  stack.filter (fun x => decide (x ≠ w)) ++ [w]

/-- Keys of the hash, in iteration order. -/
def keys (h : List (String × Device)) : List String :=
  h.map Prod.fst

/-- `QHash::value(key)`. -/
def value (h : List (String × Device)) (key : String) : Option Device :=
  (h.find? (fun e => decide (e.1 = key))).map Prod.snd

/-- `QHash::insert(key, value)`: replaces the value of a key that is present. -/
def insert (h : List (String × Device)) (key : String) (dev : Device) :
    List (String × Device) :=
  if key ∈ keys h then h.map (fun e => if e.1 = key then (key, dev) else e)
  else h ++ [(key, dev)]

/-- `QHash::remove(key)`. -/
def remove (h : List (String × Device)) (key : String) : List (String × Device) :=
  h.filter (fun e => decide (e.1 ≠ key))

/-! ## Operations -/

/-- `RazerGenie::getNoDevicePlaceholder`: the cached placeholder, built on
first use. -/
def getNoDevicePlaceholder (s : State) : Widget × State :=
  match s.noDevicePlaceholder with
  | some a => (Widget.placeholder a, s)
  | none =>
    (Widget.placeholder s.heap, { s with noDevicePlaceholder := some s.heap, heap := s.heap + 1 })

/-- The statement `ui_main.stackedWidget->addWidget(getNoDevicePlaceholder())`. -/
def addPlaceholder (s : State) : State :=
  let r := getNoDevicePlaceholder s
  { r.2 with stackedWidget := addWidget r.2.stackedWidget r.1 }

/-- The search loop of `removeDeviceFromGui`: index of the first list entry
whose device has the serial, `none` for `-1`. -/
def findItem (serial : String) : List DeviceListWidget → Option Nat
  | [] => none
  | item :: rest =>
    if item.device.serial = serial then some 0
    else (findItem serial rest).map (fun i => i + 1)

/-- `RazerGenie::removeDeviceFromGui`. -/
def removeDeviceFromGui (serial : String) (s : State) : Bool × State :=
  match findItem serial s.listWidget with
  | none => (false, s)
  | some index =>
    let s1 := { s with
      stackedWidget := removeWidget s.stackedWidget (widget s.stackedWidget index)
      listWidget := s.listWidget.eraseIdx index }
    if s1.devices.isEmpty then (true, addPlaceholder s1) else (true, s1)

/-- `RazerGenie::addDeviceToGui`, as far as the registry, the list and the
stack are concerned: the statements of lines 275, 284-287, 293-300, 317 and
742, in that order.  The construction of the panel contents in between is
`buildDeviceWidget` below; the registry code does not look at the contents. -/
def addDeviceToGui (serial : String) (s : State) : State :=
  let currentDevice : Device := ⟨s.heap, serial⟩
  let stack :=
    if s.devices.isEmpty then removeWidget s.stackedWidget (widget s.stackedWidget 0)
    else s.stackedWidget
  { s with
    heap := s.heap + 2
    listWidget := s.listWidget ++ [⟨currentDevice⟩]
    devices := insert s.devices serial currentDevice
    stackedWidget := addWidget stack (Widget.razerDeviceWidget (s.heap + 1) serial) }

/-- The loops that call `addDeviceToGui(serial)` for each serial of a list,
in list order (lines 212-214 and 247-252). -/
def addEach (serialnrs : List String) (s : State) : State :=
  serialnrs.foldl (fun st serial => addDeviceToGui serial st) s

/-- `RazerGenie::fillDeviceList`. -/
def fillDeviceList (serialnrs : List String) (s : State) : State :=
  let s1 := addEach serialnrs s
  if serialnrs.length = 0 then addPlaceholder s1 else s1

/-- One pass of the `QMutableHashIterator` loop of `refreshDeviceList` at the
entry `e`, on the remaining serials and the state. -/
def refreshStep (acc : List String × State) (e : String × Device) : List String × State :=
  if e.1 ∈ acc.1 then (acc.1.erase e.1, acc.2)
  else
    let r := removeDeviceFromGui e.1 acc.2
    (acc.1.erase e.1,
      { r.2 with devices := remove r.2.devices e.1, deleted := r.2.deleted ++ [e.2] })

/-- `RazerGenie::refreshDeviceList`.  The iterator has moved past an entry
when `devices.remove` takes it out, so the first loop visits each entry the
hash had at the start once. -/
def refreshDeviceList (serialnrs : List String) (s : State) : State :=
  let r := s.devices.foldl refreshStep (serialnrs, s)
  addEach r.1 r.2

/-- Body of the loop of `clearDeviceList` at index `i`. -/
def clearStep (i : Nat) (s : State) : State :=
  let w := widget s.stackedWidget i
  { s with
    stackedWidget := removeWidget s.stackedWidget w
    deleteLater := s.deleteLater ++ [w] }

/-- The loop `for (i = count; i >= 0; i--)` of `clearDeviceList`, from `i`. -/
def clearLoop : Nat → State → State
  | 0, s => clearStep 0 s
  | i + 1, s => clearLoop i (clearStep (i + 1) s)

/-- `RazerGenie::clearDeviceList`. -/
def clearDeviceList (s : State) : State :=
  let s1 := { s with devices := [], listWidget := [] }
  let s2 := clearLoop s1.stackedWidget.length s1
  addPlaceholder s2

/-- `RazerGenie::dbusServiceRegistered`. -/
def dbusServiceRegistered (serialnrs : List String) (s : State) : State :=
  let s1 := fillDeviceList serialnrs s
  { s1 with messages := s1.messages ++ [Message.info "The D-Bus connection was re-established."] }

/-- `RazerGenie::dbusServiceUnregistered`. -/
def dbusServiceUnregistered (s : State) : State :=
  let s1 := clearDeviceList s
  { s1 with messages := s1.messages ++
      [Message.error "The D-Bus connection was lost, which probably means that the daemon has crashed."] }

/-- Return to the event loop after a handler: Qt destroys the objects that
`deleteLater()` was called on, and a page that is destroyed leaves the
`QStackedWidget` it is in.  The member `noDevicePlaceholder` keeps its
pointer. -/
def deferredDelete (s : State) : State :=
  { s with
    stackedWidget := s.stackedWidget.filter (fun w => decide (some w ∉ s.deleteLater))
    deleteLater := [] }

/-- `RazerGenie::deviceAdded`. -/
def deviceAdded (serialnrs : List String) (s : State) : State :=
  refreshDeviceList serialnrs s

/-- `RazerGenie::deviceRemoved`. -/
def deviceRemoved (serialnrs : List String) (s : State) : State :=
  refreshDeviceList serialnrs s

/-- The window before `setupUi` calls `fillDeviceList`: nothing registered,
no placeholder built yet, and the list and the stack as the generated
`ui_main.setupUi` leaves them, taken to be without entries and pages. -/
def initial : State :=
  { devices := [], listWidget := [], stackedWidget := [], noDevicePlaceholder := none,
    heap := 0, deleted := [], deleteLater := [], messages := [] }

/-- `RazerGenie::setupUi`, as far as the device list is concerned. -/
def setupUi (serialnrs : List String) : State :=
  fillDeviceList serialnrs initial

/-! ## DPI handlers -/

/-- Sender of `valueChanged`: the slider named `dpiX` or the slider named `dpiY`. -/
inductive Axis where
  | dpiX
  | dpiY
deriving DecidableEq, Repr

/-- The other axis. -/
def Axis.other : Axis → Axis
  | .dpiX => .dpiY
  | .dpiY => .dpiX

/-- Range and position of a `QSlider`. -/
structure QSlider where
  minimum : Int
  maximum : Int
  value : Int
deriving DecidableEq, Repr

/-- Mutator calls received by the daemon for the current device. -/
inductive DaemonCall where
  | setDPI (dpi_x dpi_y : Int)
deriving DecidableEq, Repr

/-- The DPI controls of the current device panel, the `syncDpi` member of
`RazerGenie`, and the log of daemon writes.  A text box holds the number last
written to it with `setText(QString::number(value))`, `none` while unseeded. -/
structure DpiState where
  syncDpi : Bool
  dpiX : QSlider
  dpiY : QSlider
  dpiXText : Option Int
  dpiYText : Option Int
  calls : List DaemonCall
deriving DecidableEq, Repr

/-- A C++ `int` result: two's complement on 32 bits. -/
def int32 (x : Int) : Int :=
  (x + 2147483648) % 4294967296 - 2147483648

/-- `findChild<QSlider*>(name)` on the panel. -/
def DpiState.slider (s : DpiState) : Axis → QSlider
  | .dpiX => s.dpiX
  | .dpiY => s.dpiY

/-- Stores a new position in the slider of the axis. -/
def DpiState.store (s : DpiState) (a : Axis) (v : Int) : DpiState :=
  match a with
  | .dpiX => { s with dpiX := { s.dpiX with value := v } }
  | .dpiY => { s with dpiY := { s.dpiY with value := v } }

/-- `findChild<QTextEdit*>(objectName + "Text")->setText(QString::number(value))`. -/
def DpiState.setText (s : DpiState) (a : Axis) (value : Int) : DpiState :=
  match a with
  | .dpiX => { s with dpiXText := some value }
  | .dpiY => { s with dpiYText := some value }

/-- `QAbstractSliderPrivate::bound`. -/
def bound (sl : QSlider) (v : Int) : Int :=
  max sl.minimum (min sl.maximum v)

/-- `QAbstractSlider::setValue` on the slider of axis `a`: the value is
bounded to the range, nothing happens when it is the current one, otherwise
it is stored and `valueChanged` is emitted, which runs the connected slot
`slot` with this slider as sender before `setValue` returns. -/
def setValue (slot : Axis → Int → DpiState → Option DpiState)
    (a : Axis) (v : Int) (s : DpiState) : Option DpiState :=
  let v1 := bound (s.slider a) v
  if (s.slider a).value = v1 then some s else slot a v1 (s.store a v1)

/-- `RazerGenie::dpiChanged(orig_value)` with `sender` the slider that emitted.
The fuel bounds the nesting of slot runs; `none` is fuel exhausted. -/
def dpiChanged : Nat → Axis → Int → DpiState → Option DpiState
  | 0, _, _, _ => none
  | fuel + 1, sender, orig_value, s =>
    let value := int32 (orig_value * 100)
    let r : Option DpiState :=
      if s.syncDpi then
        match sender with
        | .dpiX =>
          (setValue (dpiChanged fuel) .dpiY orig_value s).map
            (fun s1 => { s1 with calls := s1.calls ++ [DaemonCall.setDPI value value] })
        | .dpiY => setValue (dpiChanged fuel) .dpiX orig_value s
      else
        match sender with
        | .dpiX =>
          some { s with calls := s.calls ++
            [DaemonCall.setDPI value (int32 (s.dpiY.value * 100))] }
        | .dpiY =>
          some { s with calls := s.calls ++
            [DaemonCall.setDPI (int32 (s.dpiX.value * 100)) value] }
    r.map (fun s2 => s2.setText sender value)

/-- The user moves the slider of axis `a` to position `v`: `setValue` on it,
with `dpiChanged` connected to `valueChanged` (lines 676-677). -/
def moveSlider (fuel : Nat) (a : Axis) (v : Int) (s : DpiState) : Option DpiState :=
  setValue (dpiChanged fuel) a v s

/-- `RazerGenie::dpiSyncCheckbox(checked)`. -/
def dpiSyncCheckbox (checked : Bool) (s : DpiState) : DpiState :=
  { s with syncDpi := checked }

/-! ## USB enumeration -/

/-- What goes wrong when the code reads outside a container or through a
null pointer. -/
inductive Fault where
  | indexOutOfRange
  | nullPointer
deriving DecidableEq, Repr

deriving instance DecidableEq for Except

/-- Messages written with `qWarning()`. -/
inductive Warning where
  /-- "RazerGenie: Error while parsing the lsusb output." -/
  | lsusbParse
  /-- identifier, " is not implemented yet!" -/
  | notImplemented (identifier : String)
  /-- "RazerGenie: Skipping dpi because return value of getDPI() is wrong. ..." -/
  | skippingDpi
deriving DecidableEq, Repr

/-- Value of a hexadecimal digit. -/
def hexDigit (c : Char) : Option Nat :=
  if 48 ≤ c.toNat ∧ c.toNat ≤ 57 then some (c.toNat - 48)
  else if 97 ≤ c.toNat ∧ c.toNat ≤ 102 then some (c.toNat - 87)
  else if 65 ≤ c.toNat ∧ c.toNat ≤ 70 then some (c.toNat - 55)
  else none

/-- Value of a run of hexadecimal digits read after `acc`, `none` when a
character is not a hexadecimal digit. -/
def hexDigits : List Char → Nat → Option Nat
  | [], acc => some acc
  | c :: cs, acc =>
    match hexDigit c with
    | none => none
    | some d => hexDigits cs (16 * acc + d)

/-- White space as `QChar::isSpace` sees it in Latin-1 text. -/
def isSpace (c : Char) : Bool :=
  c.toNat = 32 || (9 ≤ c.toNat && c.toNat ≤ 13)

/-- Leading and trailing white space removed. -/
def trimmed (cs : List Char) : List Char :=
  ((cs.dropWhile isSpace).reverse.dropWhile isSpace).reverse

/-- An optional sign taken off: whether it is a minus, and the rest. -/
def takeSign : List Char → Bool × List Char
  | c :: cs => if c = '-' then (true, cs) else if c = '+' then (false, cs) else (false, c :: cs)
  | [] => (false, [])

/-- An optional `0x` or `0X` taken off. -/
def takePrefix : List Char → List Char
  | c :: d :: cs => if c = '0' ∧ (d = 'x' ∨ d = 'X') then cs else c :: d :: cs
  | cs => cs

/-- `QString::toInt(&ok, 16)`: the value, `none` when `ok` is set to false
(the call then returns 0).  White space around the number, a sign and a
`0x` prefix are accepted; the value has to fit an `int`. -/
def toInt (s : String) : Option Int :=
  let r := takeSign (trimmed s.data)
  let cs := takePrefix r.2
  if cs = [] then none
  else
    match hexDigits cs 0 with
    | none => none
    | some n =>
      let v : Int := if r.1 then -(n : Int) else (n : Int)
      if -2147483648 ≤ v ∧ v ≤ 2147483647 then some v else none

/-- `QString::split(sep)`, empty parts kept. -/
def split (sep : Char) (s : String) : List String :=
  (s.data.splitOn sep).map String.mk

/-- `QString::split(sep, QString::SkipEmptyParts)`. -/
def splitSkipEmptyParts (sep : Char) (s : String) : List String :=
  (split sep s).filter (fun part => decide (part ≠ ""))

/-- The loop of `getConnectedDevices_lsusb` over the remaining lines, with
`returnList` as built so far.  `bool ok` is written by both conversions and
read after the second one, so it tells whether the product id was parsed; a
vendor id that is not parsed counts as 0. -/
def lsusbLoop : List String → List (Int × Int) → Except Fault (List (Int × Int) × List Warning)
  | [], returnList => Except.ok (returnList, [])
  | line :: rest, returnList =>
    let parts := split ':' line
    match parts.get? 0, parts.get? 1 with
    | some vidText, some pidText =>
      let vid := (toInt vidText).getD 0
      match toInt pidText with
      | none => Except.ok ([], [Warning.lsusbParse])
      | some pid => lsusbLoop rest (returnList ++ [(vid, pid)])
    | _, _ => Except.error Fault.indexOutOfRange

/-- `RazerGenie::getConnectedDevices_lsusb`, on the standard output of the
shell command. -/
def getConnectedDevices_lsusb (output : String) :
    Except Fault (List (Int × Int) × List Warning) :=
  lsusbLoop (splitSkipEmptyParts '\n' output) []

/-! ## Device panels -/

/-- Modelled from the spec: `libopenrazer::Device::LightingLocation`, the
lighting zone, "an enumerated variant {Standard, Logo, Scroll, Backlight}",
under the enumerator names the source uses.  `other` stands for an integer
that is none of the four enumerators, as a `static_cast` can produce. -/
inductive LightingLocation where
  | Lighting
  | LightingLogo
  | LightingScroll
  | LightingBacklight
  | other (value : Int)
deriving DecidableEq, Repr

/-- Modelled from the spec: `libopenrazer::RazerCapability`, an entry of a
zone's static table, "mapping a capability identifier to a human-readable
label, a color-count (0-3), and a supports-direction flag".  The source reads
it through `getIdentifier()`, `getDisplayString()`, `getNumColors()` and
`isWave()`. -/
structure RazerCapability where
  identifier : String
  displayString : String
  numColors : Int
  wave : Bool
deriving DecidableEq, Repr

/-- The constants of `libopenrazer/razercapability.h` that the source reads:
the four zone tables, and the default-constructed `RazerCapability` that a
`QVariant` without data converts to. -/
structure Tables where
  lightingComboBoxCapabilites : List RazerCapability
  logoComboBoxCapabilites : List RazerCapability
  scrollComboBoxCapabilites : List RazerCapability
  backlightComboBoxCapabilites : List RazerCapability
  defaultCapability : RazerCapability
deriving DecidableEq, Repr

/-- What the daemon answers for `currentDevice` while its panel is built:
the capability set behind `hasCapability` and the values of the getters. -/
structure DeviceInfo where
  capabilities : List String
  getBrightness : Int
  getLogoBrightness : Int
  getScrollBrightness : Int
  getBacklightBrightness : Int
  getDPI : List Int
  maxDPI : Int
  availableDPI : List Int
  getPollRate : Int
deriving DecidableEq, Repr

/-- `currentDevice->hasCapability(name)`. -/
def DeviceInfo.hasCapability (d : DeviceInfo) (name : String) : Bool :=
  decide (name ∈ d.capabilities)

/-- A colour, as its RGB value. -/
structure QColor where
  rgb : Nat
deriving DecidableEq, Repr

/-- `QColor(Qt::green)`. -/
def QColor.green : QColor :=
  ⟨65280⟩

/-- A colour button: the colour of its palette and whether `hide()` was the
last of `hide()` and `show()` called on it. -/
structure QPushButton where
  color : QColor
  hidden : Bool
deriving DecidableEq, Repr

/-- A Left or Right radio button, with the same flag. -/
structure QRadioButton where
  hidden : Bool
deriving DecidableEq, Repr

/-- The controls of one lighting zone of a panel.  `items` are the data of
the entries of the effect selector, `comboAdded` tells whether the selector
was put into the layout, `colorbuttons` are the buttons `_colorbutton1` to
`_colorbutton3` and `radiobuttons` the buttons `_radiobutton1` and
`_radiobutton2`, both empty when they were not built. -/
structure ZoneSection where
  location : LightingLocation
  items : List RazerCapability
  currentIndex : Nat
  comboAdded : Bool
  colorbuttons : List QPushButton
  radiobuttons : List QRadioButton
  brightnessSlider : Option QSlider
deriving DecidableEq, Repr

/-- The DPI slider pair with its text boxes and the Lock X/Y check box. -/
structure DpiSliders where
  dpiX : QSlider
  dpiY : QSlider
  dpiXText : Option Int
  dpiYText : Option Int
  syncChecked : Bool
deriving DecidableEq, Repr

/-- The DPI dropdown: the values of its entries and the current index,
`none` for -1. -/
structure DpiComboBox where
  items : List Int
  currentIndex : Option Nat
deriving DecidableEq, Repr

/-- The contents of a `RazerDeviceWidget`.  The radio buttons of a panel have
the panel as parent and are auto-exclusive, so at most one of them is checked:
`checkedRadio` is its zone and its number. -/
structure Panel where
  sections : List ZoneSection
  checkedRadio : Option (LightingLocation × Nat)
  dpiSliders : Option DpiSliders
  dpiComboBox : Option DpiComboBox
  pollComboBox : Option Nat
  customEditor : Bool
  warnings : List Warning
deriving DecidableEq, Repr

/-- `new QSlider(...)`: range 0..99, value 0. -/
def QSlider.new : QSlider :=
  ⟨0, 99, 0⟩

/-- `QAbstractSlider::setValue` while no slot is connected. -/
def QSlider.setValue (sl : QSlider) (v : Int) : QSlider :=
  { sl with value := bound sl v }

/-- `QAbstractSlider::setMaximum`: `setRange(qMin(minimum, max), max)`, which
bounds the value again. -/
def QSlider.setMaximum (sl : QSlider) (max : Int) : QSlider :=
  let r : QSlider := { minimum := min sl.minimum max, maximum := max, value := sl.value }
  { r with value := bound r r.value }

/-- The list `lightingLocationsTodo` of `addDeviceToGui` (lines 325-335). -/
def lightingLocationsTodo (d : DeviceInfo) : List LightingLocation :=
  (if d.hasCapability "lighting" || d.hasCapability "lighting_bw2013" ||
      d.hasCapability "lighting_profile_leds" || d.hasCapability "brightness"
    then [LightingLocation.Lighting] else []) ++
  (if d.hasCapability "lighting_logo" then [LightingLocation.LightingLogo] else []) ++
  (if d.hasCapability "lighting_scroll" then [LightingLocation.LightingScroll] else []) ++
  (if d.hasCapability "lighting_backlight" then [LightingLocation.LightingBacklight] else [])

/-- The loops that fill the effect selector of a zone (lines 393-397, 418-422,
442-446, 465-469): the entries of the table the device has, in table order. -/
def comboItems (d : DeviceInfo) : List RazerCapability → List RazerCapability
  | [] => []
  | capability :: rest =>
    if d.hasCapability capability.identifier then capability :: comboItems d rest
    else comboItems d rest

/-- The brightness slider of a zone: built when the device has the capability
`brightness`, set to the daemon's value when it has the capability `getter`
and to 100 otherwise. -/
def brightnessSlider (d : DeviceInfo) (brightness getter : String) (current : Int) :
    Option QSlider :=
  if d.hasCapability brightness then
    if d.hasCapability getter then some (QSlider.new.setValue current)
    else some (QSlider.new.setValue 100)
  else none

/-- The colour buttons 1 to 3 of a zone (lines 493-509): green, hidden when
the colour count of the selector's current entry is below the number. -/
def colorButtons (capability : RazerCapability) : List QPushButton :=
  [1, 2, 3].map (fun i => ⟨QColor.green, decide (capability.numColors < i)⟩)

/-- The Left and Right radio buttons of a zone (lines 512-534): hidden. -/
def radioButtons : List QRadioButton :=
  [⟨true⟩, ⟨true⟩]

/-- The selector, colour buttons and radio buttons of a zone, given the
entries and the brightness slider (lines 488-535). -/
def zoneSection (currentLocation : LightingLocation) (items : List RazerCapability)
    (slider : Option QSlider) : ZoneSection :=
  match items with
  | [] => ⟨currentLocation, [], 0, false, [], [], slider⟩
  | capability :: _ =>
    ⟨currentLocation, items, 0, true, colorButtons capability, radioButtons, slider⟩

/-- One pass of the loop over `lightingLocationsTodo` (lines 354-597).  A
location that is none of the four is reported and skipped.  The Set Active
check boxes and the profile LED check boxes (lines 537-586) and the warning
written for the radio buttons of the backlight zone are left out. -/
def buildZone (t : Tables) (d : DeviceInfo) : LightingLocation → Option ZoneSection
  | LightingLocation.Lighting =>
    some (zoneSection LightingLocation.Lighting (comboItems d t.lightingComboBoxCapabilites)
      (brightnessSlider d "brightness" "get_brightness" d.getBrightness))
  | LightingLocation.LightingLogo =>
    some (zoneSection LightingLocation.LightingLogo (comboItems d t.logoComboBoxCapabilites)
      (brightnessSlider d "lighting_logo_brightness" "get_lighting_logo_brightness"
        d.getLogoBrightness))
  | LightingLocation.LightingScroll =>
    some (zoneSection LightingLocation.LightingScroll (comboItems d t.scrollComboBoxCapabilites)
      (brightnessSlider d "lighting_scroll_brightness" "get_lighting_scroll_brightness"
        d.getScrollBrightness))
  | LightingLocation.LightingBacklight =>
    some (zoneSection LightingLocation.LightingBacklight
      (comboItems d t.backlightComboBoxCapabilites)
      (brightnessSlider d "lighting_backlight_brightness" "get_lighting_backlight_brightness"
        d.getBacklightBrightness))
  | LightingLocation.other _ => none

/-- The zones of the panel, in the order of `lightingLocationsTodo`. -/
def buildZones (t : Tables) (d : DeviceInfo) : List ZoneSection :=
  (lightingLocationsTodo d).filterMap (buildZone t d)

/-- The radio button left checked by the `setChecked(true)` calls on the
`_radiobutton1` of each zone that got radio buttons: that of the last one. -/
def checkedAfterBuild (sections : List ZoneSection) : Option (LightingLocation × Nat) :=
  ((sections.filter (fun sec => sec.comboAdded)).getLast?).map (fun sec => (sec.location, 1))

/-- The DPI sliders (lines 599-682): seeded from `getDPI()` when it has two
elements, left as created with a warning otherwise, then given the maximum
`maxDPI/100`. -/
def buildDpiSliders (syncDpi : Bool) (d : DeviceInfo) : DpiSliders × List Warning :=
  let currDPI := d.getDPI
  let maximum := Int.tdiv d.maxDPI 100
  match currDPI with
  | [x, y] =>
    (⟨(QSlider.new.setValue (Int.tdiv x 100)).setMaximum maximum,
      (QSlider.new.setValue (Int.tdiv y 100)).setMaximum maximum, some x, some y, syncDpi⟩, [])
  | _ =>
    (⟨QSlider.new.setMaximum maximum, QSlider.new.setMaximum maximum, none, none, syncDpi⟩,
      [Warning.skippingDpi])

/-- Index of the first entry equal to `v`, counted from `i`. -/
def findText (v : Int) : List Int → Nat → Option Nat
  | [], _ => none
  | x :: rest, i => if x = v then some i else findText v rest (i + 1)

/-- The DPI dropdown (lines 684-699): one entry per available value; the
current entry is the first one, or after `setCurrentText` the one that shows
element 0 of `getDPI()` when there is one.  Element 0 is read without a test
of the length. -/
def buildDpiComboBox (d : DeviceInfo) : Except Fault DpiComboBox :=
  let availableDPI := d.availableDPI
  let first : Option Nat := if availableDPI = [] then none else some 0
  match d.getDPI.get? 0 with
  | none => Except.error Fault.indexOutOfRange
  | some dpi =>
    match findText dpi availableDPI 0 with
    | some i => Except.ok ⟨availableDPI, some i⟩
    | none => Except.ok ⟨availableDPI, first⟩

/-- The poll-rate selector (lines 701-715): entries 125 Hz, 500 Hz and
1000 Hz; the current one is the first, or the one that shows `getPollRate()`. -/
def buildPollComboBox (d : DeviceInfo) : Nat :=
  match findText d.getPollRate [125, 500, 1000] 0 with
  | some i => i
  | none => 0

/-- The part of `RazerGenie::addDeviceToGui` that fills the `RazerDeviceWidget`
(lines 316-740), for the table constants `t`, the member `syncDpi` and the
daemon's answers `d`. -/
def buildDeviceWidget (t : Tables) (syncDpi : Bool) (d : DeviceInfo) : Except Fault Panel :=
  let sections := buildZones t d
  let sliders : Option (DpiSliders × List Warning) :=
    if d.hasCapability "dpi" && !d.hasCapability "available_dpi"
    then some (buildDpiSliders syncDpi d) else none
  let dropdown : Except Fault (Option DpiComboBox) :=
    if d.hasCapability "dpi" && d.hasCapability "available_dpi"
    then (buildDpiComboBox d).map some else Except.ok none
  match dropdown with
  | Except.error f => Except.error f
  | Except.ok combo =>
    Except.ok
      { sections := sections
        checkedRadio := checkedAfterBuild sections
        dpiSliders := sliders.map Prod.fst
        dpiComboBox := combo
        pollComboBox := if d.hasCapability "poll_rate" then some (buildPollComboBox d) else none
        customEditor := d.hasCapability "lighting_led_matrix"
        warnings := match sliders with
          | some r => r.2
          | none => [] }

/-! ## Effect selection -/

/-- `item->findChild<...>(QString::number(location) ...)`: the controls of the
zone in the panel. -/
def Panel.findSection (p : Panel) (location : LightingLocation) : Option ZoneSection :=
  p.sections.find? (fun sec => decide (sec.location = location))

/-- `findChild<QPushButton*>(... "_colorbutton" + i)->hide()` or `->show()`:
faults when the button is not there. -/
def setColorButtonHidden (i : Nat) (hidden : Bool) (buttons : List QPushButton) :
    Except Fault (List QPushButton) :=
  match buttons.get? (i - 1) with
  | none => Except.error Fault.nullPointer
  | some b => Except.ok (buttons.set (i - 1) { b with hidden := hidden })

/-- `findChild<QRadioButton*>(... "_radiobutton" + i)->hide()` or `->show()`. -/
def setRadioButtonHidden (i : Nat) (hidden : Bool) (buttons : List QRadioButton) :
    Except Fault (List QRadioButton) :=
  match buttons.get? (i - 1) with
  | none => Except.error Fault.nullPointer
  | some _ => Except.ok (buttons.set (i - 1) ⟨hidden⟩)

/-- The statements of `commonCombo` that show and hide the colour buttons
(lines 890-901). -/
def syncColorButtons (capability : RazerCapability) (buttons : List QPushButton) :
    Except Fault (List QPushButton) :=
  if capability.numColors = 0 then do
    let b1 ← setColorButtonHidden 1 true buttons
    let b2 ← setColorButtonHidden 2 true b1
    setColorButtonHidden 3 true b2
  else do
    let b1 ← setColorButtonHidden 1 (decide (capability.numColors < 1)) buttons
    let b2 ← setColorButtonHidden 2 (decide (capability.numColors < 2)) b1
    setColorButtonHidden 3 (decide (capability.numColors < 3)) b2

/-- The statements of `commonCombo` that show and hide the radio buttons
(lines 903-910). -/
def syncRadioButtons (capability : RazerCapability) (buttons : List QRadioButton) :
    Except Fault (List QRadioButton) :=
  if capability.wave = false then do
    let b1 ← setRadioButtonHidden 1 true buttons
    setRadioButtonHidden 2 true b1
  else do
    let b1 ← setRadioButtonHidden 1 false buttons
    setRadioButtonHidden 2 false b1

/-- `commonCombo(index)` on the controls of the sender's zone: the selector
has made `index` current before it emits `currentIndexChanged(index)`. -/
def ZoneSection.commonCombo (t : Tables) (index : Nat) (sec : ZoneSection) :
    Except Fault (ZoneSection × String) :=
  let capability := (sec.items.get? index).getD t.defaultCapability
  match syncColorButtons capability sec.colorbuttons with
  | Except.error f => Except.error f
  | Except.ok colorbuttons =>
    match syncRadioButtons capability sec.radiobuttons with
    | Except.error f => Except.error f
    | Except.ok radiobuttons =>
      Except.ok ({ sec with currentIndex := index, colorbuttons := colorbuttons,
                            radiobuttons := radiobuttons }, capability.identifier)

/-- Replaces the controls of the zone `location` in the panel. -/
def Panel.setSection (p : Panel) (location : LightingLocation) (sec : ZoneSection) : Panel :=
  { p with
    sections := p.sections.map (fun old => if old.location = location then sec else old) }

/-- `RazerGenie::commonCombo(index)` with the selector of zone `sender` as
sender, on the current panel: the panel with the zone's controls shown or
hidden, and the identifier of the entry. -/
def commonCombo (t : Tables) (sender : LightingLocation) (index : Nat) (p : Panel) :
    Except Fault (Panel × String) :=
  match p.findSection sender with
  | none => Except.error Fault.nullPointer
  | some sec =>
    match sec.commonCombo t index with
    | Except.error f => Except.error f
    | Except.ok r => Except.ok (p.setSection sender r.1, r.2)

/-! ## Effect dispatch -/

/-- Modelled from the spec: the direction of a wave effect, under the names
`libopenrazer::WAVE_LEFT` and `libopenrazer::WAVE_RIGHT` of the source. -/
inductive WaveDirection where
  | WAVE_LEFT
  | WAVE_RIGHT
deriving DecidableEq, Repr

/-- The constant `libopenrazer::REACTIVE_500MS`. -/
inductive ReactiveSpeed where
  | REACTIVE_500MS
deriving DecidableEq, Repr

/-- The constant `libopenrazer::RIPPLE_REFRESH_RATE`. -/
inductive RippleRefreshRate where
  | RIPPLE_REFRESH_RATE
deriving DecidableEq, Repr

/-- The effect setters of `libopenrazer::Device` that the dispatchers call,
with their arguments. -/
inductive EffectCall where
  | setBreathSingle (c : QColor)
  | setBreathDual (c1 c2 : QColor)
  | setBreathTriple (c1 c2 c3 : QColor)
  | setBreathRandom
  | setWave (direction : WaveDirection)
  | setReactive (c : QColor) (speed : ReactiveSpeed)
  | setNone
  | setSpectrum
  | setStatic (c : QColor)
  | setRipple (c : QColor) (refresh_rate : RippleRefreshRate)
  | setRippleRandomColor (refresh_rate : RippleRefreshRate)
  | setStatic_bw2013
  | setPulsate
  | setLogoBlinking (c : QColor)
  | setLogoPulsate (c : QColor)
  | setLogoSpectrum
  | setLogoStatic (c : QColor)
  | setLogoNone
  | setLogoWave (direction : WaveDirection)
  | setLogoReactive (c : QColor) (speed : ReactiveSpeed)
  | setLogoBreathSingle (c : QColor)
  | setLogoBreathDual (c1 c2 : QColor)
  | setLogoBreathRandom
  | setScrollBlinking (c : QColor)
  | setScrollPulsate (c : QColor)
  | setScrollSpectrum
  | setScrollStatic (c : QColor)
  | setScrollNone
  | setScrollWave (direction : WaveDirection)
  | setScrollReactive (c : QColor) (speed : ReactiveSpeed)
  | setScrollBreathSingle (c : QColor)
  | setScrollBreathDual (c1 c2 : QColor)
  | setScrollBreathRandom
  | setBacklightSpectrum
  | setBacklightStatic (c : QColor)
deriving DecidableEq, Repr

/-- `RazerGenie::getColorForButton(num, location)`: the palette colour of the
button `_colorbutton<num>` of the zone in the current panel; the pointer from
`findChild` is used without a test. -/
def getColorForButton (num : Nat) (location : LightingLocation) (p : Panel) :
    Except Fault QColor :=
  match p.findSection location with
  | none => Except.error Fault.nullPointer
  | some sec =>
    match sec.colorbuttons.get? (num - 1) with
    | none => Except.error Fault.nullPointer
    | some b => Except.ok b.color

/-- `RazerGenie::getWaveDirection(location)`: left when `_radiobutton1` of the
zone is checked, right otherwise. -/
def getWaveDirection (location : LightingLocation) (p : Panel) : Except Fault WaveDirection :=
  match p.findSection location with
  | none => Except.error Fault.nullPointer
  | some sec =>
    match sec.radiobuttons.get? 0 with
    | none => Except.error Fault.nullPointer
    | some _ =>
      Except.ok (if p.checkedRadio = some (location, 1) then WaveDirection.WAVE_LEFT
        else WaveDirection.WAVE_RIGHT)

/-- `RazerGenie::applyEffectStandardLoc(identifier, device)`, on the current panel: the
calls made on `device` and the warnings written. -/
def applyEffectStandardLoc (identifier : String) (p : Panel) :
    Except Fault (List EffectCall × List Warning) :=
  let zone := LightingLocation.Lighting
  if identifier = "lighting_breath_single" then do
    let c ← getColorForButton 1 zone p
    pure ([EffectCall.setBreathSingle c], [])
  else if identifier = "lighting_breath_dual" then do
    let c1 ← getColorForButton 1 zone p
    let c2 ← getColorForButton 2 zone p
    pure ([EffectCall.setBreathDual c1 c2], [])
  else if identifier = "lighting_breath_triple" then do
    let c1 ← getColorForButton 1 zone p
    let c2 ← getColorForButton 2 zone p
    let c3 ← getColorForButton 3 zone p
    pure ([EffectCall.setBreathTriple c1 c2 c3], [])
  else if identifier = "lighting_breath_random" then do
    pure ([EffectCall.setBreathRandom], [])
  else if identifier = "lighting_wave" then do
    let direction ← getWaveDirection zone p
    pure ([EffectCall.setWave direction], [])
  else if identifier = "lighting_reactive" then do
    let c ← getColorForButton 1 zone p
    pure ([EffectCall.setReactive c ReactiveSpeed.REACTIVE_500MS], [])
  else if identifier = "lighting_none" then do
    pure ([EffectCall.setNone], [])
  else if identifier = "lighting_spectrum" then do
    pure ([EffectCall.setSpectrum], [])
  else if identifier = "lighting_static" then do
    let c ← getColorForButton 1 zone p
    pure ([EffectCall.setStatic c], [])
  else if identifier = "lighting_ripple" then do
    let c ← getColorForButton 1 zone p
    pure ([EffectCall.setRipple c RippleRefreshRate.RIPPLE_REFRESH_RATE], [])
  else if identifier = "lighting_ripple_random" then do
    pure ([EffectCall.setRippleRandomColor RippleRefreshRate.RIPPLE_REFRESH_RATE], [])
  else if identifier = "lighting_static_bw2013" then do
    pure ([EffectCall.setStatic_bw2013], [])
  else if identifier = "lighting_pulsate" then do
    pure ([EffectCall.setPulsate], [])
  else pure ([], [Warning.notImplemented identifier])

/-- `RazerGenie::applyEffectLogoLoc(identifier, device)`, on the current panel: the
calls made on `device` and the warnings written. -/
def applyEffectLogoLoc (identifier : String) (p : Panel) :
    Except Fault (List EffectCall × List Warning) :=
  let zone := LightingLocation.LightingLogo
  if identifier = "lighting_logo_blinking" then do
    let c ← getColorForButton 1 zone p
    pure ([EffectCall.setLogoBlinking c], [])
  else if identifier = "lighting_logo_pulsate" then do
    let c ← getColorForButton 1 zone p
    pure ([EffectCall.setLogoPulsate c], [])
  else if identifier = "lighting_logo_spectrum" then do
    pure ([EffectCall.setLogoSpectrum], [])
  else if identifier = "lighting_logo_static" then do
    let c ← getColorForButton 1 zone p
    pure ([EffectCall.setLogoStatic c], [])
  else if identifier = "lighting_logo_none" then do
    pure ([EffectCall.setLogoNone], [])
  else if identifier = "lighting_logo_wave" then do
    let direction ← getWaveDirection zone p
    pure ([EffectCall.setLogoWave direction], [])
  else if identifier = "lighting_logo_reactive" then do
    let c ← getColorForButton 1 zone p
    pure ([EffectCall.setLogoReactive c ReactiveSpeed.REACTIVE_500MS], [])
  else if identifier = "lighting_logo_breath_single" then do
    let c ← getColorForButton 1 zone p
    pure ([EffectCall.setLogoBreathSingle c], [])
  else if identifier = "lighting_logo_breath_dual" then do
    let c1 ← getColorForButton 1 zone p
    let c2 ← getColorForButton 2 zone p
    pure ([EffectCall.setLogoBreathDual c1 c2], [])
  else if identifier = "lighting_logo_breath_random" then do
    pure ([EffectCall.setLogoBreathRandom], [])
  else pure ([], [Warning.notImplemented identifier])

/-- `RazerGenie::applyEffectScrollLoc(identifier, device)`, on the current panel: the
calls made on `device` and the warnings written. -/
def applyEffectScrollLoc (identifier : String) (p : Panel) :
    Except Fault (List EffectCall × List Warning) :=
  let zone := LightingLocation.LightingScroll
  if identifier = "lighting_scroll_blinking" then do
    let c ← getColorForButton 1 zone p
    pure ([EffectCall.setScrollBlinking c], [])
  else if identifier = "lighting_scroll_pulsate" then do
    let c ← getColorForButton 1 zone p
    pure ([EffectCall.setScrollPulsate c], [])
  else if identifier = "lighting_scroll_spectrum" then do
    pure ([EffectCall.setScrollSpectrum], [])
  else if identifier = "lighting_scroll_static" then do
    let c ← getColorForButton 1 zone p
    pure ([EffectCall.setScrollStatic c], [])
  else if identifier = "lighting_scroll_none" then do
    pure ([EffectCall.setScrollNone], [])
  else if identifier = "lighting_scroll_wave" then do
    let direction ← getWaveDirection zone p
    pure ([EffectCall.setScrollWave direction], [])
  else if identifier = "lighting_scroll_reactive" then do
    let c ← getColorForButton 1 zone p
    pure ([EffectCall.setScrollReactive c ReactiveSpeed.REACTIVE_500MS], [])
  else if identifier = "lighting_scroll_breath_single" then do
    let c ← getColorForButton 1 zone p
    pure ([EffectCall.setScrollBreathSingle c], [])
  else if identifier = "lighting_scroll_breath_dual" then do
    let c1 ← getColorForButton 1 zone p
    let c2 ← getColorForButton 2 zone p
    pure ([EffectCall.setScrollBreathDual c1 c2], [])
  else if identifier = "lighting_scroll_breath_random" then do
    pure ([EffectCall.setScrollBreathRandom], [])
  else pure ([], [Warning.notImplemented identifier])

/-- `RazerGenie::applyEffectBacklightLoc(identifier, device)`, on the current panel: the
calls made on `device` and the warnings written. -/
def applyEffectBacklightLoc (identifier : String) (p : Panel) :
    Except Fault (List EffectCall × List Warning) :=
  let zone := LightingLocation.LightingBacklight
  if identifier = "lighting_backlight_spectrum" then do
    pure ([EffectCall.setBacklightSpectrum], [])
  else if identifier = "lighting_backlight_static" then do
    let c ← getColorForButton 1 zone p
    pure ([EffectCall.setBacklightStatic c], [])
  else pure ([], [Warning.notImplemented identifier])

/-- `RazerGenie::standardCombo(index)`: `commonCombo`, then the dispatcher of the
zone on the panel as `commonCombo` left it. -/
def standardCombo (t : Tables) (index : Nat) (p : Panel) :
    Except Fault (Panel × List EffectCall × List Warning) :=
  match commonCombo t LightingLocation.Lighting index p with
  | Except.error f => Except.error f
  | Except.ok r =>
    match applyEffectStandardLoc r.2 r.1 with
    | Except.error f => Except.error f
    | Except.ok o => Except.ok (r.1, o)

/-- `RazerGenie::scrollCombo(index)`: `commonCombo`, then the dispatcher of the
zone on the panel as `commonCombo` left it. -/
def scrollCombo (t : Tables) (index : Nat) (p : Panel) :
    Except Fault (Panel × List EffectCall × List Warning) :=
  match commonCombo t LightingLocation.LightingScroll index p with
  | Except.error f => Except.error f
  | Except.ok r =>
    match applyEffectScrollLoc r.2 r.1 with
    | Except.error f => Except.error f
    | Except.ok o => Except.ok (r.1, o)

/-- `RazerGenie::logoCombo(index)`: `commonCombo`, then the dispatcher of the
zone on the panel as `commonCombo` left it. -/
def logoCombo (t : Tables) (index : Nat) (p : Panel) :
    Except Fault (Panel × List EffectCall × List Warning) :=
  match commonCombo t LightingLocation.LightingLogo index p with
  | Except.error f => Except.error f
  | Except.ok r =>
    match applyEffectLogoLoc r.2 r.1 with
    | Except.error f => Except.error f
    | Except.ok o => Except.ok (r.1, o)

/-- `RazerGenie::backlightCombo(index)`: `commonCombo`, then the dispatcher of the
zone on the panel as `commonCombo` left it. -/
def backlightCombo (t : Tables) (index : Nat) (p : Panel) :
    Except Fault (Panel × List EffectCall × List Warning) :=
  match commonCombo t LightingLocation.LightingBacklight index p with
  | Except.error f => Except.error f
  | Except.ok r =>
    match applyEffectBacklightLoc r.2 r.1 with
    | Except.error f => Except.error f
    | Except.ok o => Except.ok (r.1, o)

/-- `RazerGenie::applyEffect(loc)` on the current panel: the calls made on the
device, the warnings written and the messages shown.  The selector is looked
up by the number of the location and read through the pointer before the
location is tested; `findChild` finds it when it was put into the panel. -/
def applyEffect (t : Tables) (loc : LightingLocation) (p : Panel) :
    Except Fault (List EffectCall × List Warning × List Message) :=
  match (p.findSection loc).filter (fun sec => sec.comboAdded) with
  | none => Except.error Fault.nullPointer
  | some combobox =>
    let capability := (combobox.items.get? combobox.currentIndex).getD t.defaultCapability
    let identifier := capability.identifier
    match loc with
    | LightingLocation.Lighting =>
      (applyEffectStandardLoc identifier p).map (fun r => (r.1, r.2, []))
    | LightingLocation.LightingLogo =>
      (applyEffectLogoLoc identifier p).map (fun r => (r.1, r.2, []))
    | LightingLocation.LightingScroll =>
      (applyEffectScrollLoc identifier p).map (fun r => (r.1, r.2, []))
    | LightingLocation.LightingBacklight =>
      (applyEffectBacklightLoc identifier p).map (fun r => (r.1, r.2, []))
    | LightingLocation.other _ =>
      Except.ok ([], [], [Message.error "Unhandled lighting location in applyEffect()"])

/-! ## The placeholder page -/

/-- The addresses the buttons of the start-up views and of the placeholder
open (the `#define`s of lines 36-39). -/
inductive Url where
  | newIssueUrl
  | supportedDevicesUrl
  | troubleshootingUrl
  | websiteUrl
deriving DecidableEq, Repr

/-- The contents of the placeholder page: the header and the two buttons,
each with its text and the address its slot opens. -/
structure Placeholder where
  headerLabel : String
  button1 : String × Url
  button2 : String × Url
deriving DecidableEq, Repr

/-- The inner loop of `getNoDevicePlaceholder` (lines 798-805): the connected
pairs equal to (`vid`, `pid`), in order. -/
def matchConnected (vid pid : Int) : List (Int × Int) → List (Int × Int)
  | [] => []
  | x :: rest =>
    if x.1 = vid ∧ x.2 = pid then x :: matchConnected vid pid rest
    else matchConnected vid pid rest

/-- The outer loop of `getNoDevicePlaceholder` (lines 787-806) over the
entries of `getSupportedDevices()`, each value as the list `toList()` gives
with its elements converted by `toInt()`: the pairs appended to `matches` and
the lists written as warnings. -/
def scanSupported (connectedDevices : List (Int × Int)) :
    List (String × List Int) → List (Int × Int) × List (List Int)
  | [] => ([], [])
  | (_, list) :: rest =>
    let r := scanSupported connectedDevices rest
    match list with
    | [vid, pid] => (matchConnected vid pid connectedDevices ++ r.1, r.2)
    | _ => (r.1, list :: r.2)

/-- The part of `RazerGenie::getNoDevicePlaceholder` that runs when nothing is
cached (lines 780-842), for the pairs returned by `getConnectedDevices_lsusb`
and the table returned by `getSupportedDevices`: the page and the lists
written as warnings. -/
def buildNoDevicePlaceholder (connectedDevices : List (Int × Int))
    (supportedDevices : List (String × List Int)) : Placeholder × List (List Int) :=
  let r : List (Int × Int) × List (List Int) :=
    if connectedDevices.length ≠ 0 then scanSupported connectedDevices supportedDevices
    else ([], [])
  if r.1.length = 0 then
    (⟨"No device was detected", ("Open supported devices", Url.supportedDevicesUrl),
      ("Report issue", Url.newIssueUrl)⟩, r.2)
  else
    (⟨"The daemon didn't detect a device that is connected",
      ("Open troubleshooting page", Url.troubleshootingUrl),
      ("Report issue", Url.newIssueUrl)⟩, r.2)

/-! ## Start-up -/

/-- Modelled from the spec: `libopenrazer::DaemonStatus`, "enum:
Enabled/Disabled/NotInstalled/NoSystemd/Unknown". -/
inductive DaemonStatus where
  | Enabled
  | Disabled
  | NotInstalled
  | NoSystemd
  | Unknown
deriving DecidableEq, Repr

/-- What the constructor puts into the window: one of the three views shown
without the daemon, or the normal UI of `setupUi`. -/
inductive View where
  | notInstalled (button : String × Url)
  | noSystemd
  | statusOutput (textEdit : String) (issueButton : String × Url)
  | normal (ui : State)
deriving DecidableEq, Repr

/-- The window after the constructor: the view, whether the message box
about auto-start was shown, whether `enableDaemon()` was called, and whether
the `QDBusServiceWatcher` for "org.razer" was created and connected. -/
structure Window where
  view : View
  messageBox : Bool
  enableDaemon : Bool
  watcher : Bool
deriving DecidableEq, Repr

/-- `RazerGenie::RazerGenie` (lines 41-129), for the answers of
`getDaemonStatus()`, `isDaemonRunning()`, `getDaemonStatusOutput()` and
`getConnectedDevices()`, and for whether the user clicks Enable in the message
box. -/
def newRazerGenie (daemonStatus : DaemonStatus) (isDaemonRunning : Bool)
    (getDaemonStatusOutput : String) (serialnrs : List String) (enableClicked : Bool) :
    Window :=
  if !isDaemonRunning then
    if daemonStatus = DaemonStatus.NotInstalled then
      ⟨View.notInstalled ("Open OpenRazer website", Url.websiteUrl), false, false, false⟩
    else if daemonStatus = DaemonStatus.NoSystemd then
      ⟨View.noSystemd, false, false, false⟩
    else
      ⟨View.statusOutput getDaemonStatusOutput ("Report issue", Url.newIssueUrl),
        false, false, false⟩
  else
    let ui := setupUi serialnrs
    if daemonStatus = DaemonStatus.Disabled then
      ⟨View.normal ui, true, enableClicked, true⟩
    else
      ⟨View.normal ui, false, false, true⟩


/-! ## Signals during construction -/

/-- The slots of `RazerGenie` that `addDeviceToGui` connects to a signal of a
control. -/
inductive Slot where
  | standardCombo
  | logoCombo
  | scrollCombo
  | backlightCombo
  | brightnessChanged
  | logoBrightnessChanged
  | scrollBrightnessChanged
  | backlightBrightnessChanged
  | waveRadioButtonStandard
  | waveRadioButtonLogo
  | waveRadioButtonScroll
  | colorButtonClicked
  | logoActiveCheckbox
  | scrollActiveCheckbox
  | backlightActiveCheckbox
  | profileLedCheckbox
  | dpiChanged
  | dpiSyncCheckbox
  | dpiComboChanged
  | pollCombo
  | openCustomEditor
deriving DecidableEq, Repr

/-- The signals the slots are connected to. -/
inductive Signal where
  | currentIndexChanged
  | valueChanged
  | toggled
  | clicked
deriving DecidableEq, Repr

/-- One run of a slot, with the argument the signal carried (a Boolean as 0
or 1). -/
structure SlotRun where
  slot : Slot
  argument : Int
deriving DecidableEq, Repr

/-- A control with the connection made for it by `connect`, if any. -/
structure Wired (α : Type) where
  control : α
  connected : Option (Signal × Slot)
deriving DecidableEq, Repr

/-- A control as created: nothing is connected. -/
def Wired.new {α : Type} (control : α) : Wired α :=
  ⟨control, none⟩

/-- `connect(control, signal, this, slot)`. -/
def Wired.connect {α : Type} (w : Wired α) (signal : Signal) (slot : Slot) : Wired α :=
  { w with connected := some (signal, slot) }

/-- The control emits `signal`: the connected slot runs when it is connected
to that signal. -/
def Wired.emit {α : Type} (w : Wired α) (signal : Signal) (argument : Int) : List SlotRun :=
  match w.connected with
  | none => []
  | some (sig, slot) => if sig = signal then [⟨slot, argument⟩] else []

/-- `QAbstractSlider::setValue`: `valueChanged` is emitted when the bounded
value differs from the old one. -/
def Wired.setValue (w : Wired QSlider) (v : Int) : Wired QSlider × List SlotRun :=
  let sl := w.control.setValue v
  ({ w with control := sl },
    if sl.value = w.control.value then [] else w.emit Signal.valueChanged sl.value)

/-- `QAbstractSlider::setMaximum`: `valueChanged` is emitted when the new
range moves the value. -/
def Wired.setMaximum (w : Wired QSlider) (max : Int) : Wired QSlider × List SlotRun :=
  let sl := w.control.setMaximum max
  ({ w with control := sl },
    if sl.value = w.control.value then [] else w.emit Signal.valueChanged sl.value)

/-- The part of a `QComboBox` that its signal depends on: the number of
entries and the current index, -1 when there is none. -/
structure QComboBox where
  count : Nat
  currentIndex : Int
deriving DecidableEq, Repr

/-- `new QComboBox`. -/
def QComboBox.new : QComboBox :=
  ⟨0, -1⟩

/-- `QComboBox::addItem`: the first entry becomes the current one, and
`currentIndexChanged(0)` is emitted. -/
def Wired.addItem (w : Wired QComboBox) : Wired QComboBox × List SlotRun :=
  if w.control.count = 0 then
    ({ w with control := ⟨1, 0⟩ }, w.emit Signal.currentIndexChanged 0)
  else ({ w with control := ⟨w.control.count + 1, w.control.currentIndex⟩ }, [])

/-- A loop of `n` calls of `addItem`. -/
def Wired.addItems (w : Wired QComboBox) : Nat → Wired QComboBox × List SlotRun
  | 0 => (w, [])
  | n + 1 =>
    let r := w.addItem
    let q := Wired.addItems r.1 n
    (q.1, r.2 ++ q.2)

/-- `QComboBox::setCurrentText(text)` on a selector that is not editable:
`setCurrentIndex(findText(text))` when the text is found; the signal is
emitted when the index changes. -/
def Wired.setCurrentText (w : Wired QComboBox) (found : Option Nat) :
    Wired QComboBox × List SlotRun :=
  match found with
  | none => (w, [])
  | some i =>
    if (i : Int) = w.control.currentIndex then (w, [])
    else ({ w with control := ⟨w.control.count, i⟩ }, w.emit Signal.currentIndexChanged i)

/-- `QAbstractButton::setChecked` on a check box: `toggled` is emitted when
the state changes; `clicked` is not emitted. -/
def Wired.setChecked (w : Wired Bool) (checked : Bool) : Wired Bool × List SlotRun :=
  ({ w with control := checked },
    if checked = w.control then [] else w.emit Signal.toggled (if checked then 1 else 0))

/-- The radio buttons of a panel are auto-exclusive: checking one unchecks
the checked ones among the others, each of which emits `toggled(false)`. -/
def uncheckOthers : List (Wired Bool) → List (Wired Bool) × List SlotRun
  | [] => ([], [])
  | w :: rest =>
    let r := uncheckOthers rest
    if w.control then ({ w with control := false } :: r.1, w.emit Signal.toggled 0 ++ r.2)
    else (w :: r.1, r.2)

/-- `connect(radio, &QRadioButton::toggled, this, slot)` for the radio button
created last; the backlight zone has no slot for it. -/
def connectLast (radios : List (Wired Bool)) (slot : Option Slot) : List (Wired Bool) :=
  match slot, radios.getLast? with
  | some sl, some radio => radios.dropLast ++ [radio.connect Signal.toggled sl]
  | _, _ => radios

/-- The loop over the two radio buttons of a zone (lines 512-534), given the
radio buttons the panel has so far: button 1 is created and checked, then
connected; button 2 is created and connected. -/
def addRadioButtons (radios : List (Wired Bool)) (slot : Option Slot) :
    List (Wired Bool) × List SlotRun :=
  let others := uncheckOthers radios
  let radio1 := (Wired.new false).setChecked true
  let radios1 := connectLast (others.1 ++ [radio1.1]) slot
  let radios2 := connectLast (radios1 ++ [Wired.new false]) slot
  (radios2, others.2 ++ radio1.2)

/-- A check box created, set to `checked` and then connected through
`clicked` (lines 541-544, 575-583, 637-678). -/
def addCheckBox (checked : Bool) (slot : Slot) : Wired Bool × List SlotRun :=
  let box := (Wired.new false).setChecked checked
  (box.1.connect Signal.clicked slot, box.2)

/-- What the daemon answers for the getters behind the check boxes. -/
structure DeviceFlags where
  getLogoActive : Bool
  getScrollActive : Bool
  getBacklightActive : Bool
  getRedLED : Bool
  getGreenLED : Bool
  getBlueLED : Bool
deriving DecidableEq, Repr

/-- The radio buttons the panel has so far and the slots run so far. -/
structure Construction where
  radios : List (Wired Bool)
  runs : List SlotRun
deriving DecidableEq, Repr

/-- The selector, the brightness slider and the radio buttons of one pass of
the loop over `lightingLocationsTodo`, in the order of the statements: the
entries are added and the selector is connected (lines 393-400), the slider
is created, set and connected (lines 403-414), the radio buttons follow when
the selector has an entry (lines 489-535). -/
def zoneControls (d : DeviceInfo) (items : List RazerCapability) (comboSlot : Slot)
    (brightness getter : String) (current : Int) (brightnessSlot : Slot)
    (waveSlot : Option Slot) (c : Construction) : Construction :=
  let comboBox := (Wired.new QComboBox.new).addItems items.length
  let comboBox1 := comboBox.1.connect Signal.currentIndexChanged comboSlot
  let slider : Option (Wired QSlider × List SlotRun) :=
    if d.hasCapability brightness then
      let brightnessSlider :=
        if d.hasCapability getter then (Wired.new QSlider.new).setValue current
        else (Wired.new QSlider.new).setValue 100
      some (brightnessSlider.1.connect Signal.valueChanged brightnessSlot, brightnessSlider.2)
    else none
  let sliderRuns : List SlotRun :=
    match slider with
    | some r => r.2
    | none => []
  if comboBox1.control.count ≠ 0 then
    let radios := addRadioButtons c.radios waveSlot
    ⟨radios.1, c.runs ++ comboBox.2 ++ sliderRuns ++ radios.2⟩
  else ⟨c.radios, c.runs ++ comboBox.2 ++ sliderRuns⟩


/-- One pass of the loop over `lightingLocationsTodo` (lines 354-597), as far
as signals are concerned: the controls of `zoneControls`, then the Set Active
check box of the zone or the three profile LED check boxes, each set from the
daemon and then connected.  The colour buttons are connected through
`clicked` and nothing is set on them. -/
def zoneRuns (t : Tables) (d : DeviceInfo) (f : DeviceFlags) :
    LightingLocation → Construction → Construction
  | LightingLocation.Lighting, c =>
    let c1 := zoneControls d (comboItems d t.lightingComboBoxCapabilites) Slot.standardCombo
      "brightness" "get_brightness" d.getBrightness Slot.brightnessChanged
      (some Slot.waveRadioButtonStandard) c
    let leds : List SlotRun :=
      if d.hasCapability "lighting_profile_leds" then
        (addCheckBox f.getRedLED Slot.profileLedCheckbox).2 ++
        (addCheckBox f.getGreenLED Slot.profileLedCheckbox).2 ++
        (addCheckBox f.getBlueLED Slot.profileLedCheckbox).2
      else []
    { c1 with runs := c1.runs ++ leds }
  | LightingLocation.LightingLogo, c =>
    let c1 := zoneControls d (comboItems d t.logoComboBoxCapabilites) Slot.logoCombo
      "lighting_logo_brightness" "get_lighting_logo_brightness" d.getLogoBrightness
      Slot.logoBrightnessChanged (some Slot.waveRadioButtonLogo) c
    let active : List SlotRun :=
      if d.hasCapability "lighting_logo_active" && !d.hasCapability "lighting_logo_none" then
        (addCheckBox f.getLogoActive Slot.logoActiveCheckbox).2
      else []
    { c1 with runs := c1.runs ++ active }
  | LightingLocation.LightingScroll, c =>
    let c1 := zoneControls d (comboItems d t.scrollComboBoxCapabilites) Slot.scrollCombo
      "lighting_scroll_brightness" "get_lighting_scroll_brightness" d.getScrollBrightness
      Slot.scrollBrightnessChanged (some Slot.waveRadioButtonScroll) c
    let active : List SlotRun :=
      if d.hasCapability "lighting_scroll_active" && !d.hasCapability "lighting_scroll_none" then
        (addCheckBox f.getScrollActive Slot.scrollActiveCheckbox).2
      else []
    { c1 with runs := c1.runs ++ active }
  | LightingLocation.LightingBacklight, c =>
    let c1 := zoneControls d (comboItems d t.backlightComboBoxCapabilites) Slot.backlightCombo
      "lighting_backlight_brightness" "get_lighting_backlight_brightness"
      d.getBacklightBrightness Slot.backlightBrightnessChanged none c
    let active : List SlotRun :=
      if d.hasCapability "lighting_backlight_active" &&
          !d.hasCapability "lighting_backlight_none" then
        (addCheckBox f.getBacklightActive Slot.backlightActiveCheckbox).2
      else []
    { c1 with runs := c1.runs ++ active }
  | LightingLocation.other _, c => c

/-- The DPI sliders and the Lock X/Y check box (lines 630-678): the values
are set, then the maximum, then the check box, and the three are connected
last. -/
def dpiSliderRuns (syncDpi : Bool) (d : DeviceInfo) : List SlotRun :=
  let dpiXSlider := Wired.new QSlider.new
  let dpiYSlider := Wired.new QSlider.new
  let dpiSyncCheckbox := Wired.new false
  let currDPI := d.getDPI
  let seeded : (Wired QSlider × List SlotRun) × (Wired QSlider × List SlotRun) :=
    match currDPI with
    | [x, y] => (dpiXSlider.setValue (Int.tdiv x 100), dpiYSlider.setValue (Int.tdiv y 100))
    | _ => ((dpiXSlider, []), (dpiYSlider, []))
  let maxDPI := d.maxDPI
  let dpiX := seeded.1.1.setMaximum (Int.tdiv maxDPI 100)
  let dpiY := seeded.2.1.setMaximum (Int.tdiv maxDPI 100)
  let sync := dpiSyncCheckbox.setChecked syncDpi
  seeded.1.2 ++ seeded.2.2 ++ dpiX.2 ++ dpiY.2 ++ sync.2

/-- The DPI dropdown (lines 690-698): the entries are added, the current text
is set, and the selector is connected last.  The flag tells whether the
statements were completed; they are not when `getDPI()` has no element 0. -/
def dpiComboRuns (d : DeviceInfo) : List SlotRun × Bool :=
  let dpiComboBox := (Wired.new QComboBox.new).addItems d.availableDPI.length
  match d.getDPI.get? 0 with
  | none => (dpiComboBox.2, false)
  | some dpi =>
    let r := dpiComboBox.1.setCurrentText (findText dpi d.availableDPI 0)
    (dpiComboBox.2 ++ r.2, true)

/-- The poll-rate selector (lines 707-714): three entries are added, the
current text is set, and the selector is connected last. -/
def pollComboRuns (d : DeviceInfo) : List SlotRun :=
  let pollComboBox := (Wired.new QComboBox.new).addItems 3
  let r := pollComboBox.1.setCurrentText (findText d.getPollRate [125, 500, 1000] 0)
  pollComboBox.2 ++ r.2

/-- The slots that run while `RazerGenie::addDeviceToGui` builds the panel
(lines 316-740), in order, for the table constants `t`, the member `syncDpi`
and the daemon's answers `d` and `f`. -/
def addDeviceToGuiRuns (t : Tables) (syncDpi : Bool) (d : DeviceInfo) (f : DeviceFlags) :
    List SlotRun :=
  let zones := (lightingLocationsTodo d).foldl (fun c loc => zoneRuns t d f loc c) ⟨[], []⟩
  let sliders : List SlotRun :=
    if d.hasCapability "dpi" && !d.hasCapability "available_dpi" then dpiSliderRuns syncDpi d
    else []
  let dropdown : List SlotRun × Bool :=
    if d.hasCapability "dpi" && d.hasCapability "available_dpi" then dpiComboRuns d
    else ([], true)
  let poll : List SlotRun :=
    if dropdown.2 && d.hasCapability "poll_rate" then pollComboRuns d else []
  zones.runs ++ sliders ++ dropdown.1 ++ poll

/-- The daemon calls a slot run makes.  The three wave slots call
`applyEffect` for their zone when the argument is true and do nothing
otherwise (lines 1219-1235); `applyEffect` gives the calls that makes, and
`slotCalls` the calls of every other slot for its argument. -/
def SlotRun.calls {α : Type} (applyEffect : LightingLocation → List α)
    (slotCalls : Slot → Int → List α) (r : SlotRun) : List α :=
  match r.slot with
  | Slot.waveRadioButtonStandard =>
    if r.argument ≠ 0 then applyEffect LightingLocation.Lighting else []
  | Slot.waveRadioButtonLogo =>
    if r.argument ≠ 0 then applyEffect LightingLocation.LightingLogo else []
  | Slot.waveRadioButtonScroll =>
    if r.argument ≠ 0 then applyEffect LightingLocation.LightingScroll else []
  | slot => slotCalls slot r.argument

/-- The daemon calls made while `addDeviceToGui` builds the panel: the calls
of the slots that run, in order.  The statements of `addDeviceToGui` itself
call getters only. -/
def addDeviceToGuiCalls {α : Type} (applyEffect : LightingLocation → List α)
    (slotCalls : Slot → Int → List α) (t : Tables) (syncDpi : Bool) (d : DeviceInfo)
    (f : DeviceFlags) : List α :=
  ((addDeviceToGuiRuns t syncDpi d f).map (SlotRun.calls applyEffect slotCalls)).flatten


/-! ## Predicates and reference values used in the statements -/

/-- `widget->device()->serial()` of a list entry. -/
def DeviceListWidget.serial (item : DeviceListWidget) : String :=
  item.device.serial

/-- The registry entry that a list entry stands for. -/
def DeviceListWidget.entry (item : DeviceListWidget) : String × Device :=
  (item.device.serial, item.device)

/-- A `QHash` holds each key once. -/
def KeysUnique (s : State) : Prop :=
  (keys s.devices).Nodup

/-- Addresses in use are below the allocation counter. -/
def Fresh (s : State) : Prop :=
  (∀ w ∈ s.stackedWidget, w.addr < s.heap) ∧ (∀ a, s.noDevicePlaceholder = some a → a < s.heap)

/-- Page `i` of the stack is the panel of the serial of list entry `i`, and
the two have the same length. -/
def Aligned (stack : List Widget) (list : List DeviceListWidget) : Prop :=
  List.Forall₂ (fun w item => w.getSerial = some item.device.serial) stack list

/-- The registry and its paired UI state agree: the list entries are the
registry entries (same serial, same handle) in some order, and either the
stack is aligned with the list or nothing is registered and the stack holds
the cached placeholder alone. -/
def Consistent (s : State) : Prop :=
  KeysUnique s ∧
  (s.listWidget.map DeviceListWidget.entry).Perm s.devices ∧
  (Aligned s.stackedWidget s.listWidget ∨
    (s.listWidget = [] ∧ ∃ a, s.stackedWidget = [Widget.placeholder a] ∧
      s.noDevicePlaceholder = some a)) ∧
  Fresh s

/-- The device handles that `addDeviceToGui` allocates for the serials, one
after the other, from the counter value `heap`. -/
def newDevices (heap : Nat) : List String → List Device
  | [] => []
  | serial :: rest => ⟨heap, serial⟩ :: newDevices (heap + 2) rest

/-- The panels that `addDeviceToGui` allocates for the serials, one after the
other, from the counter value `heap`. -/
def newPanels (heap : Nat) : List String → List Widget
  | [] => []
  | serial :: rest => Widget.razerDeviceWidget (heap + 1) serial :: newPanels (heap + 2) rest

/-- The removal branch of `refreshStep`, taken or not by membership in the
daemon list `serialnrs`. -/
def dropStep (serialnrs : List String) (s : State) (e : String × Device) : State :=
  if e.1 ∈ serialnrs then s
  else
    let r := removeDeviceFromGui e.1 s
    { r.2 with devices := remove r.2.devices e.1, deleted := r.2.deleted ++ [e.2] }

/-- Whether a serial survives the removal loop run over the entries `es`. -/
def kept (serialnrs : List String) (es : List (String × Device)) (serial : String) : Bool :=
  decide (serial ∈ serialnrs ∨ serial ∉ keys es)

/-- Whether a page survives the removal loop run over the entries `es`. -/
def keptPage (serialnrs : List String) (es : List (String × Device)) (w : Widget) : Bool :=
  match w.getSerial with
  | none => true
  | some serial => kept serialnrs es serial

/-- Whether a page is the panel of a serial of the list. -/
def panelIn (serialnrs : List String) (w : Widget) : Bool :=
  match w.getSerial with
  | none => false
  | some serial => decide (serial ∈ serialnrs)

/-- The serials of the daemon list that are not registered. -/
def added (serialnrs : List String) (s : State) : List String :=
  serialnrs.filter (fun k => decide (k ∉ keys s.devices))

/-- Calls made on the main window. -/
inductive Op where
  | fillDeviceList (serialnrs : List String)
  | refreshDeviceList (serialnrs : List String)
  | clearDeviceList
deriving DecidableEq, Repr

/-- Effect of a call. -/
def Op.apply : Op → State → State
  | .fillDeviceList serialnrs, s => RazerGenie.fillDeviceList serialnrs s
  | .refreshDeviceList serialnrs, s => RazerGenie.refreshDeviceList serialnrs s
  | .clearDeviceList, s => RazerGenie.clearDeviceList s

/-- Effect of a sequence of calls. -/
def run (ops : List Op) (s : State) : State :=
  ops.foldl (fun st op => op.apply st) s

/-- A sequence of calls in which every daemon list is duplicate-free and
`fillDeviceList` runs only while nothing is registered (at start-up and
after `clearDeviceList`). -/
def orderly : List Op → State → Bool
  | [], _ => true
  | Op.fillDeviceList serialnrs :: ops, s =>
    decide (serialnrs.Nodup) && s.devices.isEmpty &&
      orderly ops (RazerGenie.fillDeviceList serialnrs s)
  | Op.refreshDeviceList serialnrs :: ops, s =>
    decide (serialnrs.Nodup) && orderly ops (RazerGenie.refreshDeviceList serialnrs s)
  | Op.clearDeviceList :: ops, s => orderly ops (RazerGenie.clearDeviceList s)

/-- Number of list entries for a serial. -/
def entriesOf (serial : String) (s : State) : Nat :=
  (s.listWidget.filter (fun item => decide (item.device.serial = serial))).length

/-- Number of device panels for a serial in the stack. -/
def panelsOf (serial : String) (s : State) : Nat :=
  (s.stackedWidget.filter (fun w => decide (w.getSerial = some serial))).length

/-- Number of device panels in the stack. -/
def panelCount (s : State) : Nat :=
  (s.stackedWidget.filter Widget.isPanel).length

/-- Number of placeholder pages in the stack. -/
def placeholderCount (s : State) : Nat :=
  (s.stackedWidget.filter Widget.isPlaceholder).length

/-- A hexadecimal numeral: one hexadecimal digit or more. -/
def IsHexNumeral (s : String) : Prop :=
  s.data ≠ [] ∧ ∀ c ∈ s.data, (hexDigit c).isSome = true

instance decidableIsHexNumeral (s : String) : Decidable (IsHexNumeral s) := by
  unfold IsHexNumeral
  infer_instance

/-- The number a hexadecimal numeral stands for. -/
def hexValue (s : String) : Nat :=
  s.data.foldl (fun acc c => 16 * acc + (hexDigit c).getD 0) 0

/-- The identifiers that `applyEffectStandardLoc` names, each with the setter of the
effect as a function of the colours of buttons 1 to 3 and of the direction. -/
def standardEffects : List (String × (QColor → QColor → QColor → WaveDirection → EffectCall)) :=
  [
    ("lighting_breath_single", fun c1 _ _ _ => EffectCall.setBreathSingle c1),
    ("lighting_breath_dual", fun c1 c2 _ _ => EffectCall.setBreathDual c1 c2),
    ("lighting_breath_triple", fun c1 c2 c3 _ => EffectCall.setBreathTriple c1 c2 c3),
    ("lighting_breath_random", fun _ _ _ _ => EffectCall.setBreathRandom),
    ("lighting_wave", fun _ _ _ dir => EffectCall.setWave dir),
    ("lighting_reactive", fun c1 _ _ _ => EffectCall.setReactive c1 ReactiveSpeed.REACTIVE_500MS),
    ("lighting_none", fun _ _ _ _ => EffectCall.setNone),
    ("lighting_spectrum", fun _ _ _ _ => EffectCall.setSpectrum),
    ("lighting_static", fun c1 _ _ _ => EffectCall.setStatic c1),
    ("lighting_ripple", fun c1 _ _ _ => EffectCall.setRipple c1 RippleRefreshRate.RIPPLE_REFRESH_RATE),
    ("lighting_ripple_random", fun _ _ _ _ => EffectCall.setRippleRandomColor RippleRefreshRate.RIPPLE_REFRESH_RATE),
    ("lighting_static_bw2013", fun _ _ _ _ => EffectCall.setStatic_bw2013),
    ("lighting_pulsate", fun _ _ _ _ => EffectCall.setPulsate)]

/-- The same for `applyEffectLogoLoc`. -/
def logoEffects : List (String × (QColor → QColor → QColor → WaveDirection → EffectCall)) :=
  [
    ("lighting_logo_blinking", fun c1 _ _ _ => EffectCall.setLogoBlinking c1),
    ("lighting_logo_pulsate", fun c1 _ _ _ => EffectCall.setLogoPulsate c1),
    ("lighting_logo_spectrum", fun _ _ _ _ => EffectCall.setLogoSpectrum),
    ("lighting_logo_static", fun c1 _ _ _ => EffectCall.setLogoStatic c1),
    ("lighting_logo_none", fun _ _ _ _ => EffectCall.setLogoNone),
    ("lighting_logo_wave", fun _ _ _ dir => EffectCall.setLogoWave dir),
    ("lighting_logo_reactive", fun c1 _ _ _ => EffectCall.setLogoReactive c1 ReactiveSpeed.REACTIVE_500MS),
    ("lighting_logo_breath_single", fun c1 _ _ _ => EffectCall.setLogoBreathSingle c1),
    ("lighting_logo_breath_dual", fun c1 c2 _ _ => EffectCall.setLogoBreathDual c1 c2),
    ("lighting_logo_breath_random", fun _ _ _ _ => EffectCall.setLogoBreathRandom)]

/-- The same for `applyEffectScrollLoc`. -/
def scrollEffects : List (String × (QColor → QColor → QColor → WaveDirection → EffectCall)) :=
  [
    ("lighting_scroll_blinking", fun c1 _ _ _ => EffectCall.setScrollBlinking c1),
    ("lighting_scroll_pulsate", fun c1 _ _ _ => EffectCall.setScrollPulsate c1),
    ("lighting_scroll_spectrum", fun _ _ _ _ => EffectCall.setScrollSpectrum),
    ("lighting_scroll_static", fun c1 _ _ _ => EffectCall.setScrollStatic c1),
    ("lighting_scroll_none", fun _ _ _ _ => EffectCall.setScrollNone),
    ("lighting_scroll_wave", fun _ _ _ dir => EffectCall.setScrollWave dir),
    ("lighting_scroll_reactive", fun c1 _ _ _ => EffectCall.setScrollReactive c1 ReactiveSpeed.REACTIVE_500MS),
    ("lighting_scroll_breath_single", fun c1 _ _ _ => EffectCall.setScrollBreathSingle c1),
    ("lighting_scroll_breath_dual", fun c1 c2 _ _ => EffectCall.setScrollBreathDual c1 c2),
    ("lighting_scroll_breath_random", fun _ _ _ _ => EffectCall.setScrollBreathRandom)]

/-- The same for `applyEffectBacklightLoc`. -/
def backlightEffects : List (String × (QColor → QColor → QColor → WaveDirection → EffectCall)) :=
  [
    ("lighting_backlight_spectrum", fun _ _ _ _ => EffectCall.setBacklightSpectrum),
    ("lighting_backlight_static", fun c1 _ _ _ => EffectCall.setBacklightStatic c1)]

/-- The zone `location` of the panel has its three colour buttons, showing
`c1`, `c2` and `c3`, and its radio buttons, and `direction` is what the Left
button tells. -/
def HasControls (p : Panel) (location : LightingLocation) (c1 c2 c3 : QColor)
    (direction : WaveDirection) : Prop :=
  ∃ sec, p.findSection location = some sec ∧
    sec.colorbuttons.map QPushButton.color = [c1, c2, c3] ∧
    sec.radiobuttons ≠ [] ∧
    direction = (if p.checkedRadio = some (location, 1) then WaveDirection.WAVE_LEFT
      else WaveDirection.WAVE_RIGHT)

/-- Whether colour button `i` (1 to 3) of the zone is there and not hidden. -/
def ZoneSection.colorVisible (sec : ZoneSection) (i : Nat) : Prop :=
  ∃ b, sec.colorbuttons.get? (i - 1) = some b ∧ b.hidden = false

/-- Whether both radio buttons of the zone are there and not hidden. -/
def ZoneSection.directionVisible (sec : ZoneSection) : Prop :=
  ∃ b1 b2, sec.radiobuttons = [b1, b2] ∧ b1.hidden = false ∧ b2.hidden = false

/-- The entry that the effect selector of the zone shows as selected. -/
def ZoneSection.selected (sec : ZoneSection) : Option RazerCapability :=
  sec.items.get? sec.currentIndex

/-- The table of a zone. -/
def zoneTable (t : Tables) : LightingLocation → List RazerCapability
  | LightingLocation.Lighting => t.lightingComboBoxCapabilites
  | LightingLocation.LightingLogo => t.logoComboBoxCapabilites
  | LightingLocation.LightingScroll => t.scrollComboBoxCapabilites
  | LightingLocation.LightingBacklight => t.backlightComboBoxCapabilites
  | LightingLocation.other _ => []

/-- Tables for the evaluations below: for each zone the identifiers that its
dispatcher names, in the dispatcher's order, each with the number of colour
buttons and the use of the direction toggle that the dispatcher makes for it;
the labels repeat the identifiers. -/
def sampleTables : Tables :=
  { lightingComboBoxCapabilites := [
      ⟨"lighting_breath_single", "lighting_breath_single", 1, false⟩,
      ⟨"lighting_breath_dual", "lighting_breath_dual", 2, false⟩,
      ⟨"lighting_breath_triple", "lighting_breath_triple", 3, false⟩,
      ⟨"lighting_breath_random", "lighting_breath_random", 0, false⟩,
      ⟨"lighting_wave", "lighting_wave", 0, true⟩,
      ⟨"lighting_reactive", "lighting_reactive", 1, false⟩,
      ⟨"lighting_none", "lighting_none", 0, false⟩,
      ⟨"lighting_spectrum", "lighting_spectrum", 0, false⟩,
      ⟨"lighting_static", "lighting_static", 1, false⟩,
      ⟨"lighting_ripple", "lighting_ripple", 1, false⟩,
      ⟨"lighting_ripple_random", "lighting_ripple_random", 0, false⟩,
      ⟨"lighting_static_bw2013", "lighting_static_bw2013", 0, false⟩,
      ⟨"lighting_pulsate", "lighting_pulsate", 0, false⟩]
    logoComboBoxCapabilites := [
      ⟨"lighting_logo_blinking", "lighting_logo_blinking", 1, false⟩,
      ⟨"lighting_logo_pulsate", "lighting_logo_pulsate", 1, false⟩,
      ⟨"lighting_logo_spectrum", "lighting_logo_spectrum", 0, false⟩,
      ⟨"lighting_logo_static", "lighting_logo_static", 1, false⟩,
      ⟨"lighting_logo_none", "lighting_logo_none", 0, false⟩,
      ⟨"lighting_logo_wave", "lighting_logo_wave", 0, true⟩,
      ⟨"lighting_logo_reactive", "lighting_logo_reactive", 1, false⟩,
      ⟨"lighting_logo_breath_single", "lighting_logo_breath_single", 1, false⟩,
      ⟨"lighting_logo_breath_dual", "lighting_logo_breath_dual", 2, false⟩,
      ⟨"lighting_logo_breath_random", "lighting_logo_breath_random", 0, false⟩]
    scrollComboBoxCapabilites := [
      ⟨"lighting_scroll_blinking", "lighting_scroll_blinking", 1, false⟩,
      ⟨"lighting_scroll_pulsate", "lighting_scroll_pulsate", 1, false⟩,
      ⟨"lighting_scroll_spectrum", "lighting_scroll_spectrum", 0, false⟩,
      ⟨"lighting_scroll_static", "lighting_scroll_static", 1, false⟩,
      ⟨"lighting_scroll_none", "lighting_scroll_none", 0, false⟩,
      ⟨"lighting_scroll_wave", "lighting_scroll_wave", 0, true⟩,
      ⟨"lighting_scroll_reactive", "lighting_scroll_reactive", 1, false⟩,
      ⟨"lighting_scroll_breath_single", "lighting_scroll_breath_single", 1, false⟩,
      ⟨"lighting_scroll_breath_dual", "lighting_scroll_breath_dual", 2, false⟩,
      ⟨"lighting_scroll_breath_random", "lighting_scroll_breath_random", 0, false⟩]
    backlightComboBoxCapabilites := [
      ⟨"lighting_backlight_spectrum", "lighting_backlight_spectrum", 0, false⟩,
      ⟨"lighting_backlight_static", "lighting_backlight_static", 1, false⟩]
    defaultCapability := ⟨"", "", 0, false⟩ }

/-- Daemon answers for the evaluations below: a device with the capabilities
`capabilities` whose `getDPI()` returns `dpi`; brightness 255 in every zone,
maximum 16000 DPI, available DPI 400, 800 and 1600, poll rate 500. -/
def sampleDevice (capabilities : List String) (dpi : List Int) : DeviceInfo :=
  { capabilities := capabilities, getBrightness := 255, getLogoBrightness := 255,
    getScrollBrightness := 255, getBacklightBrightness := 255, getDPI := dpi,
    maxDPI := 16000, availableDPI := [400, 800, 1600], getPollRate := 500 }

/-- A panel for the evaluations below: the standard zone with the effects
Breath Single and Breath Dual, the second one selected, the colour buttons
showing red, blue and green, and the Left radio button checked. -/
def samplePanel : Panel :=
  { sections := [
      { location := LightingLocation.Lighting
        items := [⟨"lighting_breath_single", "lighting_breath_single", 1, false⟩,
          ⟨"lighting_breath_dual", "lighting_breath_dual", 2, false⟩]
        currentIndex := 1
        comboAdded := true
        colorbuttons := [⟨⟨16711680⟩, false⟩, ⟨⟨255⟩, false⟩, ⟨⟨65280⟩, true⟩]
        radiobuttons := [⟨true⟩, ⟨true⟩]
        brightnessSlider := none }]
    checkedRadio := some (LightingLocation.Lighting, 1)
    dpiSliders := none
    dpiComboBox := none
    pollComboBox := none
    customEditor := false
    warnings := [] }

/-- Calls under which `fillDeviceList` runs at start-up and after the daemon
was lost, with refreshes in between. -/
def sampleOps : List Op :=
  [Op.fillDeviceList ["A", "B"], Op.refreshDeviceList ["B", "C"], Op.clearDeviceList,
    Op.fillDeviceList ["B", "D"]]

/-- A run of a wave slot with the argument false. -/
def Harmless (r : SlotRun) : Prop :=
  r.argument = 0 ∧
    (r.slot = Slot.waveRadioButtonStandard ∨ r.slot = Slot.waveRadioButtonLogo ∨
      r.slot = Slot.waveRadioButtonScroll)

/-- A wave slot, or no slot. -/
def WaveSlot (slot : Option Slot) : Prop :=
  slot = none ∨ slot = some Slot.waveRadioButtonStandard ∨
    slot = some Slot.waveRadioButtonLogo ∨ slot = some Slot.waveRadioButtonScroll

/-- Every radio button is unconnected or connected to a wave slot through
`toggled`. -/
def RadiosWave (radios : List (Wired Bool)) : Prop :=
  ∀ w ∈ radios, w.connected = none ∨
    ∃ slot, w.connected = some (Signal.toggled, slot) ∧ WaveSlot (some slot)

/-- The daemon answers used in the evaluations: every flag set. -/
def sampleFlags : DeviceFlags :=
  ⟨true, true, true, true, true, true⟩


/-! ## Theorems: evaluation at concrete inputs -/

/-- C1 (counterexample): with registry {A} and the daemon list [A, A], the
refresh keeps A in the first pass and then adds it again: A gets a new
`Device` handle, a second list entry and a second panel. -/
theorem refreshDeviceList_repeated_serial :
    value (setupUi ["A"]).devices "A" = some ⟨0, "A"⟩ ∧
    value (refreshDeviceList ["A", "A"] (setupUi ["A"])).devices "A" = some ⟨2, "A"⟩ ∧
    (refreshDeviceList ["A", "A"] (setupUi ["A"])).listWidget = [⟨⟨0, "A"⟩⟩, ⟨⟨2, "A"⟩⟩] ∧
    (refreshDeviceList ["A", "A"] (setupUi ["A"])).stackedWidget =
      [Widget.razerDeviceWidget 1 "A", Widget.razerDeviceWidget 3 "A"] := by
  decide

/-- C2 (counterexample): with the daemon list [A, A] a second refresh is not
a no-op; it adds a further list entry and a further panel for A. -/
theorem refreshDeviceList_twice_repeated_serial :
    refreshDeviceList ["A", "A"] (refreshDeviceList ["A", "A"] initial) ≠
      refreshDeviceList ["A", "A"] initial ∧
    (refreshDeviceList ["A", "A"] initial).listWidget.length = 2 ∧
    (refreshDeviceList ["A", "A"] (refreshDeviceList ["A", "A"] initial)).listWidget.length = 3 ∧
    (refreshDeviceList ["A", "A"] initial).stackedWidget.length = 2 ∧
    (refreshDeviceList ["A", "A"] (refreshDeviceList ["A", "A"] initial)).stackedWidget.length
      = 3 := by
  decide

/-- C3 (the code at the failing input): start-up with the daemon list [A],
then a refresh with the empty daemon list.  `removeDeviceFromGui` tests
`devices.isEmpty()` while A is still registered, so the registry ends empty
and the stack ends empty, without the placeholder. -/
theorem refreshDeviceList_last_device_no_placeholder :
    (refreshDeviceList [] (setupUi ["A"])).devices = [] ∧
    (refreshDeviceList [] (setupUi ["A"])).listWidget = [] ∧
    (refreshDeviceList [] (setupUi ["A"])).stackedWidget = [] ∧
    placeholderCount (refreshDeviceList [] (setupUi ["A"])) = 0 := by
  decide

/-- C4 (counterexample): `fillDeviceList` run twice with the daemon list [A]
leaves one registry key with two list entries and two panels. -/
theorem fillDeviceList_twice_two_entries :
    keys (run [Op.fillDeviceList ["A"], Op.fillDeviceList ["A"]] initial).devices = ["A"] ∧
    entriesOf "A" (run [Op.fillDeviceList ["A"], Op.fillDeviceList ["A"]] initial) = 2 ∧
    panelsOf "A" (run [Op.fillDeviceList ["A"], Op.fillDeviceList ["A"]] initial) = 2 := by
  decide

/-- C6 (counterexample): handling `dbusServiceRegistered` twice with the
daemon list [A] gives two list entries and two panels, against one and one
after the first handling. -/
theorem dbusServiceRegistered_twice_counts :
    (dbusServiceRegistered ["A"] initial).listWidget.length = 1 ∧
    (dbusServiceRegistered ["A"] (dbusServiceRegistered ["A"] initial)).listWidget.length = 2 ∧
    panelCount (dbusServiceRegistered ["A"] initial) = 1 ∧
    panelCount (dbusServiceRegistered ["A"] (dbusServiceRegistered ["A"] initial)) = 2 := by
  decide

/-! ## Theorems: losing the daemon -/

theorem clearStep_length (i : Nat) (s : State) (h : s.stackedWidget.length ≤ i + 1) :
    (clearStep i s).stackedWidget.length ≤ i := by
  unfold clearStep widget
  cases hw : s.stackedWidget.get? i with
  | none =>
    have := List.get?_eq_none.mp hw
    simpa [removeWidget] using this
  | some w =>
    have hm := List.get?_mem hw
    have hlt : (s.stackedWidget.filter (fun x => decide (x ≠ w))).length
        < s.stackedWidget.length :=
      List.length_filter_lt_length_iff_exists.mpr ⟨w, hm, by simp⟩
    simp only [removeWidget]
    omega

theorem clearLoop_spec (i : Nat) (s : State) (h : s.stackedWidget.length ≤ i + 1) :
    (clearLoop i s).stackedWidget = [] ∧ (clearLoop i s).devices = s.devices ∧
    (clearLoop i s).listWidget = s.listWidget ∧
    (clearLoop i s).noDevicePlaceholder = s.noDevicePlaceholder ∧
    (clearLoop i s).heap = s.heap ∧ (clearLoop i s).messages = s.messages ∧
    (clearLoop i s).deleted = s.deleted := by
  induction i generalizing s with
  | zero =>
    have h0 := clearStep_length 0 s h
    refine ⟨?_, rfl, rfl, rfl, rfl, rfl, rfl⟩
    simpa [clearLoop] using h0
  | succ n ih =>
    have h1 := clearStep_length (n + 1) s h
    have := ih (clearStep (n + 1) s) h1
    simpa [clearLoop, clearStep] using this

theorem addPlaceholder_empty (t : State) (ht : t.stackedWidget = []) :
    ∃ a, addPlaceholder t =
      { t with stackedWidget := [Widget.placeholder a], noDevicePlaceholder := some a,
               heap := if t.noDevicePlaceholder = none then t.heap + 1 else t.heap } ∧
      (t.noDevicePlaceholder = some a ∨ t.noDevicePlaceholder = none ∧ a = t.heap) := by
  cases hc : t.noDevicePlaceholder with
  | none =>
    exact ⟨t.heap, by simp [addPlaceholder, getNoDevicePlaceholder, hc, addWidget, ht],
      Or.inr ⟨rfl, rfl⟩⟩
  | some a =>
    refine ⟨a, ?_, Or.inl rfl⟩
    simp only [addPlaceholder, getNoDevicePlaceholder, hc, addWidget, ht]
    cases t
    simp_all

theorem clearDeviceList_spec (s : State) :
    (clearDeviceList s).devices = [] ∧ (clearDeviceList s).listWidget = [] ∧
    (clearDeviceList s).messages = s.messages ∧ (clearDeviceList s).deleted = s.deleted ∧
    ∃ a, (clearDeviceList s).stackedWidget = [Widget.placeholder a] ∧
      (clearDeviceList s).noDevicePlaceholder = some a ∧
      (s.noDevicePlaceholder = some a ∧ (clearDeviceList s).heap = s.heap ∨
        s.noDevicePlaceholder = none ∧ a = s.heap ∧ (clearDeviceList s).heap = s.heap + 1) := by
  obtain ⟨h1, h2, h3, h4, h5, h6, h7⟩ :=
    clearLoop_spec ({ s with devices := [], listWidget := [] } : State).stackedWidget.length
      { s with devices := [], listWidget := [] } (Nat.le_succ _)
  simp only at h1 h2 h3 h4 h5 h6 h7
  unfold clearDeviceList
  simp only
  generalize clearLoop _ _ = t at h1 h2 h3 h4 h5 h6 h7
  obtain ⟨a, ha, hcase⟩ := addPlaceholder_empty t h1
  rw [ha]
  refine ⟨h2, h3, h6, h7, a, rfl, rfl, ?_⟩
  rcases hcase with hc | ⟨hc, rfl⟩
  · left
    simp [hc, ← h4, h5]
  · right
    simp [hc, ← h4, h5]

/-- The state at the return of `dbusServiceUnregistered`, before the deferred
deletions run: the registry and the device list are empty, the stack holds
the cached placeholder alone, and one error was shown. -/
theorem dbusServiceUnregistered_at_return (s : State) :
    (dbusServiceUnregistered s).devices = [] ∧
    (dbusServiceUnregistered s).listWidget = [] ∧
    (∃ a, (dbusServiceUnregistered s).stackedWidget = [Widget.placeholder a] ∧
      (dbusServiceUnregistered s).noDevicePlaceholder = some a) ∧
    (dbusServiceUnregistered s).messages = s.messages ++ [Message.error
      "The D-Bus connection was lost, which probably means that the daemon has crashed."] := by
  obtain ⟨h1, h2, h3, _, a, h5, h6, _⟩ := clearDeviceList_spec s
  refine ⟨h1, h2, ⟨a, h5, h6⟩, ?_⟩
  simp only [dbusServiceUnregistered, h3]

/-! ## Theorems: the registry as a hash -/

theorem keys_insert (h : List (String × Device)) (k : String) (d : Device) :
    keys (insert h k d) = if k ∈ keys h then keys h else keys h ++ [k] := by
  unfold insert
  split
  · unfold keys
    rw [List.map_map]
    apply List.map_congr_left
    intro e _
    by_cases he : e.1 = k <;> simp [he]
  · simp [keys]

theorem insert_of_not_mem (h : List (String × Device)) (k : String) (d : Device)
    (hk : k ∉ keys h) : insert h k d = h ++ [(k, d)] := by
  simp [insert, hk]

theorem insert_ne_nil (h : List (String × Device)) (k : String) (d : Device) :
    insert h k d ≠ [] := by
  unfold insert
  split
  · rename_i hk
    intro hnil
    have : h = [] := by simpa using hnil
    simp [this, keys] at hk
  · simp

theorem mem_keys_remove (h : List (String × Device)) (k k1 : String) :
    k1 ∈ keys (remove h k) ↔ k1 ∈ keys h ∧ k1 ≠ k := by
  simp only [keys, remove, List.mem_map, List.mem_filter, decide_eq_true_eq]
  constructor
  · rintro ⟨e, ⟨he, hne⟩, rfl⟩
    exact ⟨⟨e, he, rfl⟩, hne⟩
  · rintro ⟨⟨e, he, rfl⟩, hne⟩
    exact ⟨e, ⟨he, hne⟩, rfl⟩

/-! ## Theorems: adding devices -/

theorem addEach_nil (s : State) : addEach [] s = s := rfl

theorem addEach_cons (k : String) (ks : List String) (s : State) :
    addEach (k :: ks) s = addEach ks (addDeviceToGui k s) := rfl

theorem addEach_listWidget_length (L : List String) (s : State) :
    (addEach L s).listWidget.length = s.listWidget.length + L.length := by
  induction L generalizing s with
  | nil => rfl
  | cons k ks ih =>
    rw [addEach_cons, ih]
    simp [addDeviceToGui]
    omega

theorem mem_keys_addEach (L : List String) (s : State) (k : String) :
    k ∈ keys (addEach L s).devices ↔ k ∈ keys s.devices ∨ k ∈ L := by
  induction L generalizing s with
  | nil => simp [addEach_nil]
  | cons k1 ks ih =>
    rw [addEach_cons, ih]
    have : (addDeviceToGui k1 s).devices = insert s.devices k1 ⟨s.heap, k1⟩ := rfl
    rw [this, keys_insert]
    by_cases h1 : k1 ∈ keys s.devices
    · simp only [h1, if_true, List.mem_cons]
      constructor
      · rintro (h | h)
        · exact Or.inl h
        · exact Or.inr (Or.inr h)
      · rintro (h | h | h)
        · exact Or.inl h
        · exact Or.inl (h ▸ h1)
        · exact Or.inr h
    · simp only [h1, if_false, List.mem_append, List.mem_singleton, List.mem_cons]
      tauto

theorem keys_addEach_of_mem (L : List String) (s : State)
    (h : ∀ k ∈ L, k ∈ keys s.devices) : keys (addEach L s).devices = keys s.devices := by
  induction L generalizing s with
  | nil => rfl
  | cons k1 ks ih =>
    have h1 : k1 ∈ keys s.devices := h k1 (List.mem_cons_self _ _)
    have hd : keys (addDeviceToGui k1 s).devices = keys s.devices := by
      have : (addDeviceToGui k1 s).devices = insert s.devices k1 ⟨s.heap, k1⟩ := rfl
      rw [this, keys_insert, if_pos h1]
    rw [addEach_cons, ih, hd]
    intro k hk
    rw [hd]
    exact h k (List.mem_cons_of_mem _ hk)

theorem nodup_keys_addEach (L : List String) (s : State) (h : (keys s.devices).Nodup) :
    (keys (addEach L s).devices).Nodup := by
  induction L generalizing s with
  | nil => exact h
  | cons k1 ks ih =>
    rw [addEach_cons]
    apply ih
    have : (addDeviceToGui k1 s).devices = insert s.devices k1 ⟨s.heap, k1⟩ := rfl
    rw [this, keys_insert]
    split
    · exact h
    · rename_i hk
      exact List.Nodup.append h (List.nodup_singleton _) (by simpa using hk)

theorem addEach_devices_ne_nil (L : List String) (s : State) (h : s.devices ≠ [] ∨ L ≠ []) :
    (addEach L s).devices ≠ [] := by
  induction L generalizing s with
  | nil => simpa [addEach_nil] using h
  | cons k1 ks ih =>
    rw [addEach_cons]
    exact ih _ (Or.inl (insert_ne_nil _ _ _))

theorem length_newPanels (h : Nat) (L : List String) : (newPanels h L).length = L.length := by
  induction L generalizing h with
  | nil => rfl
  | cons k ks ih => simp [newPanels, ih]

theorem filter_isPanel_newPanels (h : Nat) (L : List String) :
    (newPanels h L).filter Widget.isPanel = newPanels h L := by
  induction L generalizing h with
  | nil => rfl
  | cons k ks ih => simp [newPanels, ih, Widget.isPanel]

theorem filter_isPlaceholder_newPanels (h : Nat) (L : List String) :
    (newPanels h L).filter Widget.isPlaceholder = [] := by
  induction L generalizing h with
  | nil => rfl
  | cons k ks ih => simp [newPanels, ih, Widget.isPlaceholder]

theorem mem_removeWidget (stack : List Widget) (o : Option Widget) (x : Widget)
    (h : x ∈ removeWidget stack o) : x ∈ stack := by
  cases o with
  | none => exact h
  | some w => exact (List.mem_filter.mp h).1

theorem addWidget_of_fresh (stack : List Widget) (w : Widget)
    (h : ∀ x ∈ stack, x.addr < w.addr) : addWidget stack w = stack ++ [w] := by
  unfold addWidget
  congr 1
  rw [List.filter_eq_self]
  intro x hx
  have hlt := h x hx
  simp only [ne_eq, decide_not, Bool.not_eq_true', decide_eq_false_iff_not]
  intro heq
  rw [heq] at hlt
  exact Nat.lt_irrefl _ hlt

theorem fresh_addDeviceToGui (k : String) (s : State) (hf : Fresh s) :
    Fresh (addDeviceToGui k s) := by
  refine ⟨?_, ?_⟩
  · intro x hx
    simp only [addDeviceToGui, addWidget, List.mem_append, List.mem_filter,
      List.mem_singleton] at hx
    show x.addr < s.heap + 2
    rcases hx with ⟨hx, _⟩ | rfl
    · have hmem : x ∈ s.stackedWidget := by
        split at hx
        · exact mem_removeWidget _ _ _ hx
        · exact hx
      have := hf.1 x hmem
      omega
    · simp [Widget.addr]
  · intro a ha
    have := hf.2 a ha
    show a < s.heap + 2
    omega

theorem fresh_addEach (L : List String) (s : State) (hf : Fresh s) : Fresh (addEach L s) := by
  induction L generalizing s with
  | nil => exact hf
  | cons k ks ih => exact ih _ (fresh_addDeviceToGui k s hf)

theorem addDeviceToGui_append (k : String) (s : State) (hf : Fresh s)
    (h : s.devices ≠ [] ∨ s.stackedWidget = []) :
    addDeviceToGui k s =
      { s with
        heap := s.heap + 2
        listWidget := s.listWidget ++ [⟨⟨s.heap, k⟩⟩]
        devices := insert s.devices k ⟨s.heap, k⟩
        stackedWidget := s.stackedWidget ++ [Widget.razerDeviceWidget (s.heap + 1) k] } := by
  have hstack : (if s.devices.isEmpty then removeWidget s.stackedWidget (widget s.stackedWidget 0)
      else s.stackedWidget) = s.stackedWidget := by
    rcases h with h | h
    · have : s.devices.isEmpty = false := by
        cases hd : s.devices with
        | nil => exact absurd hd h
        | cons _ _ => rfl
      simp [this]
    · split
      · simp [h, widget, removeWidget]
      · rfl
  unfold addDeviceToGui
  simp only [hstack]
  rw [addWidget_of_fresh]
  intro x hx
  have := hf.1 x hx
  show x.addr < s.heap + 1
  omega

theorem addEach_gui (L : List String) (s : State) (hf : Fresh s)
    (h : s.devices ≠ [] ∨ s.stackedWidget = []) :
    (addEach L s).stackedWidget = s.stackedWidget ++ newPanels s.heap L ∧
    (addEach L s).listWidget = s.listWidget ++ (newDevices s.heap L).map DeviceListWidget.mk ∧
    (addEach L s).heap = s.heap + 2 * L.length ∧
    (addEach L s).noDevicePlaceholder = s.noDevicePlaceholder ∧
    (addEach L s).deleted = s.deleted ∧ (addEach L s).messages = s.messages ∧
    (addEach L s).deleteLater = s.deleteLater := by
  induction L generalizing s with
  | nil => simp [addEach_nil, newPanels, newDevices]
  | cons k ks ih =>
    have hf1 := fresh_addDeviceToGui k s hf
    have hne : (addDeviceToGui k s).devices ≠ [] := insert_ne_nil _ _ _
    obtain ⟨h1, h2, h3, h4, h5, h6, h7⟩ := ih (addDeviceToGui k s) hf1 (Or.inl hne)
    have hh : (addDeviceToGui k s).heap = s.heap + 2 := rfl
    rw [addEach_cons, h1, h2, h3, h4, h5, h6, h7, hh, addDeviceToGui_append k s hf h]
    simp only [newPanels, newDevices, List.map_cons, List.append_assoc, List.singleton_append,
      List.length_cons, true_and, and_true]
    omega

theorem addEach_devices (L : List String) (s : State) (hL : L.Nodup)
    (h : ∀ k ∈ L, k ∉ keys s.devices) :
    (addEach L s).devices = s.devices ++ (newDevices s.heap L).map (fun d => (d.serial, d)) := by
  induction L generalizing s with
  | nil => simp [addEach_nil, newDevices]
  | cons k ks ih =>
    have hk : k ∉ keys s.devices := h k (List.mem_cons_self _ _)
    have hd : (addDeviceToGui k s).devices = s.devices ++ [(k, ⟨s.heap, k⟩)] :=
      insert_of_not_mem _ _ _ hk
    have hh : (addDeviceToGui k s).heap = s.heap + 2 := rfl
    rw [List.nodup_cons] at hL
    rw [addEach_cons, ih _ hL.2, hd, hh]
    · simp [newDevices]
    · intro k1 hk1
      rw [hd]
      simp only [keys, List.map_append, List.map_cons, List.map_nil, List.mem_append,
        List.mem_singleton, not_or]
      refine ⟨h k1 (List.mem_cons_of_mem _ hk1), ?_⟩
      intro heq
      exact hL.1 (heq ▸ hk1)

/-! ## Theorems: the removal loop of `refreshDeviceList` -/

theorem foldl_refreshStep_fst (es : List (String × Device)) (rem : List String) (st : State) :
    (es.foldl refreshStep (rem, st)).1 = es.foldl (fun r e => r.erase e.1) rem := by
  induction es generalizing rem st with
  | nil => rfl
  | cons e es ih =>
    simp only [List.foldl_cons]
    unfold refreshStep
    split <;> exact ih _ _

theorem foldl_refreshStep_snd (L : List String) (es : List (String × Device))
    (rem : List String) (st : State) (hes : (keys es).Nodup)
    (hrem : ∀ k ∈ keys es, k ∈ rem ↔ k ∈ L) :
    (es.foldl refreshStep (rem, st)).2 = es.foldl (dropStep L) st := by
  induction es generalizing rem st with
  | nil => rfl
  | cons e es ih =>
    simp only [keys, List.map_cons, List.nodup_cons] at hes
    have hrem1 : ∀ k ∈ keys es, k ∈ rem.erase e.1 ↔ k ∈ L := by
      intro k hk
      have hne : k ≠ e.1 := fun heq => hes.1 (heq ▸ hk)
      rw [List.mem_erase_of_ne hne]
      exact hrem k (List.mem_cons_of_mem _ hk)
    have hhead : e.1 ∈ rem ↔ e.1 ∈ L := hrem e.1 (List.mem_cons_self _ _)
    simp only [List.foldl_cons]
    unfold refreshStep dropStep
    by_cases hm : e.1 ∈ L
    · rw [if_pos (hhead.mpr hm), if_pos hm]
      exact ih _ _ hes.2 hrem1
    · rw [if_neg (fun h => hm (hhead.mp h)), if_neg hm]
      exact ih _ _ hes.2 hrem1

theorem foldl_erase_nodup (es : List (String × Device)) (L : List String) (hL : L.Nodup) :
    es.foldl (fun r e => r.erase e.1) L = L.filter (fun k => decide (k ∉ keys es)) := by
  induction es generalizing L with
  | nil => simp [keys]
  | cons e es ih =>
    simp only [List.foldl_cons]
    rw [ih _ (hL.erase _), hL.erase_eq_filter, List.filter_filter]
    apply List.filter_congr
    intro k _
    simp only [keys, List.map_cons, List.mem_cons, not_or, bne_iff_ne, ne_eq, decide_not,
      Bool.decide_and]
    by_cases h1 : k = e.1 <;> simp [h1]

theorem kept_nil (L : List String) (k : String) : kept L [] k = true := by
  simp [kept, keys]

theorem kept_cons_mem (L : List String) (e : String × Device) (es : List (String × Device))
    (h : e.1 ∈ L) (k : String) : kept L (e :: es) k = kept L es k := by
  unfold kept
  simp only [keys, List.map_cons, List.mem_cons, not_or]
  by_cases h1 : k = e.1
  · subst h1
    simp [h]
  · simp [h1]

theorem kept_cons_not_mem (L : List String) (e : String × Device) (es : List (String × Device))
    (h : e.1 ∉ L) (k : String) :
    kept L (e :: es) k = (kept L es k && decide (k ≠ e.1)) := by
  unfold kept
  simp only [keys, List.map_cons, List.mem_cons, not_or]
  by_cases h1 : k = e.1
  · subst h1
    simp [h]
  · simp [h1]

theorem addPlaceholder_devices (s : State) : (addPlaceholder s).devices = s.devices := by
  unfold addPlaceholder getNoDevicePlaceholder
  cases s.noDevicePlaceholder <;> rfl

theorem removeDeviceFromGui_devices (k : String) (s : State) :
    (removeDeviceFromGui k s).2.devices = s.devices := by
  unfold removeDeviceFromGui
  split
  · rfl
  · simp only
    split
    · simp only [addPlaceholder_devices]
    · rfl

theorem foldl_dropStep_devices (L : List String) (es : List (String × Device)) (st : State) :
    (es.foldl (dropStep L) st).devices = st.devices.filter (fun e => kept L es e.1) := by
  induction es generalizing st with
  | nil => simp [kept_nil]
  | cons e es ih =>
    simp only [List.foldl_cons]
    rw [ih]
    by_cases hm : e.1 ∈ L
    · have h1 : dropStep L st e = st := by simp [dropStep, hm]
      rw [h1]
      apply List.filter_congr
      intro x _
      exact (kept_cons_mem L e es hm x.1).symm
    · have h1 : (dropStep L st e).devices = remove st.devices e.1 := by
        simp [dropStep, hm, removeDeviceFromGui_devices]
      rw [h1, remove, List.filter_filter]
      apply List.filter_congr
      intro x _
      exact (kept_cons_not_mem L e es hm x.1).symm

theorem foldl_dropStep_of_mem (L : List String) (es : List (String × Device)) (st : State)
    (h : ∀ e ∈ es, e.1 ∈ L) : es.foldl (dropStep L) st = st := by
  induction es generalizing st with
  | nil => rfl
  | cons e es ih =>
    simp only [List.foldl_cons]
    have h1 : dropStep L st e = st := by simp [dropStep, h e (List.mem_cons_self _ _)]
    rw [h1]
    exact ih st (fun e1 he1 => h e1 (List.mem_cons_of_mem _ he1))

/-! ## Theorems: removal on an aligned list and stack -/

theorem filter_cons_keep {α : Type} (p : α → Bool) (a : α) (l : List α) (h : p a = true) :
    (a :: l).filter p = a :: l.filter p :=
  List.filter_cons_of_pos h

theorem filter_cons_drop {α : Type} (p : α → Bool) (a : α) (l : List α) (h : p a = false) :
    (a :: l).filter p = l.filter p :=
  List.filter_cons_of_neg (by simp [h])

theorem aligned_mem_serial {stack : List Widget} {list : List DeviceListWidget}
    (h : Aligned stack list) (x : Widget) (hx : x ∈ stack) :
    ∃ item ∈ list, x.getSerial = some item.device.serial := by
  induction h with
  | nil => exact absurd hx (List.not_mem_nil x)
  | cons hR _ ih =>
    rcases List.mem_cons.mp hx with rfl | hx1
    · exact ⟨_, List.mem_cons_self _ _, hR⟩
    · obtain ⟨item, hi, hs⟩ := ih hx1
      exact ⟨item, List.mem_cons_of_mem _ hi, hs⟩

theorem aligned_filter {stack : List Widget} {list : List DeviceListWidget}
    (h : Aligned stack list) (ps : Widget → Bool) (pl : DeviceListWidget → Bool)
    (hp : ∀ w item, w.getSerial = some item.device.serial → ps w = pl item) :
    Aligned (stack.filter ps) (list.filter pl) := by
  induction h with
  | nil => exact List.Forall₂.nil
  | cons hR hrest ih =>
    rename_i w item _ _
    have hpw := hp w item hR
    cases hpl : pl item with
    | true =>
      rw [hpl] at hpw
      rw [filter_cons_keep ps _ _ hpw, filter_cons_keep pl _ _ hpl]
      exact List.Forall₂.cons hR ih
    | false =>
      rw [hpl] at hpw
      rw [filter_cons_drop ps _ _ hpw, filter_cons_drop pl _ _ hpl]
      exact ih

theorem aligned_append {a c : List Widget} {b d : List DeviceListWidget}
    (h1 : Aligned a b) (h2 : Aligned c d) : Aligned (a ++ c) (b ++ d) := by
  induction h1 with
  | nil => exact h2
  | cons hR _ ih => exact List.Forall₂.cons hR ih

theorem aligned_new (h : Nat) (L : List String) :
    Aligned (newPanels h L) ((newDevices h L).map DeviceListWidget.mk) := by
  induction L generalizing h with
  | nil => exact List.Forall₂.nil
  | cons k ks ih => exact List.Forall₂.cons rfl (ih _)

theorem findItem_aligned (k : String) {stack : List Widget} {list : List DeviceListWidget}
    (h : Aligned stack list) (hn : (list.map DeviceListWidget.serial).Nodup) :
    (findItem k list = none →
      list.filter (fun item => decide (item.serial ≠ k)) = list ∧
      stack.filter (fun w => decide (w.getSerial ≠ some k)) = stack) ∧
    (∀ i, findItem k list = some i →
      ∃ w, stack.get? i = some w ∧ w.getSerial = some k ∧
        stack.filter (fun x => decide (x ≠ w)) =
          stack.filter (fun w => decide (w.getSerial ≠ some k)) ∧
        list.eraseIdx i = list.filter (fun item => decide (item.serial ≠ k))) := by
  induction h with
  | nil =>
    refine ⟨fun _ => ⟨rfl, rfl⟩, ?_⟩
    intro i hi
    simp [findItem] at hi
  | cons hR hrest ih =>
    rename_i w item stack1 list1
    rw [List.map_cons, List.nodup_cons] at hn
    obtain ⟨ih1, ih2⟩ := ih hn.2
    by_cases hk : item.device.serial = k
    · have hlist1 : ∀ it1 ∈ list1, it1.serial ≠ k := by
        intro it1 hit1 heq
        apply hn.1
        rw [DeviceListWidget.serial, hk, ← heq]
        exact List.mem_map.mpr ⟨it1, hit1, rfl⟩
      have hstack1 : ∀ x ∈ stack1, x.getSerial ≠ some k := by
        intro x hx heq
        obtain ⟨it1, hit1, hs⟩ := aligned_mem_serial hrest x hx
        rw [heq] at hs
        exact hlist1 it1 hit1 (Option.some.inj hs).symm
      have hwk : w.getSerial = some k := by rw [hR, hk]
      constructor
      · intro hnone
        simp [findItem, hk] at hnone
      · intro i hi
        have hi0 : i = 0 := by
          simp only [findItem, hk, if_true] at hi
          exact (Option.some.inj hi).symm
        subst hi0
        refine ⟨w, rfl, hwk, ?_, ?_⟩
        · have e1 : (w :: stack1).filter (fun x => decide (x ≠ w)) = stack1 := by
            rw [List.filter_cons_of_neg (by simp), List.filter_eq_self]
            intro x hx
            have := hstack1 x hx
            simp only [ne_eq, decide_not, Bool.not_eq_true', decide_eq_false_iff_not]
            intro heq
            exact this (heq ▸ hwk)
          have e2 : (w :: stack1).filter (fun w => decide (w.getSerial ≠ some k)) = stack1 := by
            rw [filter_cons_drop (fun w => decide (w.getSerial ≠ some k)) w stack1
              (by simp [hwk]), List.filter_eq_self]
            intro x hx
            simpa using hstack1 x hx
          rw [e1, e2]
        · rw [List.eraseIdx_cons_zero,
            filter_cons_drop (fun item => decide (item.serial ≠ k)) item list1
              (by simp [DeviceListWidget.serial, hk])]
          symm
          rw [List.filter_eq_self]
          intro it1 hit1
          simpa using hlist1 it1 hit1
    · have hw : w.getSerial ≠ some k := by
        rw [hR]
        intro heq
        exact hk (Option.some.inj heq)
      have hitem : decide (item.serial ≠ k) = true := by
        simpa [DeviceListWidget.serial] using hk
      have hwd : decide (w.getSerial ≠ some k) = true := by simpa using hw
      constructor
      · intro hnone
        have hnone1 : findItem k list1 = none := by
          simpa [findItem, hk] using hnone
        obtain ⟨a, b⟩ := ih1 hnone1
        rw [filter_cons_keep (fun item => decide (item.serial ≠ k)) item list1 hitem,
          filter_cons_keep (fun w => decide (w.getSerial ≠ some k)) w stack1 hwd, a, b]
        exact ⟨rfl, rfl⟩
      · intro i hi
        simp only [findItem, hk, if_false, Option.map_eq_some'] at hi
        obtain ⟨j, hj, rfl⟩ := hi
        obtain ⟨w1, g1, g2, g3, g4⟩ := ih2 j hj
        refine ⟨w1, by simpa using g1, g2, ?_, ?_⟩
        · have hne : w ≠ w1 := fun heq => hw (heq ▸ g2)
          rw [filter_cons_keep (fun x => decide (x ≠ w1)) w stack1 (by simpa using hne),
            filter_cons_keep (fun w => decide (w.getSerial ≠ some k)) w stack1 hwd, g3]
        · rw [List.eraseIdx_cons_succ,
            filter_cons_keep (fun item => decide (item.serial ≠ k)) item list1 hitem, g4]

theorem removeDeviceFromGui_aligned (k : String) (s : State)
    (hal : Aligned s.stackedWidget s.listWidget)
    (hn : (s.listWidget.map DeviceListWidget.serial).Nodup) (hne : s.devices ≠ []) :
    (removeDeviceFromGui k s).2 =
      { s with
        stackedWidget := s.stackedWidget.filter (fun w => decide (w.getSerial ≠ some k))
        listWidget := s.listWidget.filter (fun item => decide (item.serial ≠ k)) } := by
  obtain ⟨h1, h2⟩ := findItem_aligned k hal hn
  have hemp : s.devices.isEmpty = false := by
    cases hd : s.devices with
    | nil => exact absurd hd hne
    | cons _ _ => rfl
  unfold removeDeviceFromGui
  cases hfi : findItem k s.listWidget with
  | none =>
    obtain ⟨a, b⟩ := h1 hfi
    simp only [a, b]
  | some i =>
    obtain ⟨w, g1, _, g3, g4⟩ := h2 i hfi
    simp only [hemp, widget, g1, removeWidget, g3, g4]
    rfl

/-! ## Theorems: refreshing twice -/

theorem refreshDeviceList_eq (L : List String) (s : State) (hk : KeysUnique s) (hL : L.Nodup) :
    refreshDeviceList L s =
      addEach (L.filter (fun k => decide (k ∉ keys s.devices)))
        (s.devices.foldl (dropStep L) s) := by
  unfold refreshDeviceList
  simp only
  rw [foldl_refreshStep_fst, foldl_refreshStep_snd L _ _ _ hk (fun _ _ => Iff.rfl),
    foldl_erase_nodup _ _ hL]

theorem kept_self (L : List String) (es : List (String × Device)) (k : String)
    (h : k ∈ keys es) : kept L es k = decide (k ∈ L) := by
  simp [kept, h]

theorem mem_keys_filter_kept (L : List String) (es : List (String × Device)) (k : String) :
    k ∈ keys (es.filter (fun e => kept L es e.1)) ↔ k ∈ keys es ∧ k ∈ L := by
  simp only [keys, List.mem_map, List.mem_filter]
  constructor
  · rintro ⟨e, ⟨he, hkept⟩, rfl⟩
    have hmem : e.1 ∈ keys es := List.mem_map.mpr ⟨e, he, rfl⟩
    rw [kept_self L es e.1 hmem] at hkept
    exact ⟨⟨e, he, rfl⟩, by simpa using hkept⟩
  · rintro ⟨⟨e, he, rfl⟩, hL⟩
    have hmem : e.1 ∈ keys es := List.mem_map.mpr ⟨e, he, rfl⟩
    exact ⟨e, ⟨he, by rw [kept_self L es e.1 hmem]; simpa using hL⟩, rfl⟩

theorem mem_keys_refreshDeviceList (L : List String) (s : State) (hk : KeysUnique s)
    (hL : L.Nodup) (k : String) : k ∈ keys (refreshDeviceList L s).devices ↔ k ∈ L := by
  rw [refreshDeviceList_eq L s hk hL, mem_keys_addEach, foldl_dropStep_devices,
    mem_keys_filter_kept]
  simp only [List.mem_filter, decide_eq_true_eq]
  by_cases h1 : k ∈ keys s.devices <;> by_cases h2 : k ∈ L <;> simp [h1, h2]

theorem keysUnique_refreshDeviceList (L : List String) (s : State) (hk : KeysUnique s)
    (hL : L.Nodup) : KeysUnique (refreshDeviceList L s) := by
  unfold KeysUnique
  rw [refreshDeviceList_eq L s hk hL]
  apply nodup_keys_addEach
  rw [foldl_dropStep_devices]
  exact List.Nodup.sublist (List.Sublist.map _ (List.filter_sublist _)) hk

/-- C2 (amended): for every state whose registry holds each key once and every
duplicate-free daemon list, a second `refreshDeviceList` with the same list
changes nothing: same registry, device list and stack, nothing allocated and
nothing deleted. -/
theorem refreshDeviceList_idempotent (L : List String) (s : State) (hk : KeysUnique s)
    (hL : L.Nodup) :
    refreshDeviceList L (refreshDeviceList L s) = refreshDeviceList L s := by
  have hk1 := keysUnique_refreshDeviceList L s hk hL
  have hmem := mem_keys_refreshDeviceList L s hk hL
  rw [refreshDeviceList_eq L (refreshDeviceList L s) hk1 hL]
  have hrest : L.filter (fun k => decide (k ∉ keys (refreshDeviceList L s).devices)) = [] := by
    rw [List.filter_eq_nil_iff]
    intro k hkL
    simpa using (hmem k).mpr hkL
  rw [hrest, addEach_nil]
  apply foldl_dropStep_of_mem
  intro e he
  exact (hmem e.1).mp (List.mem_map.mpr ⟨e, he, rfl⟩)

theorem refreshDeviceList_idempotent_witness :
    refreshDeviceList ["B", "C"] (refreshDeviceList ["B", "C"] (setupUi ["A", "B"])) =
      refreshDeviceList ["B", "C"] (setupUi ["A", "B"]) :=
  refreshDeviceList_idempotent ["B", "C"] (setupUi ["A", "B"])
    (by unfold KeysUnique; decide) (by decide)

/-! ## Theorems: the refresh as a diff -/

theorem keptPage_cons_mem (L : List String) (e : String × Device)
    (es : List (String × Device)) (h : e.1 ∈ L) (w : Widget) :
    keptPage L (e :: es) w = keptPage L es w := by
  unfold keptPage
  cases w.getSerial with
  | none => rfl
  | some k => exact kept_cons_mem L e es h k

theorem keptPage_cons_not_mem (L : List String) (e : String × Device)
    (es : List (String × Device)) (h : e.1 ∉ L) (w : Widget) :
    keptPage L (e :: es) w = (keptPage L es w && decide (w.getSerial ≠ some e.1)) := by
  unfold keptPage
  cases w.getSerial with
  | none => simp
  | some k =>
    simp only [kept_cons_not_mem L e es h k]
    by_cases hk : k = e.1 <;> simp [hk]

theorem dropStep_aligned (L : List String) (st : State) (e : String × Device) (hm : e.1 ∉ L)
    (hal : Aligned st.stackedWidget st.listWidget)
    (hn : (st.listWidget.map DeviceListWidget.serial).Nodup) (hmem : e.1 ∈ keys st.devices) :
    dropStep L st e =
      { st with
        devices := remove st.devices e.1
        listWidget := st.listWidget.filter (fun item => decide (item.serial ≠ e.1))
        stackedWidget := st.stackedWidget.filter (fun w => decide (w.getSerial ≠ some e.1))
        deleted := st.deleted ++ [e.2] } := by
  have hne : st.devices ≠ [] := by
    intro hnil
    rw [hnil] at hmem
    exact absurd hmem (List.not_mem_nil _)
  unfold dropStep
  rw [if_neg hm]
  simp only [removeDeviceFromGui_aligned e.1 st hal hn hne]

theorem foldl_dropStep_aligned (L : List String) (es : List (String × Device)) (st : State)
    (hes : (keys es).Nodup) (hmem : ∀ e ∈ es, e.1 ∈ keys st.devices)
    (hal : Aligned st.stackedWidget st.listWidget)
    (hn : (st.listWidget.map DeviceListWidget.serial).Nodup) :
    es.foldl (dropStep L) st =
      { st with
        devices := st.devices.filter (fun e => kept L es e.1)
        listWidget := st.listWidget.filter (fun item => kept L es item.serial)
        stackedWidget := st.stackedWidget.filter (keptPage L es)
        deleted := st.deleted ++ (es.filter (fun e => decide (e.1 ∉ L))).map Prod.snd } := by
  induction es generalizing st with
  | nil =>
    have h1 : (fun e : String × Device => kept L [] e.1) = fun _ => true :=
      funext fun e => kept_nil L e.1
    have h2 : (fun item : DeviceListWidget => kept L [] item.serial) = fun _ => true :=
      funext fun item => kept_nil L item.serial
    have h3 : keptPage L [] = fun _ => true := by
      funext w
      unfold keptPage
      cases w.getSerial with
      | none => rfl
      | some k => exact kept_nil L k
    simp [h1, h2, h3]
  | cons e es ih =>
    simp only [keys, List.map_cons, List.nodup_cons] at hes
    simp only [List.foldl_cons]
    by_cases hm : e.1 ∈ L
    · have h1 : dropStep L st e = st := by simp [dropStep, hm]
      rw [h1, ih st hes.2 (fun e1 he1 => hmem e1 (List.mem_cons_of_mem _ he1)) hal hn]
      have e1 : (fun x : String × Device => kept L (e :: es) x.1) = fun x => kept L es x.1 :=
        funext fun x => kept_cons_mem L e es hm x.1
      have e2 : (fun item : DeviceListWidget => kept L (e :: es) item.serial) =
          fun item => kept L es item.serial :=
        funext fun item => kept_cons_mem L e es hm item.serial
      have e3 : keptPage L (e :: es) = keptPage L es :=
        funext fun w => keptPage_cons_mem L e es hm w
      have e4 : (e :: es).filter (fun e => decide (e.1 ∉ L)) =
          es.filter (fun e => decide (e.1 ∉ L)) :=
        filter_cons_drop _ e es (by simpa using hm)
      rw [e1, e2, e3, e4]
    · have hd := dropStep_aligned L st e hm hal hn (hmem e (List.mem_cons_self _ _))
      rw [hd]
      have hmem1 : ∀ e1 ∈ es, e1.1 ∈ keys (remove st.devices e.1) := by
        intro e1 he1
        rw [mem_keys_remove]
        refine ⟨hmem e1 (List.mem_cons_of_mem _ he1), ?_⟩
        intro heq
        exact hes.1 (heq ▸ List.mem_map.mpr ⟨e1, he1, rfl⟩)
      have hal1 : Aligned (st.stackedWidget.filter (fun w => decide (w.getSerial ≠ some e.1)))
          (st.listWidget.filter (fun item => decide (item.serial ≠ e.1))) := by
        apply aligned_filter hal
        intro w item hR
        simp only [hR, DeviceListWidget.serial, ne_eq, Option.some.injEq]
      have hn1 : ((st.listWidget.filter (fun item => decide (item.serial ≠ e.1))).map
          DeviceListWidget.serial).Nodup :=
        List.Nodup.sublist (List.Sublist.map _ (List.filter_sublist _)) hn
      rw [ih _ hes.2 hmem1 hal1 hn1]
      apply State.ext
      · simp only [remove, List.filter_filter]
        apply List.filter_congr
        intro x _
        exact (kept_cons_not_mem L e es hm x.1).symm
      · simp only [List.filter_filter]
        apply List.filter_congr
        intro x _
        exact (kept_cons_not_mem L e es hm x.serial).symm
      · simp only [List.filter_filter]
        apply List.filter_congr
        intro x _
        exact (keptPage_cons_not_mem L e es hm x).symm
      · rfl
      · rfl
      · simp only
        rw [filter_cons_keep (fun e => decide (e.1 ∉ L)) e es (by simpa using hm)]
        simp
      · rfl
      · rfl

theorem serial_perm_keys (s : State)
    (hp : (s.listWidget.map DeviceListWidget.entry).Perm s.devices) :
    (s.listWidget.map DeviceListWidget.serial).Perm (keys s.devices) := by
  have := hp.map Prod.fst
  simpa [List.map_map, keys, DeviceListWidget.entry, DeviceListWidget.serial,
    Function.comp_def] using this

theorem removal_aligned (L : List String) (s : State) (hk : KeysUnique s)
    (hp : (s.listWidget.map DeviceListWidget.entry).Perm s.devices)
    (hal : Aligned s.stackedWidget s.listWidget) :
    s.devices.foldl (dropStep L) s =
      { s with
        devices := s.devices.filter (fun e => decide (e.1 ∈ L))
        listWidget := s.listWidget.filter (fun item => decide (item.serial ∈ L))
        stackedWidget := s.stackedWidget.filter (panelIn L)
        deleted := s.deleted ++ (s.devices.filter (fun e => decide (e.1 ∉ L))).map Prod.snd } := by
  have hsp := serial_perm_keys s hp
  have hn : (s.listWidget.map DeviceListWidget.serial).Nodup := hsp.nodup_iff.mpr hk
  have hlist : ∀ item ∈ s.listWidget, item.serial ∈ keys s.devices := by
    intro item hi
    exact hsp.subset (List.mem_map.mpr ⟨item, hi, rfl⟩)
  rw [foldl_dropStep_aligned L s.devices s hk
    (fun e he => List.mem_map.mpr ⟨e, he, rfl⟩) hal hn]
  apply State.ext
  · apply List.filter_congr
    intro e he
    exact kept_self L s.devices e.1 (List.mem_map.mpr ⟨e, he, rfl⟩)
  · apply List.filter_congr
    intro item hi
    exact kept_self L s.devices item.serial (hlist item hi)
  · apply List.filter_congr
    intro w hw
    obtain ⟨item, hi, hs⟩ := aligned_mem_serial hal w hw
    simp only [keptPage, panelIn, hs]
    exact kept_self L s.devices _ (hlist item hi)
  · rfl
  · rfl
  · rfl
  · rfl
  · rfl

theorem addEach_placeholder (L : List String) (s : State) (a : Nat) (hd : s.devices = [])
    (hs : s.stackedWidget = [Widget.placeholder a]) (hne : L ≠ []) :
    addEach L s = addEach L { s with stackedWidget := [] } := by
  cases L with
  | nil => exact absurd rfl hne
  | cons k ks =>
    rw [addEach_cons, addEach_cons]
    congr 1
    unfold addDeviceToGui
    simp [hd, hs, widget, removeWidget]

theorem refreshDeviceList_fields (L : List String) (s : State) (hc : Consistent s)
    (hL : L.Nodup) :
    (refreshDeviceList L s).devices =
      s.devices.filter (fun e => decide (e.1 ∈ L)) ++
        (newDevices s.heap (added L s)).map (fun d => (d.serial, d)) ∧
    (refreshDeviceList L s).listWidget =
      s.listWidget.filter (fun item => decide (item.serial ∈ L)) ++
        (newDevices s.heap (added L s)).map DeviceListWidget.mk ∧
    (refreshDeviceList L s).stackedWidget =
      (if s.listWidget = [] ∧ added L s = [] then s.stackedWidget
       else s.stackedWidget.filter (panelIn L) ++ newPanels s.heap (added L s)) ∧
    (refreshDeviceList L s).heap = s.heap + 2 * (added L s).length ∧
    (refreshDeviceList L s).noDevicePlaceholder = s.noDevicePlaceholder ∧
    (refreshDeviceList L s).deleted =
      s.deleted ++ (s.devices.filter (fun e => decide (e.1 ∉ L))).map Prod.snd ∧
    (refreshDeviceList L s).messages = s.messages ∧
    (refreshDeviceList L s).deleteLater = s.deleteLater := by
  obtain ⟨hk, hp, hgui, hf⟩ := hc
  have hadds : (added L s).Nodup := hL.filter _
  have hdisj : ∀ k ∈ added L s, k ∉ keys s.devices := by
    intro k hk1
    simpa using (List.mem_filter.mp hk1).2
  rw [refreshDeviceList_eq L s hk hL]
  change
    (addEach (added L s) (s.devices.foldl (dropStep L) s)).devices = _ ∧
    (addEach (added L s) (s.devices.foldl (dropStep L) s)).listWidget = _ ∧
    (addEach (added L s) (s.devices.foldl (dropStep L) s)).stackedWidget = _ ∧
    (addEach (added L s) (s.devices.foldl (dropStep L) s)).heap = _ ∧
    (addEach (added L s) (s.devices.foldl (dropStep L) s)).noDevicePlaceholder = _ ∧
    (addEach (added L s) (s.devices.foldl (dropStep L) s)).deleted = _ ∧
    (addEach (added L s) (s.devices.foldl (dropStep L) s)).messages = _ ∧
    (addEach (added L s) (s.devices.foldl (dropStep L) s)).deleteLater = _
  rcases hgui with hal | ⟨hl, a, hs, hcache⟩
  · rw [removal_aligned L s hk hp hal]
    obtain ⟨st1, hst1⟩ : ∃ st1 : State, st1 = { s with
        devices := s.devices.filter (fun e => decide (e.1 ∈ L))
        listWidget := s.listWidget.filter (fun item => decide (item.serial ∈ L))
        stackedWidget := s.stackedWidget.filter (panelIn L)
        deleted := s.deleted ++
          (s.devices.filter (fun e => decide (e.1 ∉ L))).map Prod.snd } := ⟨_, rfl⟩
    rw [← hst1]
    have d1 : st1.devices = s.devices.filter (fun e => decide (e.1 ∈ L)) := by rw [hst1]
    have d2 : st1.listWidget = s.listWidget.filter (fun item => decide (item.serial ∈ L)) := by
      rw [hst1]
    have d3 : st1.stackedWidget = s.stackedWidget.filter (panelIn L) := by rw [hst1]
    have d4 : st1.heap = s.heap := by rw [hst1]
    have d5 : st1.noDevicePlaceholder = s.noDevicePlaceholder := by rw [hst1]
    have d6 : st1.deleted = s.deleted ++
        (s.devices.filter (fun e => decide (e.1 ∉ L))).map Prod.snd := by rw [hst1]
    have d7 : st1.messages = s.messages := by rw [hst1]
    have d8 : st1.deleteLater = s.deleteLater := by rw [hst1]
    have hf1 : Fresh st1 := by
      refine ⟨fun w hw => ?_, fun a ha => ?_⟩
      · rw [d3] at hw
        rw [d4]
        exact hf.1 w (List.mem_filter.mp hw).1
      · rw [d5] at ha
        rw [d4]
        exact hf.2 a ha
    have hcond : st1.devices ≠ [] ∨ st1.stackedWidget = [] := by
      rw [d1, d3]
      by_cases hd : s.devices.filter (fun e => decide (e.1 ∈ L)) = []
      · right
        rw [List.filter_eq_nil_iff]
        intro w hw hpan
        obtain ⟨item, hi, hser⟩ := aligned_mem_serial hal w hw
        have hin : item.device.serial ∈ L := by
          simpa [panelIn, hser] using hpan
        have hmem : item.entry ∈ s.devices := hp.subset (List.mem_map.mpr ⟨item, hi, rfl⟩)
        have : item.entry ∈ s.devices.filter (fun e => decide (e.1 ∈ L)) :=
          List.mem_filter.mpr ⟨hmem, by simpa [DeviceListWidget.entry] using hin⟩
        rw [hd] at this
        exact absurd this (List.not_mem_nil _)
      · exact Or.inl hd
    have hdisj1 : ∀ k ∈ added L s, k ∉ keys st1.devices := by
      intro k hk1 hmem
      apply hdisj k hk1
      rw [d1] at hmem
      obtain ⟨e, he, rfl⟩ := List.mem_map.mp hmem
      exact List.mem_map.mpr ⟨e, (List.mem_filter.mp he).1, rfl⟩
    obtain ⟨g1, g2, g3, g4, g5, g6, g7⟩ := addEach_gui (added L s) st1 hf1 hcond
    have gd := addEach_devices (added L s) st1 hadds hdisj1
    rw [gd, g1, g2, g3, g4, g5, g6, g7, d1, d2, d3, d4, d5, d6, d7, d8]
    refine ⟨rfl, rfl, ?_, rfl, rfl, rfl, rfl, rfl⟩
    split
    · rename_i hcase
      have hnil : s.stackedWidget = [] := by
        have := hal
        rw [hcase.1] at this
        exact List.forall₂_nil_right_iff.mp this
      simp [hnil, hcase.2, newPanels]
    · rfl
  · have hd : s.devices = [] := by
      rw [hl] at hp
      exact (List.Perm.nil_eq hp).symm
    have hfold : s.devices.foldl (dropStep L) s = s := by rw [hd]; rfl
    rw [hfold]
    simp only [hd, hl, List.filter_nil, List.map_nil, List.append_nil, List.nil_append, true_and]
    by_cases hne : added L s = []
    · simp [hne, addEach_nil, newDevices, hd, hl]
    · rw [addEach_placeholder _ s a hd hs hne]
      have hf1 : Fresh { s with stackedWidget := [] } :=
        ⟨fun w hw => absurd hw (List.not_mem_nil w), hf.2⟩
      obtain ⟨g1, g2, g3, g4, g5, g6, g7⟩ :=
        addEach_gui (added L s) { s with stackedWidget := [] } hf1 (Or.inr rfl)
      have gd := addEach_devices (added L s) { s with stackedWidget := [] } hadds
        (by simpa using hdisj)
      refine ⟨by simpa [hd] using gd, by simpa [hl] using g2, ?_, g3, g4, by simpa using g5,
        g6, g7⟩
      rw [g1, if_neg hne]
      simp [hs, panelIn, Widget.getSerial]

theorem filter_isPanel_panelIn (L : List String) (stack : List Widget) :
    (stack.filter (panelIn L)).filter Widget.isPanel = stack.filter (panelIn L) := by
  rw [List.filter_eq_self]
  intro w hw
  have hp := (List.mem_filter.mp hw).2
  cases w with
  | placeholder a => simp [panelIn, Widget.getSerial] at hp
  | razerDeviceWidget a k => rfl

theorem consistent_empty_stack (s : State) (hc : Consistent s) (hl : s.listWidget = []) :
    s.stackedWidget.filter Widget.isPanel = [] ∧ ∀ L, s.stackedWidget.filter (panelIn L) = [] := by
  obtain ⟨_, _, hgui, _⟩ := hc
  rcases hgui with hal | ⟨_, a, hs, _⟩
  · rw [hl] at hal
    have := List.forall₂_nil_right_iff.mp hal
    simp [this]
  · simp [hs, Widget.isPanel, panelIn, Widget.getSerial]

theorem value_filter_append (h n : List (String × Device)) (L : List String) (k : String)
    (hk : k ∈ keys h) (hL : k ∈ L) :
    value (h.filter (fun e => decide (e.1 ∈ L)) ++ n) k = value h k := by
  unfold value
  rw [List.find?_append, List.find?_filter]
  have hq : (fun a : String × Device =>
      decide (decide (a.1 ∈ L) = true ∧ decide (a.1 = k) = true)) =
      fun a => decide (a.1 = k) := by
    funext a
    by_cases ha : a.1 = k
    · simp [ha, hL]
    · simp [ha]
  rw [hq]
  obtain ⟨e, he, hek⟩ := List.mem_map.mp hk
  cases hfind : h.find? (fun a => decide (a.1 = k)) with
  | none =>
    have := List.find?_eq_none.mp hfind e he
    simp [hek] at this
  | some x => rfl

/-- C1 (amended): for every consistent state (registry, list and stack in
aligned 1:1 correspondence) and every duplicate-free daemon list `L`,
`refreshDeviceList` is a true diff.  The registry keys afterwards are the
members of `L`.  The registry, the device list and the device panels of the
stack are what they were, minus the entries of the registered serials that
are not in `L`, each kept entry being the same handle or instance in the same
order, plus one new `Device`, list entry and panel for each member of `L` that
was not registered, in the order of `L`.  A registered serial of `L` keeps
its `Device` handle, and the devices deleted are those of the registered
serials that are not in `L`. -/
theorem refreshDeviceList_diff (L : List String) (s : State) (hc : Consistent s)
    (hL : L.Nodup) :
    (∀ k, k ∈ keys (refreshDeviceList L s).devices ↔ k ∈ L) ∧
    (refreshDeviceList L s).devices =
      s.devices.filter (fun e => decide (e.1 ∈ L)) ++
        (newDevices s.heap (added L s)).map (fun d => (d.serial, d)) ∧
    (refreshDeviceList L s).listWidget =
      s.listWidget.filter (fun item => decide (item.serial ∈ L)) ++
        (newDevices s.heap (added L s)).map DeviceListWidget.mk ∧
    (refreshDeviceList L s).stackedWidget.filter Widget.isPanel =
      s.stackedWidget.filter (panelIn L) ++ newPanels s.heap (added L s) ∧
    (∀ k, k ∈ keys s.devices → k ∈ L →
      value (refreshDeviceList L s).devices k = value s.devices k) ∧
    (refreshDeviceList L s).deleted =
      s.deleted ++ (s.devices.filter (fun e => decide (e.1 ∉ L))).map Prod.snd := by
  obtain ⟨g1, g2, g3, _, _, g6, _, _⟩ := refreshDeviceList_fields L s hc hL
  refine ⟨mem_keys_refreshDeviceList L s hc.1 hL, g1, g2, ?_, ?_, g6⟩
  · rw [g3]
    split
    · rename_i hcase
      obtain ⟨e1, e2⟩ := consistent_empty_stack s hc hcase.1
      rw [e1, e2 L, hcase.2]
      rfl
    · rw [List.filter_append, filter_isPanel_panelIn, filter_isPanel_newPanels]
  · intro k hk hkL
    rw [g1]
    exact value_filter_append _ _ L k hk hkL

/-! ## Theorems: consistency is kept -/

theorem newPanels_addr (h : Nat) (L : List String) (w : Widget) (hw : w ∈ newPanels h L) :
    w.addr < h + 2 * L.length := by
  induction L generalizing h with
  | nil => exact absurd hw (List.not_mem_nil w)
  | cons k ks ih =>
    rcases List.mem_cons.mp hw with rfl | hw1
    · simp only [Widget.addr, List.length_cons]
      omega
    · have := ih (h + 2) hw1
      simp only [List.length_cons]
      omega

theorem consistent_initial : Consistent initial :=
  ⟨List.nodup_nil, List.Perm.nil, Or.inl List.Forall₂.nil,
    fun w hw => absurd hw (List.not_mem_nil w), fun a ha => by cases ha⟩

theorem consistent_refreshDeviceList (L : List String) (s : State) (hc : Consistent s)
    (hL : L.Nodup) : Consistent (refreshDeviceList L s) := by
  obtain ⟨g1, g2, g3, g4, g5, _, _, _⟩ := refreshDeviceList_fields L s hc hL
  have hku := keysUnique_refreshDeviceList L s hc.1 hL
  obtain ⟨hk, hp, hgui, hf⟩ := hc
  have hfil : Aligned (s.stackedWidget.filter (panelIn L))
      (s.listWidget.filter (fun item => decide (item.serial ∈ L))) := by
    rcases hgui with hal | ⟨hl, a, hs, _⟩
    · apply aligned_filter hal
      intro w item hR
      simp only [panelIn, hR, DeviceListWidget.serial]
    · rw [hl, hs]
      exact List.Forall₂.nil
  refine ⟨hku, ?_, ?_, ?_, ?_⟩
  · rw [g1, g2, List.map_append]
    apply List.Perm.append
    · have h1 : (s.listWidget.filter (fun item => decide (item.serial ∈ L))).map
          DeviceListWidget.entry =
          (s.listWidget.map DeviceListWidget.entry).filter (fun e => decide (e.1 ∈ L)) := by
        rw [List.filter_map]
        rfl
      rw [h1]
      exact hp.filter _
    · rw [List.map_map]
      exact List.Perm.of_eq rfl
  · rw [g2, g3]
    split
    · rename_i hcase
      have hnew : (newDevices s.heap (added L s)).map DeviceListWidget.mk = [] := by
        rw [hcase.2]
        rfl
      rw [hcase.1, hnew, g5]
      simpa [hcase.1] using hgui
    · exact Or.inl (aligned_append hfil (aligned_new _ _))
  · intro w hw
    rw [g4]
    rw [g3] at hw
    split at hw
    · have := hf.1 w hw
      omega
    · rcases List.mem_append.mp hw with h1 | h1
      · have := hf.1 w (List.mem_filter.mp h1).1
        omega
      · exact newPanels_addr _ _ w h1
  · intro a ha
    rw [g5] at ha
    have := hf.2 a ha
    rw [g4]
    omega

theorem consistent_clearDeviceList (s : State) (hc : Consistent s) :
    Consistent (clearDeviceList s) := by
  obtain ⟨h1, h2, _, _, a, h5, h6, h7⟩ := clearDeviceList_spec s
  have ha : a < (clearDeviceList s).heap := by
    rcases h7 with ⟨hs, hh⟩ | ⟨_, rfl, hh⟩
    · rw [hh]
      exact hc.2.2.2.2 a hs
    · rw [hh]
      exact Nat.lt_succ_self _
  refine ⟨?_, ?_, Or.inr ⟨h2, a, h5, h6⟩, ?_, ?_⟩
  · unfold KeysUnique
    rw [h1]
    exact List.nodup_nil
  · rw [h1, h2]
    exact List.Perm.nil
  · intro w hw
    rw [h5] at hw
    rw [List.mem_singleton.mp hw]
    exact ha
  · intro b hb
    rw [h6] at hb
    rw [← Option.some.inj hb]
    exact ha

theorem refreshDeviceList_of_empty (L : List String) (s : State) (hd : s.devices = []) :
    refreshDeviceList L s = addEach L s := by
  unfold refreshDeviceList
  rw [hd]
  rfl

theorem consistent_fillDeviceList (L : List String) (s : State) (hc : Consistent s)
    (hL : L.Nodup) (hd : s.devices = []) : Consistent (fillDeviceList L s) := by
  cases L with
  | nil =>
    have hfill : fillDeviceList [] s = addPlaceholder s := rfl
    rw [hfill]
    obtain ⟨hk, hp, hgui, hf⟩ := hc
    have hl : s.listWidget = [] := by
      rw [hd] at hp
      simpa using hp.eq_nil
    rcases hgui with hal | ⟨_, a, hs, hcache⟩
    · have hnil : s.stackedWidget = [] := by
        rw [hl] at hal
        exact List.forall₂_nil_right_iff.mp hal
      obtain ⟨a, ha, hcase⟩ := addPlaceholder_empty s hnil
      rw [ha]
      have hlt : a < (if s.noDevicePlaceholder = none then s.heap + 1 else s.heap) := by
        rcases hcase with hs | ⟨hs, rfl⟩
        · rw [if_neg (by simp [hs])]
          exact hf.2 a hs
        · rw [if_pos hs]
          exact Nat.lt_succ_self _
      refine ⟨hk, hp, Or.inr ⟨hl, a, rfl, rfl⟩, ?_, ?_⟩
      · intro w hw
        rw [List.mem_singleton.mp hw]
        exact hlt
      · intro b hb
        rw [← Option.some.inj hb]
        exact hlt
    · have hsame : addPlaceholder s = s := by
        unfold addPlaceholder getNoDevicePlaceholder
        simp only [hcache, addWidget, hs]
        apply State.ext <;> simp [hs, hcache]
      rw [hsame]
      exact ⟨hk, hp, Or.inr ⟨hl, a, hs, hcache⟩, hf⟩
  | cons k ks =>
    have hfill : fillDeviceList (k :: ks) s = addEach (k :: ks) s := rfl
    rw [hfill, ← refreshDeviceList_of_empty _ s hd]
    exact consistent_refreshDeviceList _ s hc hL

theorem orderly_consistent (ops : List Op) (s : State) (hc : Consistent s)
    (ho : orderly ops s = true) : Consistent (run ops s) := by
  induction ops generalizing s with
  | nil => exact hc
  | cons op ops ih =>
    cases op with
    | fillDeviceList L =>
      simp only [orderly, Bool.and_eq_true, decide_eq_true_eq, List.isEmpty_iff] at ho
      exact ih _ (consistent_fillDeviceList L s hc ho.1.1 ho.1.2) ho.2
    | refreshDeviceList L =>
      simp only [orderly, Bool.and_eq_true, decide_eq_true_eq] at ho
      exact ih _ (consistent_refreshDeviceList L s hc ho.1) ho.2
    | clearDeviceList =>
      simp only [orderly] at ho
      exact ih _ (consistent_clearDeviceList s hc) ho

theorem consistent_counts (s : State) (hc : Consistent s) (k : String) :
    entriesOf k s = (if k ∈ keys s.devices then 1 else 0) ∧
    panelsOf k s = (if k ∈ keys s.devices then 1 else 0) := by
  obtain ⟨hk, hp, hgui, _⟩ := hc
  have hsp := serial_perm_keys s hp
  have hent : entriesOf k s = (if k ∈ keys s.devices then 1 else 0) := by
    rw [← List.count_eq_of_nodup hk, ← hsp.count_eq k]
    unfold entriesOf
    rw [← List.countP_eq_length_filter, List.count, List.countP_map]
    congr 1
  refine ⟨hent, ?_⟩
  rw [← hent]
  unfold panelsOf entriesOf
  rcases hgui with hal | ⟨hl, a, hs, _⟩
  · apply List.Forall₂.length_eq
    apply aligned_filter hal
    intro w item hR
    simp only [hR, Option.some.injEq]
  · simp [hl, hs, Widget.getSerial]

/-- C4 (amended): after any sequence of `fillDeviceList`, `refreshDeviceList`
and `clearDeviceList` calls from start-up in which every daemon list is
duplicate-free and `fillDeviceList` runs only while the registry is empty,
each serial of the registry has exactly one entry in the device list and
exactly one panel in the stack, and a serial that is not in the registry has
no entry and no panel. -/
theorem registry_ui_correspondence (ops : List Op) (ho : orderly ops initial = true)
    (k : String) :
    entriesOf k (run ops initial) = (if k ∈ keys (run ops initial).devices then 1 else 0) ∧
    panelsOf k (run ops initial) = (if k ∈ keys (run ops initial).devices then 1 else 0) :=
  consistent_counts _ (orderly_consistent ops initial consistent_initial ho) k

theorem registry_ui_correspondence_witness :
    entriesOf "B" (run [Op.fillDeviceList ["A", "B"], Op.refreshDeviceList ["B", "C"],
        Op.clearDeviceList, Op.fillDeviceList ["B"]] initial) =
      (if "B" ∈ keys (run [Op.fillDeviceList ["A", "B"], Op.refreshDeviceList ["B", "C"],
        Op.clearDeviceList, Op.fillDeviceList ["B"]] initial).devices then 1 else 0) ∧
    panelsOf "B" (run [Op.fillDeviceList ["A", "B"], Op.refreshDeviceList ["B", "C"],
        Op.clearDeviceList, Op.fillDeviceList ["B"]] initial) =
      (if "B" ∈ keys (run [Op.fillDeviceList ["A", "B"], Op.refreshDeviceList ["B", "C"],
        Op.clearDeviceList, Op.fillDeviceList ["B"]] initial).devices then 1 else 0) :=
  registry_ui_correspondence [Op.fillDeviceList ["A", "B"], Op.refreshDeviceList ["B", "C"],
    Op.clearDeviceList, Op.fillDeviceList ["B"]] (by decide) "B"

theorem consistent_setupUi (L : List String) (hL : L.Nodup) : Consistent (setupUi L) :=
  consistent_fillDeviceList L initial consistent_initial hL rfl

theorem refreshDeviceList_diff_witness :
    (refreshDeviceList ["B", "C"] (setupUi ["A", "B"])).devices =
      [("B", ⟨2, "B"⟩), ("C", ⟨4, "C"⟩)] ∧
    (refreshDeviceList ["B", "C"] (setupUi ["A", "B"])).listWidget =
      [⟨⟨2, "B"⟩⟩, ⟨⟨4, "C"⟩⟩] ∧
    (refreshDeviceList ["B", "C"] (setupUi ["A", "B"])).stackedWidget.filter Widget.isPanel =
      [Widget.razerDeviceWidget 3 "B", Widget.razerDeviceWidget 5 "C"] ∧
    (refreshDeviceList ["B", "C"] (setupUi ["A", "B"])).deleted = [⟨0, "A"⟩] := by
  obtain ⟨_, h2, h3, h4, _, h5⟩ :=
    refreshDeviceList_diff ["B", "C"] (setupUi ["A", "B"])
      (consistent_setupUi ["A", "B"] (by decide)) (by decide)
  exact ⟨h2.trans (by decide), h3.trans (by decide), h4.trans (by decide),
    h5.trans (by decide)⟩

/-! ## Theorems: the daemon registered twice -/

theorem addDeviceToGui_messages (k : String) (m : List Message) (s : State) :
    addDeviceToGui k { s with messages := m } = { addDeviceToGui k s with messages := m } :=
  rfl

theorem addEach_messages (L : List String) (m : List Message) (s : State) :
    addEach L { s with messages := m } = { addEach L s with messages := m } := by
  induction L generalizing s with
  | nil => rfl
  | cons k ks ih => rw [addEach_cons, addEach_cons, addDeviceToGui_messages, ih]

theorem addPlaceholder_messages (m : List Message) (s : State) :
    addPlaceholder { s with messages := m } = { addPlaceholder s with messages := m } := by
  obtain ⟨d, l, st, c, h, del, dl, ms⟩ := s
  cases c <;> rfl

theorem fillDeviceList_messages (L : List String) (m : List Message) (s : State) :
    fillDeviceList L { s with messages := m } = { fillDeviceList L s with messages := m } := by
  unfold fillDeviceList
  simp only [addEach_messages]
  split
  · rw [addPlaceholder_messages]
  · rfl

theorem addPlaceholder_stack (s : State) :
    ∃ a, (addPlaceholder s).stackedWidget =
        s.stackedWidget.filter (fun x => decide (x ≠ Widget.placeholder a)) ++
          [Widget.placeholder a] ∧
      (addPlaceholder s).noDevicePlaceholder = some a ∧
      (addPlaceholder s).listWidget = s.listWidget := by
  unfold addPlaceholder getNoDevicePlaceholder
  cases hc : s.noDevicePlaceholder with
  | none => exact ⟨s.heap, rfl, rfl, rfl⟩
  | some a => exact ⟨a, rfl, hc, rfl⟩

theorem addPlaceholder_idempotent (s : State) :
    addPlaceholder (addPlaceholder s) = addPlaceholder s := by
  obtain ⟨a, h1, h2, _⟩ := addPlaceholder_stack s
  generalize addPlaceholder s = t at h1 h2
  unfold addPlaceholder getNoDevicePlaceholder
  simp only [h2, addWidget]
  have : t.stackedWidget.filter (fun x => decide (x ≠ Widget.placeholder a)) ++
      [Widget.placeholder a] = t.stackedWidget := by
    rw [h1]
    simp [List.filter_append, List.filter_filter]
  rw [this, ← h2]

/-- C6 (amended): from every state whose addresses are below the allocation
counter and for every daemon list `L`, handling `dbusServiceRegistered` a
second time leaves the registry keys and the number of placeholder pages as
they were after the first handling, and adds one further list entry and one
further device panel per element of `L`; the counts agree only for empty `L`. -/
theorem dbusServiceRegistered_twice (L : List String) (s : State) (hf : Fresh s) :
    keys (dbusServiceRegistered L (dbusServiceRegistered L s)).devices =
      keys (dbusServiceRegistered L s).devices ∧
    (dbusServiceRegistered L (dbusServiceRegistered L s)).listWidget.length =
      (dbusServiceRegistered L s).listWidget.length + L.length ∧
    panelCount (dbusServiceRegistered L (dbusServiceRegistered L s)) =
      panelCount (dbusServiceRegistered L s) + L.length ∧
    placeholderCount (dbusServiceRegistered L (dbusServiceRegistered L s)) =
      placeholderCount (dbusServiceRegistered L s) := by
  unfold dbusServiceRegistered
  simp only [fillDeviceList_messages, panelCount, placeholderCount]
  cases L with
  | nil =>
    have h1 : ∀ t, fillDeviceList [] t = addPlaceholder t := fun t => rfl
    simp only [h1, addPlaceholder_idempotent, List.length_nil, Nat.add_zero, and_self]
  | cons k ks =>
    have h1 : ∀ t, fillDeviceList (k :: ks) t = addEach (k :: ks) t := fun t => rfl
    simp only [h1]
    have hf1 := fresh_addEach (k :: ks) s hf
    have hne : (addEach (k :: ks) s).devices ≠ [] :=
      addEach_devices_ne_nil _ _ (Or.inr (List.cons_ne_nil _ _))
    obtain ⟨g1, g2, _⟩ := addEach_gui (k :: ks) (addEach (k :: ks) s) hf1 (Or.inl hne)
    refine ⟨?_, ?_, ?_, ?_⟩
    · apply keys_addEach_of_mem
      intro k1 hk1
      exact (mem_keys_addEach _ _ _).mpr (Or.inr hk1)
    · exact addEach_listWidget_length _ _
    · rw [g1, List.filter_append, List.length_append, filter_isPanel_newPanels,
        length_newPanels]
    · rw [g1, List.filter_append, filter_isPlaceholder_newPanels, List.append_nil]

theorem dbusServiceRegistered_twice_witness :
    keys (dbusServiceRegistered ["A", "B"] (dbusServiceRegistered ["A", "B"] initial)).devices =
      keys (dbusServiceRegistered ["A", "B"] initial).devices ∧
    (dbusServiceRegistered ["A", "B"] (dbusServiceRegistered ["A", "B"] initial)).listWidget.length
      = (dbusServiceRegistered ["A", "B"] initial).listWidget.length + ["A", "B"].length ∧
    panelCount (dbusServiceRegistered ["A", "B"] (dbusServiceRegistered ["A", "B"] initial)) =
      panelCount (dbusServiceRegistered ["A", "B"] initial) + ["A", "B"].length ∧
    placeholderCount (dbusServiceRegistered ["A", "B"] (dbusServiceRegistered ["A", "B"] initial))
      = placeholderCount (dbusServiceRegistered ["A", "B"] initial) :=
  dbusServiceRegistered_twice ["A", "B"] initial
    ⟨fun w hw => absurd hw (List.not_mem_nil w), fun a ha => by cases ha⟩

/-! ## Theorems: DPI coordination -/

theorem int32_of_range (x : Int) (h1 : -2147483648 ≤ x) (h2 : x < 2147483648) :
    int32 x = x := by
  unfold int32; omega

theorem bound_of_range (sl : QSlider) (v : Int) (h1 : sl.minimum ≤ v) (h2 : v ≤ sl.maximum) :
    bound sl v = v := by
  unfold bound; omega

/-- C7: with `syncDpi` set, moving the X slider to a position `v` of the
common slider range puts the Y slider at `v` and the daemon receives exactly
one write, `setDPI(100*v, 100*v)`, the run of `dpiChanged` re-entered through
the Y slider included; two levels of slot nesting are enough. -/
theorem moveSlider_dpiX_synced (fuel : Nat) (v : Int) (s : DpiState)
    (hsync : s.syncDpi = true)
    (hX : s.dpiX.minimum ≤ v ∧ v ≤ s.dpiX.maximum)
    (hY : s.dpiY.minimum ≤ v ∧ v ≤ s.dpiY.maximum)
    (hmove : s.dpiX.value ≠ v)
    (hint : -2147483648 ≤ v * 100 ∧ v * 100 < 2147483648) :
    ∃ s1, moveSlider (fuel + 2) Axis.dpiX v s = some s1 ∧
      s1.dpiX.value = v ∧ s1.dpiY.value = v ∧
      s1.calls = s.calls ++ [DaemonCall.setDPI (100 * v) (100 * v)] ∧
      s1.dpiXText = some (100 * v) ∧
      s1.dpiYText = (if s.dpiY.value = v then s.dpiYText else some (100 * v)) ∧
      s1.syncDpi = true := by
  have hi : int32 (v * 100) = 100 * v := by
    rw [int32_of_range _ hint.1 hint.2]; ring
  have hbX : bound s.dpiX v = v := bound_of_range _ _ hX.1 hX.2
  have hbY : bound s.dpiY v = v := bound_of_range _ _ hY.1 hY.2
  have hbX1 : ∀ x, bound { minimum := s.dpiX.minimum, maximum := s.dpiX.maximum, value := x } v
      = v := fun x => bound_of_range _ _ hX.1 hX.2
  by_cases hy : s.dpiY.value = v
  · simp [moveSlider, setValue, dpiChanged, DpiState.slider, DpiState.store, DpiState.setText,
      hbX, hbY, hmove, hsync, hi, hy]
  · simp [moveSlider, setValue, dpiChanged, DpiState.slider, DpiState.store, DpiState.setText,
      hbX, hbY, hbX1, hmove, hsync, hi, hy]

theorem moveSlider_dpiX_synced_witness :
    ∃ s1, moveSlider 2 Axis.dpiX 4 ⟨true, ⟨0, 160, 8⟩, ⟨0, 160, 18⟩, some 800, some 1800, []⟩
        = some s1 ∧
      s1.dpiX.value = 4 ∧ s1.dpiY.value = 4 ∧
      s1.calls = [] ++ [DaemonCall.setDPI (100 * 4) (100 * 4)] ∧
      s1.dpiXText = some (100 * 4) ∧
      s1.dpiYText = (if (18 : Int) = 4 then some 1800 else some (100 * 4)) ∧
      s1.syncDpi = true :=
  moveSlider_dpiX_synced 0 4 ⟨true, ⟨0, 160, 8⟩, ⟨0, 160, 18⟩, some 800, some 1800, []⟩
    rfl (by decide) (by decide) (by decide) (by decide)

/-- C8 (the code at the failing input): `syncDpi` set, X slider at 8, Y
slider at 18, range 0..160; moving the Y slider to 8 leaves the X slider where
it is, so its `valueChanged` is not emitted and the daemon receives no write. -/
theorem moveSlider_dpiY_synced_no_write :
    moveSlider 2 Axis.dpiY 8 ⟨true, ⟨0, 160, 8⟩, ⟨0, 160, 18⟩, some 800, some 1800, []⟩
      = some ⟨true, ⟨0, 160, 8⟩, ⟨0, 160, 8⟩, some 800, some 800, []⟩ := by
  decide

/-- C9: with `syncDpi` clear, moving the slider of one axis to a position `v`
of its range while the other slider is at `w` gives exactly one daemon write,
carrying `100*v` for the moved axis and `100*w` for the other one in (X, Y)
order, and the other slider keeps its position. -/
theorem moveSlider_independent (fuel : Nat) (a : Axis) (v : Int) (s : DpiState)
    (hsync : s.syncDpi = false)
    (hrange : (s.slider a).minimum ≤ v ∧ v ≤ (s.slider a).maximum)
    (hmove : (s.slider a).value ≠ v)
    (hint : -2147483648 ≤ v * 100 ∧ v * 100 < 2147483648)
    (hother : -2147483648 ≤ (s.slider a.other).value * 100 ∧
      (s.slider a.other).value * 100 < 2147483648) :
    ∃ s1, moveSlider (fuel + 1) a v s = some s1 ∧
      s1.calls = s.calls ++
        [match a with
          | Axis.dpiX => DaemonCall.setDPI (100 * v) (100 * s.dpiY.value)
          | Axis.dpiY => DaemonCall.setDPI (100 * s.dpiX.value) (100 * v)] ∧
      (s1.slider a).value = v ∧
      (match a with
        | Axis.dpiX => s1.dpiY = s.dpiY ∧ s1.dpiYText = s.dpiYText
        | Axis.dpiY => s1.dpiX = s.dpiX ∧ s1.dpiXText = s.dpiXText) ∧
      s1.syncDpi = false := by
  have hi : int32 (v * 100) = 100 * v := by
    rw [int32_of_range _ hint.1 hint.2]; ring
  have hio : int32 ((s.slider a.other).value * 100) = 100 * (s.slider a.other).value := by
    rw [int32_of_range _ hother.1 hother.2]; ring
  have hb : bound (s.slider a) v = v := bound_of_range _ _ hrange.1 hrange.2
  cases a
  · simp only [DpiState.slider, Axis.other] at hb hmove hio
    simp [moveSlider, setValue, dpiChanged, DpiState.slider, DpiState.store, DpiState.setText,
      hb, hmove, hsync, hi, hio]
  · simp only [DpiState.slider, Axis.other] at hb hmove hio
    simp [moveSlider, setValue, dpiChanged, DpiState.slider, DpiState.store, DpiState.setText,
      hb, hmove, hsync, hi, hio]

theorem moveSlider_independent_witness :
    ∃ s1, moveSlider 1 Axis.dpiX 4 ⟨false, ⟨0, 160, 18⟩, ⟨0, 160, 8⟩, some 1800, some 800, []⟩
        = some s1 ∧
      s1.calls = [DaemonCall.setDPI 400 800] ∧ s1.dpiX.value = 4 ∧
      s1.dpiY = ⟨0, 160, 8⟩ ∧ s1.dpiYText = some 800 ∧ s1.syncDpi = false := by
  obtain ⟨s1, h1, h2, h3, h4, h5⟩ :=
    moveSlider_independent 0 Axis.dpiX 4
      ⟨false, ⟨0, 160, 18⟩, ⟨0, 160, 8⟩, some 1800, some 800, []⟩
      rfl (by decide) (by decide) (by decide) (by decide)
  exact ⟨s1, h1, h2, h3, h4.1, h4.2, h5⟩

/-- C10: `dpiSyncCheckbox(checked)` sets `syncDpi` to `checked` and changes
nothing else: no daemon write, both sliders and both text boxes as before. -/
theorem dpiSyncCheckbox_frame (checked : Bool) (s : DpiState) :
    (dpiSyncCheckbox checked s).syncDpi = checked ∧
      (dpiSyncCheckbox checked s).calls = s.calls ∧
      (dpiSyncCheckbox checked s).dpiX = s.dpiX ∧
      (dpiSyncCheckbox checked s).dpiY = s.dpiY ∧
      (dpiSyncCheckbox checked s).dpiXText = s.dpiXText ∧
      (dpiSyncCheckbox checked s).dpiYText = s.dpiYText :=
  ⟨rfl, rfl, rfl, rfl, rfl, rfl⟩

/-! ## Theorems: USB enumeration -/

/-- C14 (the code at the failing input): a line without ':' splits into one
field, and `split[1]` is read outside the list. -/
theorem getConnectedDevices_lsusb_no_colon :
    getConnectedDevices_lsusb "1532\n" = Except.error Fault.indexOutOfRange := by
  decide

/-- C16 (counterexample): a hexadecimal product id that does not fit an `int`
is not converted; the result is the empty list instead of one pair. -/
theorem getConnectedDevices_lsusb_large_numeral :
    IsHexNumeral "FFFFFFFFF" ∧
    getConnectedDevices_lsusb "1532:FFFFFFFFF\n" = Except.ok ([], [Warning.lsusbParse]) := by
  refine ⟨⟨by decide, by decide⟩, by decide⟩

theorem hexDigit_isSome (c : Char) (h : (hexDigit c).isSome = true) :
    (48 ≤ c.toNat ∧ c.toNat ≤ 57) ∨ (97 ≤ c.toNat ∧ c.toNat ≤ 102) ∨
      (65 ≤ c.toNat ∧ c.toNat ≤ 70) := by
  unfold hexDigit at h
  by_cases h1 : 48 ≤ c.toNat ∧ c.toNat ≤ 57
  · exact Or.inl h1
  · by_cases h2 : 97 ≤ c.toNat ∧ c.toNat ≤ 102
    · exact Or.inr (Or.inl h2)
    · by_cases h3 : 65 ≤ c.toNat ∧ c.toNat ≤ 70
      · exact Or.inr (Or.inr h3)
      · simp [h1, h2, h3] at h

theorem hexDigit_not_space (c : Char) (h : (hexDigit c).isSome = true) : isSpace c = false := by
  have := hexDigit_isSome c h
  unfold isSpace
  simp only [Bool.or_eq_false_iff, decide_eq_false_iff_not, Bool.and_eq_false_imp,
    decide_eq_true_eq]
  omega

theorem hexDigit_ne (c d : Char) (h : (hexDigit c).isSome = true)
    (hd : (hexDigit d).isSome = false) : c ≠ d := by
  intro heq
  rw [heq, hd] at h
  cases h

theorem dropWhile_of_all_not {α : Type} (p : α → Bool) (l : List α)
    (h : ∀ x ∈ l, p x = false) : l.dropWhile p = l := by
  cases l with
  | nil => rfl
  | cons a l1 =>
    apply List.dropWhile_cons_of_neg
    rw [h a (List.mem_cons_self _ _)]
    exact Bool.false_ne_true

theorem trimmed_hex (cs : List Char) (h : ∀ c ∈ cs, (hexDigit c).isSome = true) :
    trimmed cs = cs := by
  unfold trimmed
  rw [dropWhile_of_all_not isSpace cs (fun c hc => hexDigit_not_space c (h c hc)),
    dropWhile_of_all_not isSpace cs.reverse
      (fun c hc => hexDigit_not_space c (h c (List.mem_reverse.mp hc))),
    List.reverse_reverse]

theorem takeSign_hex (cs : List Char) (h : ∀ c ∈ cs, (hexDigit c).isSome = true) :
    takeSign cs = (false, cs) := by
  cases cs with
  | nil => rfl
  | cons c cs1 =>
    have hc := h c (List.mem_cons_self _ _)
    have h1 : c ≠ '-' := hexDigit_ne c '-' hc (by decide)
    have h2 : c ≠ '+' := hexDigit_ne c '+' hc (by decide)
    simp [takeSign, h1, h2]

theorem takePrefix_hex (cs : List Char) (h : ∀ c ∈ cs, (hexDigit c).isSome = true) :
    takePrefix cs = cs := by
  cases cs with
  | nil => rfl
  | cons c cs1 =>
    cases cs1 with
    | nil => rfl
    | cons d cs2 =>
      have hd := h d (List.mem_cons_of_mem _ (List.mem_cons_self _ _))
      have h1 : d ≠ 'x' := hexDigit_ne d 'x' hd (by decide)
      have h2 : d ≠ 'X' := hexDigit_ne d 'X' hd (by decide)
      simp [takePrefix, h1, h2]

theorem hexDigits_hex (cs : List Char) (acc : Nat)
    (h : ∀ c ∈ cs, (hexDigit c).isSome = true) :
    hexDigits cs acc = some (cs.foldl (fun a c => 16 * a + (hexDigit c).getD 0) acc) := by
  induction cs generalizing acc with
  | nil => rfl
  | cons c cs1 ih =>
    have hc := h c (List.mem_cons_self _ _)
    obtain ⟨d, hd⟩ := Option.isSome_iff_exists.mp hc
    unfold hexDigits
    simp only [hd, List.foldl_cons, Option.getD_some]
    exact ih _ (fun x hx => h x (List.mem_cons_of_mem _ hx))

theorem toInt_hex (s : String) (h : IsHexNumeral s) (hfit : hexValue s ≤ 2147483647) :
    toInt s = some (hexValue s : Int) := by
  obtain ⟨hne, hall⟩ := h
  unfold toInt
  simp only [trimmed_hex _ hall, takeSign_hex _ hall, takePrefix_hex _ hall, if_neg hne,
    hexDigits_hex _ 0 hall]
  have : (hexValue s : Int) ≤ 2147483647 := by exact_mod_cast hfit
  have h0 : (0 : Int) ≤ (hexValue s : Int) := Int.natCast_nonneg _
  unfold hexValue at this h0 ⊢
  simp only [Bool.false_eq_true, if_false]
  rw [if_pos]
  constructor
  · omega
  · exact this

theorem split_pair (V P : String) (hV : IsHexNumeral V) (hP : IsHexNumeral P) :
    split ':' (V ++ ":" ++ P) = [V, P] := by
  have hcolon : ∀ s : String, IsHexNumeral s → ':' ∉ s.data := by
    intro s hs hmem
    have := hs.2 ':' hmem
    revert this
    decide
  have hdata : (V ++ ":" ++ P).data = [':'].intercalate [V.data, P.data] := by
    simp [List.intercalate]
  unfold split
  rw [hdata, List.splitOn_intercalate [V.data, P.data] ':' ?_ (by simp)]
  · rfl
  · intro l hl
    simp only [List.mem_cons, List.mem_singleton, List.not_mem_nil, or_false] at hl
    rcases hl with rfl | rfl
    · exact hcolon V hV
    · exact hcolon P hP

theorem lsusbLoop_wellformed (entries : List (String × String)) (acc : List (Int × Int))
    (hhex : ∀ e ∈ entries, IsHexNumeral e.1 ∧ IsHexNumeral e.2 ∧
      hexValue e.1 ≤ 2147483647 ∧ hexValue e.2 ≤ 2147483647) :
    lsusbLoop (entries.map (fun e => e.1 ++ ":" ++ e.2)) acc =
      Except.ok (acc ++ entries.map (fun e => ((hexValue e.1 : Int), (hexValue e.2 : Int))),
        []) := by
  induction entries generalizing acc with
  | nil => simp [lsusbLoop]
  | cons e rest ih =>
    obtain ⟨h1, h2, h3, h4⟩ := hhex e (List.mem_cons_self _ _)
    simp only [List.map_cons]
    unfold lsusbLoop
    simp only [split_pair e.1 e.2 h1 h2, List.get?_cons_zero, List.get?_cons_succ,
      toInt_hex e.1 h1 h3, toInt_hex e.2 h2 h4, Option.getD_some]
    rw [ih _ (fun x hx => hhex x (List.mem_cons_of_mem _ hx))]
    simp

/-- C16 (amended): for every output whose non-empty lines are each of the
form V:P with V and P hexadecimal numerals that fit an `int` (as the four
digits of a USB id do), `getConnectedDevices_lsusb` returns exactly one pair
per non-empty line, in line order, whose components are the values of V and
P, and no warning; the empty output gives the empty list. -/
theorem getConnectedDevices_lsusb_wellformed (output : String)
    (entries : List (String × String))
    (hlines : splitSkipEmptyParts '\n' output = entries.map (fun e => e.1 ++ ":" ++ e.2))
    (hhex : ∀ e ∈ entries, IsHexNumeral e.1 ∧ IsHexNumeral e.2 ∧
      hexValue e.1 ≤ 2147483647 ∧ hexValue e.2 ≤ 2147483647) :
    getConnectedDevices_lsusb output =
      Except.ok (entries.map (fun e => ((hexValue e.1 : Int), (hexValue e.2 : Int))), []) := by
  unfold getConnectedDevices_lsusb
  rw [hlines, lsusbLoop_wellformed entries [] hhex]
  rfl

theorem getConnectedDevices_lsusb_wellformed_witness :
    getConnectedDevices_lsusb "1532:0043\n\n1532:021e\n" =
      Except.ok ([(5426, 67), (5426, 542)], []) ∧
    getConnectedDevices_lsusb "" = Except.ok ([], []) :=
  ⟨getConnectedDevices_lsusb_wellformed "1532:0043\n\n1532:021e\n"
      [("1532", "0043"), ("1532", "021e")] (by decide) (by decide),
    getConnectedDevices_lsusb_wellformed "" [] (by decide) (by decide)⟩

/-! ## Theorems: effect dispatch -/

theorem controls_read (p : Panel) (location : LightingLocation) (c1 c2 c3 : QColor)
    (direction : WaveDirection) (h : HasControls p location c1 c2 c3 direction) :
    getColorForButton 1 location p = Except.ok c1 ∧
    getColorForButton 2 location p = Except.ok c2 ∧
    getColorForButton 3 location p = Except.ok c3 ∧
    getWaveDirection location p = Except.ok direction := by
  obtain ⟨sec, hsec, hcol, hrad, hdir⟩ := h
  have hbuttons : ∃ b1 b2 b3, sec.colorbuttons = [b1, b2, b3] ∧ b1.color = c1 ∧
      b2.color = c2 ∧ b3.color = c3 := by
    cases hb : sec.colorbuttons with
    | nil => simp [hb] at hcol
    | cons b1 r1 =>
      cases r1 with
      | nil => simp [hb] at hcol
      | cons b2 r2 =>
        cases r2 with
        | nil => simp [hb] at hcol
        | cons b3 r3 =>
          cases r3 with
          | nil =>
            simp only [hb, List.map_cons, List.map_nil, List.cons.injEq, and_true] at hcol
            exact ⟨b1, b2, b3, rfl, hcol.1, hcol.2.1, hcol.2.2⟩
          | cons b4 r4 => simp [hb] at hcol
  obtain ⟨b1, b2, b3, hb, e1, e2, e3⟩ := hbuttons
  have hr : ∃ r rs, sec.radiobuttons = r :: rs := by
    cases hrs : sec.radiobuttons with
    | nil => exact absurd hrs hrad
    | cons r rs => exact ⟨r, rs, rfl⟩
  obtain ⟨r, rs, hrs⟩ := hr
  refine ⟨?_, ?_, ?_, ?_⟩
  · simp [getColorForButton, hsec, hb, e1]
  · simp [getColorForButton, hsec, hb, e2]
  · simp [getColorForButton, hsec, hb, e3]
  · simp [getWaveDirection, hsec, hrs, hdir]

theorem applyEffectStandardLoc_listed (p : Panel) (c1 c2 c3 : QColor)
    (direction : WaveDirection)
    (h : HasControls p LightingLocation.Lighting c1 c2 c3 direction) :
    ∀ e ∈ standardEffects,
      applyEffectStandardLoc e.1 p = Except.ok ([e.2 c1 c2 c3 direction], []) := by
  obtain ⟨h1, h2, h3, hw⟩ := controls_read p _ c1 c2 c3 direction h
  intro e he
  simp only [standardEffects, List.mem_cons, List.mem_singleton, List.not_mem_nil,
    or_false] at he
  rcases he with rfl | rfl | rfl | rfl | rfl | rfl | rfl | rfl | rfl | rfl | rfl | rfl | rfl <;>
    simp +decide [applyEffectStandardLoc, h1, h2, h3, hw, bind, Except.bind, pure, Except.pure]

theorem applyEffectLogoLoc_listed (p : Panel) (c1 c2 c3 : QColor)
    (direction : WaveDirection)
    (h : HasControls p LightingLocation.LightingLogo c1 c2 c3 direction) :
    ∀ e ∈ logoEffects,
      applyEffectLogoLoc e.1 p = Except.ok ([e.2 c1 c2 c3 direction], []) := by
  obtain ⟨h1, h2, h3, hw⟩ := controls_read p _ c1 c2 c3 direction h
  intro e he
  simp only [logoEffects, List.mem_cons, List.mem_singleton, List.not_mem_nil,
    or_false] at he
  rcases he with rfl | rfl | rfl | rfl | rfl | rfl | rfl | rfl | rfl | rfl <;>
    simp +decide [applyEffectLogoLoc, h1, h2, h3, hw, bind, Except.bind, pure, Except.pure]

theorem applyEffectScrollLoc_listed (p : Panel) (c1 c2 c3 : QColor)
    (direction : WaveDirection)
    (h : HasControls p LightingLocation.LightingScroll c1 c2 c3 direction) :
    ∀ e ∈ scrollEffects,
      applyEffectScrollLoc e.1 p = Except.ok ([e.2 c1 c2 c3 direction], []) := by
  obtain ⟨h1, h2, h3, hw⟩ := controls_read p _ c1 c2 c3 direction h
  intro e he
  simp only [scrollEffects, List.mem_cons, List.mem_singleton, List.not_mem_nil,
    or_false] at he
  rcases he with rfl | rfl | rfl | rfl | rfl | rfl | rfl | rfl | rfl | rfl <;>
    simp +decide [applyEffectScrollLoc, h1, h2, h3, hw, bind, Except.bind, pure, Except.pure]

theorem applyEffectBacklightLoc_listed (p : Panel) (c1 c2 c3 : QColor)
    (direction : WaveDirection)
    (h : HasControls p LightingLocation.LightingBacklight c1 c2 c3 direction) :
    ∀ e ∈ backlightEffects,
      applyEffectBacklightLoc e.1 p = Except.ok ([e.2 c1 c2 c3 direction], []) := by
  obtain ⟨h1, h2, h3, hw⟩ := controls_read p _ c1 c2 c3 direction h
  intro e he
  simp only [backlightEffects, List.mem_cons, List.mem_singleton, List.not_mem_nil,
    or_false] at he
  rcases he with rfl | rfl <;>
    simp +decide [applyEffectBacklightLoc, h1, h2, h3, hw, bind, Except.bind, pure,
      Except.pure]

/-- C11: on a panel whose zone has its colour buttons (showing `c1`, `c2`,
`c3`) and its direction toggle (telling `direction`), each of the four
dispatchers makes exactly one daemon call for every identifier it names, the
zone's setter of that effect with the colours of buttons 1..k in button order
and the direction of the toggle, and writes no warning; in particular
`applyEffectStandardLoc("lighting_breath_dual")` makes exactly the call
`setBreathDual(c1, c2)`. -/
theorem dispatchers_one_call (p : Panel) (c1 c2 c3 : QColor) (direction : WaveDirection) :
    (HasControls p LightingLocation.Lighting c1 c2 c3 direction →
      ∀ e ∈ standardEffects,
        applyEffectStandardLoc e.1 p = Except.ok ([e.2 c1 c2 c3 direction], [])) ∧
    (HasControls p LightingLocation.LightingLogo c1 c2 c3 direction →
      ∀ e ∈ logoEffects,
        applyEffectLogoLoc e.1 p = Except.ok ([e.2 c1 c2 c3 direction], [])) ∧
    (HasControls p LightingLocation.LightingScroll c1 c2 c3 direction →
      ∀ e ∈ scrollEffects,
        applyEffectScrollLoc e.1 p = Except.ok ([e.2 c1 c2 c3 direction], [])) ∧
    (HasControls p LightingLocation.LightingBacklight c1 c2 c3 direction →
      ∀ e ∈ backlightEffects,
        applyEffectBacklightLoc e.1 p = Except.ok ([e.2 c1 c2 c3 direction], [])) ∧
    (HasControls p LightingLocation.Lighting c1 c2 c3 direction →
      applyEffectStandardLoc "lighting_breath_dual" p =
        Except.ok ([EffectCall.setBreathDual c1 c2], [])) :=
  ⟨applyEffectStandardLoc_listed p c1 c2 c3 direction,
    applyEffectLogoLoc_listed p c1 c2 c3 direction,
    applyEffectScrollLoc_listed p c1 c2 c3 direction,
    applyEffectBacklightLoc_listed p c1 c2 c3 direction,
    fun h => applyEffectStandardLoc_listed p c1 c2 c3 direction h
      ("lighting_breath_dual", fun a b _ _ => EffectCall.setBreathDual a b) (by simp [standardEffects])⟩

/-- C12: each of the four dispatchers, given an identifier that it does not
name (one of another zone included), makes no daemon call and writes exactly
one warning, on every panel. -/
theorem dispatchers_unlisted (p : Panel) (identifier : String) :
    (identifier ∉ standardEffects.map Prod.fst →
      applyEffectStandardLoc identifier p =
        Except.ok ([], [Warning.notImplemented identifier])) ∧
    (identifier ∉ logoEffects.map Prod.fst →
      applyEffectLogoLoc identifier p =
        Except.ok ([], [Warning.notImplemented identifier])) ∧
    (identifier ∉ scrollEffects.map Prod.fst →
      applyEffectScrollLoc identifier p =
        Except.ok ([], [Warning.notImplemented identifier])) ∧
    (identifier ∉ backlightEffects.map Prod.fst →
      applyEffectBacklightLoc identifier p =
        Except.ok ([], [Warning.notImplemented identifier])) := by
  refine ⟨?_, ?_, ?_, ?_⟩
  · intro h
    simp only [standardEffects, List.map_cons, List.map_nil, List.mem_cons, List.mem_singleton,
      List.not_mem_nil, or_false, not_or] at h
    simp [applyEffectStandardLoc, h, pure, Except.pure]
  · intro h
    simp only [logoEffects, List.map_cons, List.map_nil, List.mem_cons, List.mem_singleton,
      List.not_mem_nil, or_false, not_or] at h
    simp [applyEffectLogoLoc, h, pure, Except.pure]
  · intro h
    simp only [scrollEffects, List.map_cons, List.map_nil, List.mem_cons, List.mem_singleton,
      List.not_mem_nil, or_false, not_or] at h
    simp [applyEffectScrollLoc, h, pure, Except.pure]
  · intro h
    simp only [backlightEffects, List.map_cons, List.map_nil, List.mem_cons,
      List.mem_singleton, List.not_mem_nil, or_false, not_or] at h
    simp [applyEffectBacklightLoc, h, pure, Except.pure]

theorem dispatchers_one_call_witness :
    applyEffectStandardLoc "lighting_breath_dual" samplePanel =
      Except.ok ([EffectCall.setBreathDual ⟨16711680⟩ ⟨255⟩], []) :=
  (dispatchers_one_call samplePanel ⟨16711680⟩ ⟨255⟩ ⟨65280⟩ WaveDirection.WAVE_LEFT).2.2.2.2
    ⟨_, rfl, rfl, by decide, rfl⟩

theorem dispatchers_unlisted_witness :
    applyEffectStandardLoc "lighting_logo_wave" samplePanel =
      Except.ok ([], [Warning.notImplemented "lighting_logo_wave"]) :=
  (dispatchers_unlisted samplePanel "lighting_logo_wave").1 (by decide)

/-! ## Theorems: building a panel -/

/-- C13 (the code at the failing input): a device with `dpi` and
`available_dpi` whose `getDPI()` returns the empty list; building the dropdown
reads element 0 of that list.  With a single value the element is there and
the dropdown is seeded with it. -/
theorem buildDeviceWidget_dropdown_empty_dpi :
    buildDeviceWidget sampleTables true (sampleDevice ["dpi", "available_dpi"] []) =
      Except.error Fault.indexOutOfRange ∧
    (buildDeviceWidget sampleTables true (sampleDevice ["dpi", "available_dpi"] [800])).map
      (fun p => p.dpiComboBox) = Except.ok (some ⟨[400, 800, 1600], some 1⟩) := by
  decide

theorem buildDpiSliders_unseeded (syncDpi : Bool) (d : DeviceInfo)
    (h : d.getDPI.length ≠ 2) :
    buildDpiSliders syncDpi d =
      (⟨QSlider.new.setMaximum (Int.tdiv d.maxDPI 100),
        QSlider.new.setMaximum (Int.tdiv d.maxDPI 100), none, none, syncDpi⟩,
        [Warning.skippingDpi]) := by
  unfold buildDpiSliders
  simp only
  generalize d.getDPI = l at h
  rcases l with _ | ⟨a, _ | ⟨b, _ | ⟨c, r⟩⟩⟩ <;> simp at h ⊢

/-- C17: the DPI controls are mutually exclusive by capability.  Whenever
`getDPI()` is not empty for a device with `dpi` and `available_dpi` (the read
of line 695), the panel is built; with `dpi` and `available_dpi` it has the
dropdown and no slider pair, with `dpi` alone the slider pair and no dropdown,
and without `dpi` neither. -/
theorem dpi_controls_exclusive (t : Tables) (syncDpi : Bool) (d : DeviceInfo)
    (hread : d.hasCapability "dpi" = true → d.hasCapability "available_dpi" = true →
      d.getDPI ≠ []) :
    ∃ p, buildDeviceWidget t syncDpi d = Except.ok p ∧
      (d.hasCapability "dpi" = true → d.hasCapability "available_dpi" = true →
        p.dpiComboBox.isSome = true ∧ p.dpiSliders = none) ∧
      (d.hasCapability "dpi" = true → d.hasCapability "available_dpi" = false →
        p.dpiSliders.isSome = true ∧ p.dpiComboBox = none) ∧
      (d.hasCapability "dpi" = false → p.dpiSliders = none ∧ p.dpiComboBox = none) := by
  cases hdpi : d.hasCapability "dpi" <;> cases hav : d.hasCapability "available_dpi"
  · simp [buildDeviceWidget, hdpi, hav]
  · simp [buildDeviceWidget, hdpi, hav]
  · simp [buildDeviceWidget, hdpi, hav]
  · have hne := hread hdpi hav
    obtain ⟨x, rest, hx⟩ : ∃ x rest, d.getDPI = x :: rest := by
      cases hg : d.getDPI with
      | nil => exact absurd hg hne
      | cons x rest => exact ⟨x, rest, rfl⟩
    cases hf : findText x d.availableDPI 0 with
    | none => simp [buildDeviceWidget, hdpi, hav, buildDpiComboBox, hx, hf, Except.map]
    | some i => simp [buildDeviceWidget, hdpi, hav, buildDpiComboBox, hx, hf, Except.map]

theorem dpi_controls_exclusive_witness :
    ∃ p, buildDeviceWidget sampleTables true (sampleDevice ["dpi", "available_dpi"] [800, 800])
        = Except.ok p ∧
      p.dpiComboBox.isSome = true ∧ p.dpiSliders = none := by
  obtain ⟨p, h1, h2, _, _⟩ :=
    dpi_controls_exclusive sampleTables true (sampleDevice ["dpi", "available_dpi"] [800, 800])
      (fun _ _ => by decide)
  exact ⟨p, h1, h2 (by decide) (by decide)⟩

theorem comboItems_eq_filter (d : DeviceInfo) (table : List RazerCapability) :
    comboItems d table = table.filter (fun c => d.hasCapability c.identifier) := by
  induction table with
  | nil => rfl
  | cons c rest ih =>
    unfold comboItems
    by_cases h : d.hasCapability c.identifier = true
    · rw [if_pos h, ih, filter_cons_keep _ c rest h]
    · rw [if_neg h, ih, filter_cons_drop _ c rest (by simpa using h)]

theorem mem_lightingLocationsTodo (d : DeviceInfo) (location : LightingLocation)
    (h : location ∈ lightingLocationsTodo d) :
    location = LightingLocation.Lighting ∨ location = LightingLocation.LightingLogo ∨
      location = LightingLocation.LightingScroll ∨
      location = LightingLocation.LightingBacklight := by
  unfold lightingLocationsTodo at h
  simp only [List.mem_append] at h
  rcases h with ((h | h) | h) | h <;> split at h <;> simp at h <;> simp [h]

theorem buildZone_of_todo (t : Tables) (d : DeviceInfo) (location : LightingLocation)
    (h : location ∈ lightingLocationsTodo d) :
    ∃ slider, buildZone t d location =
      some (zoneSection location (comboItems d (zoneTable t location)) slider) := by
  rcases mem_lightingLocationsTodo d location h with rfl | rfl | rfl | rfl <;>
    exact ⟨_, rfl⟩

theorem zoneSection_location (location : LightingLocation) (items : List RazerCapability)
    (slider : Option QSlider) : (zoneSection location items slider).location = location := by
  cases items <;> rfl

theorem zoneSection_items (location : LightingLocation) (items : List RazerCapability)
    (slider : Option QSlider) : (zoneSection location items slider).items = items := by
  cases items <;> rfl

theorem mem_buildZones (t : Tables) (d : DeviceInfo) (sec : ZoneSection)
    (h : sec ∈ buildZones t d) :
    ∃ slider, sec.location ∈ lightingLocationsTodo d ∧
      sec = zoneSection sec.location (comboItems d (zoneTable t sec.location)) slider := by
  unfold buildZones at h
  obtain ⟨location, hloc, hb⟩ := List.mem_filterMap.mp h
  obtain ⟨slider, hs⟩ := buildZone_of_todo t d location hloc
  rw [hs] at hb
  have hsec := (Option.some.inj hb).symm
  have hl : sec.location = location := by rw [hsec, zoneSection_location]
  exact ⟨slider, hl ▸ hloc, by rw [hl]; exact hsec⟩

theorem map_location_buildZones (t : Tables) (d : DeviceInfo) :
    (buildZones t d).map ZoneSection.location = lightingLocationsTodo d := by
  unfold buildZones
  have key : ∀ l : List LightingLocation, (∀ x ∈ l, x ∈ lightingLocationsTodo d) →
      (l.filterMap (buildZone t d)).map ZoneSection.location = l := by
    intro l
    induction l with
    | nil => intro _; rfl
    | cons x rest ih =>
      intro hall
      obtain ⟨slider, hs⟩ := buildZone_of_todo t d x (hall x (List.mem_cons_self _ _))
      rw [List.filterMap_cons_some hs, List.map_cons, zoneSection_location,
        ih (fun y hy => hall y (List.mem_cons_of_mem _ hy))]
  exact key _ (fun x hx => hx)

theorem buildDeviceWidget_sections (t : Tables) (syncDpi : Bool) (d : DeviceInfo) (p : Panel)
    (h : buildDeviceWidget t syncDpi d = Except.ok p) : p.sections = buildZones t d := by
  unfold buildDeviceWidget at h
  simp only at h
  split at h
  · cases h
  · cases h
    rfl

/-- C20: for every capability set, the zones built are those of
`lightingLocationsTodo`, in that order; the effect selector of each holds
exactly the entries of the zone's table whose identifier the device has, in
table order; and the selector is put into the panel, with three colour buttons
and two radio buttons, exactly when that list is not empty (no button is built
otherwise).  A panel that `buildDeviceWidget` returns has these zones. -/
theorem effect_selector_filtered (t : Tables) (d : DeviceInfo) :
    (buildZones t d).map ZoneSection.location = lightingLocationsTodo d ∧
    (∀ sec ∈ buildZones t d,
      sec.items = (zoneTable t sec.location).filter (fun c => d.hasCapability c.identifier) ∧
      (sec.comboAdded = true ↔ sec.items ≠ []) ∧
      (sec.items ≠ [] → sec.colorbuttons.length = 3 ∧ sec.radiobuttons.length = 2) ∧
      (sec.items = [] → sec.colorbuttons = [] ∧ sec.radiobuttons = [])) ∧
    (∀ syncDpi p, buildDeviceWidget t syncDpi d = Except.ok p →
      p.sections = buildZones t d) := by
  refine ⟨map_location_buildZones t d, ?_, fun syncDpi p h =>
    buildDeviceWidget_sections t syncDpi d p h⟩
  intro sec hsec
  obtain ⟨slider, _, hs⟩ := mem_buildZones t d sec hsec
  rw [← comboItems_eq_filter]
  generalize comboItems d (zoneTable t sec.location) = items at hs
  rw [hs]
  cases items with
  | nil => simp [zoneSection]
  | cons c rest => simp [zoneSection, colorButtons, radioButtons]

theorem colorVisible_iff (sec : ZoneSection) (c1 c2 c3 : QColor) (n : Int)
    (h : sec.colorbuttons =
      [⟨c1, decide (n < 1)⟩, ⟨c2, decide (n < 2)⟩, ⟨c3, decide (n < 3)⟩])
    (i : Nat) (h1 : 1 ≤ i) (h3 : i ≤ 3) : sec.colorVisible i ↔ (i : Int) ≤ n := by
  unfold ZoneSection.colorVisible
  rw [h]
  interval_cases i
  · simp only [Nat.sub_self, List.get?_cons_zero, Option.some.injEq, exists_eq_left',
      decide_eq_false_iff_not, Nat.cast_one]
    omega
  · simp only [Nat.reduceSub, List.get?_cons_succ, List.get?_cons_zero, Option.some.injEq,
      exists_eq_left', decide_eq_false_iff_not, Nat.cast_ofNat]
    omega
  · simp only [Nat.reduceSub, List.get?_cons_succ, List.get?_cons_zero, Option.some.injEq,
      exists_eq_left', decide_eq_false_iff_not, Nat.cast_ofNat]
    omega

theorem zone_commonCombo (t : Tables) (index : Nat) (sec : ZoneSection)
    (capability : RazerCapability) (b1 b2 b3 : QPushButton) (r1 r2 : QRadioButton)
    (hb : sec.colorbuttons = [b1, b2, b3]) (hr : sec.radiobuttons = [r1, r2])
    (hcap : sec.items.get? index = some capability) :
    sec.commonCombo t index =
      Except.ok ({ sec with
        currentIndex := index
        colorbuttons := [⟨b1.color, decide (capability.numColors < 1)⟩,
          ⟨b2.color, decide (capability.numColors < 2)⟩,
          ⟨b3.color, decide (capability.numColors < 3)⟩]
        radiobuttons := [⟨!capability.wave⟩, ⟨!capability.wave⟩] },
        capability.identifier) := by
  unfold ZoneSection.commonCombo
  simp only [hcap, Option.getD_some, hb, hr]
  have hc : syncColorButtons capability [b1, b2, b3] =
      Except.ok [⟨b1.color, decide (capability.numColors < 1)⟩,
        ⟨b2.color, decide (capability.numColors < 2)⟩,
        ⟨b3.color, decide (capability.numColors < 3)⟩] := by
    unfold syncColorButtons
    by_cases h0 : capability.numColors = 0
    · simp [h0, setColorButtonHidden, bind, Except.bind]
    · simp [h0, setColorButtonHidden, bind, Except.bind]
  have hw : syncRadioButtons capability [r1, r2] =
      Except.ok [⟨!capability.wave⟩, ⟨!capability.wave⟩] := by
    unfold syncRadioButtons
    cases capability.wave <;> simp [setRadioButtonHidden, bind, Except.bind]
  rw [hc, hw]

theorem findSection_location (p : Panel) (location : LightingLocation) (sec : ZoneSection)
    (h : p.findSection location = some sec) : sec.location = location := by
  unfold Panel.findSection at h
  have := List.find?_some h
  simpa using this

theorem findSection_setSection (p : Panel) (location : LightingLocation)
    (old sec : ZoneSection) (h : p.findSection location = some old)
    (hloc : sec.location = location) :
    (p.setSection location sec).findSection location = some sec := by
  unfold Panel.findSection Panel.setSection at *
  simp only
  generalize p.sections = l at h
  induction l with
  | nil => simp at h
  | cons x rest ih =>
    by_cases hx : x.location = location
    · simp [List.find?_cons, hx, hloc]
    · have hd : decide (x.location = location) = false := by simpa using hx
      have hrest : List.find? (fun sec => decide (sec.location = location)) rest = some old := by
        simpa [List.find?_cons, hd] using h
      rw [List.map_cons, if_neg hx, List.find?_cons, hd]
      exact ih hrest

theorem commonCombo_sync (t : Tables) (p : Panel) (location : LightingLocation)
    (sec : ZoneSection) (index : Nat) (capability : RazerCapability)
    (hsec : p.findSection location = some sec)
    (hb : sec.colorbuttons.length = 3) (hr : sec.radiobuttons.length = 2)
    (hcap : sec.items.get? index = some capability) :
    ∃ p1 sec1, commonCombo t location index p = Except.ok (p1, capability.identifier) ∧
      p1.findSection location = some sec1 ∧
      sec1.items = sec.items ∧ sec1.selected = some capability ∧
      sec1.colorbuttons.length = 3 ∧ sec1.radiobuttons.length = 2 ∧
      (∀ i, 1 ≤ i → i ≤ 3 → (sec1.colorVisible i ↔ (i : Int) ≤ capability.numColors)) ∧
      (sec1.directionVisible ↔ capability.wave = true) := by
  obtain ⟨b1, b2, b3, hbs⟩ : ∃ b1 b2 b3, sec.colorbuttons = [b1, b2, b3] := by
    rcases hl : sec.colorbuttons with _ | ⟨b1, _ | ⟨b2, _ | ⟨b3, _ | ⟨b4, r⟩⟩⟩⟩ <;>
      simp [hl] at hb
    exact ⟨b1, b2, b3, rfl⟩
  obtain ⟨r1, r2, hrs⟩ : ∃ r1 r2, sec.radiobuttons = [r1, r2] := by
    rcases hl : sec.radiobuttons with _ | ⟨r1, _ | ⟨r2, _ | ⟨r3, r⟩⟩⟩ <;> simp [hl] at hr
    exact ⟨r1, r2, rfl⟩
  have hz := zone_commonCombo t index sec capability b1 b2 b3 r1 r2 hbs hrs hcap
  have hloc := findSection_location p location sec hsec
  obtain ⟨sec1, hsec1⟩ : ∃ s : ZoneSection, s = { sec with
      currentIndex := index
      colorbuttons := [⟨b1.color, decide (capability.numColors < 1)⟩,
        ⟨b2.color, decide (capability.numColors < 2)⟩,
        ⟨b3.color, decide (capability.numColors < 3)⟩]
      radiobuttons := [⟨!capability.wave⟩, ⟨!capability.wave⟩] } := ⟨_, rfl⟩
  rw [← hsec1] at hz
  have e1 : sec1.location = location := by rw [hsec1]; exact hloc
  have e2 : sec1.items = sec.items := by rw [hsec1]
  have e3 : sec1.currentIndex = index := by rw [hsec1]
  have e4 : sec1.colorbuttons = [⟨b1.color, decide (capability.numColors < 1)⟩,
      ⟨b2.color, decide (capability.numColors < 2)⟩,
      ⟨b3.color, decide (capability.numColors < 3)⟩] := by rw [hsec1]
  have e5 : sec1.radiobuttons = [⟨!capability.wave⟩, ⟨!capability.wave⟩] := by rw [hsec1]
  refine ⟨p.setSection location sec1, sec1, ?_,
    findSection_setSection p location sec sec1 hsec e1, e2, ?_, by rw [e4]; rfl,
    by rw [e5]; rfl, ?_, ?_⟩
  · unfold commonCombo
    rw [hsec]
    simp only [hz]
  · unfold ZoneSection.selected
    rw [e2, e3]
    exact hcap
  · intro i h1 h3
    exact colorVisible_iff sec1 b1.color b2.color b3.color capability.numColors e4 i h1 h3
  · unfold ZoneSection.directionVisible
    rw [e5]
    cases capability.wave
    · simp
    · simp only [Bool.not_true, iff_true]
      exact ⟨_, _, rfl, rfl, rfl⟩

/-- C18: the colour buttons follow the selection.  In every zone that
`buildZones` gives a non-empty effect selector, the selector shows its first
entry and colour button `i` (1 to 3) is visible exactly when `i` is at most the
colour count of that entry.  After `commonCombo` for an entry of the selector
of a zone that has its buttons, the call returns, the zone keeps its entries
and buttons, the entry is the selected one, and colour button `i` is visible
exactly when `i` is at most its colour count. -/
theorem color_buttons_follow_selection (t : Tables) :
    (∀ d, ∀ sec ∈ buildZones t d, sec.items ≠ [] →
      ∃ capability, sec.selected = some capability ∧ sec.items.head? = some capability ∧
        sec.colorbuttons.length = 3 ∧ sec.radiobuttons.length = 2 ∧
        ∀ i, 1 ≤ i → i ≤ 3 → (sec.colorVisible i ↔ (i : Int) ≤ capability.numColors)) ∧
    (∀ (p : Panel) (location : LightingLocation) (sec : ZoneSection) (index : Nat)
      (capability : RazerCapability),
      p.findSection location = some sec →
      sec.colorbuttons.length = 3 → sec.radiobuttons.length = 2 →
      sec.items.get? index = some capability →
      ∃ p1 sec1, commonCombo t location index p = Except.ok (p1, capability.identifier) ∧
        p1.findSection location = some sec1 ∧
        sec1.items = sec.items ∧ sec1.selected = some capability ∧
        sec1.colorbuttons.length = 3 ∧ sec1.radiobuttons.length = 2 ∧
        ∀ i, 1 ≤ i → i ≤ 3 → (sec1.colorVisible i ↔ (i : Int) ≤ capability.numColors)) := by
  constructor
  · intro d sec hsec hne
    obtain ⟨slider, _, hs⟩ := mem_buildZones t d sec hsec
    have hitems : sec.items = comboItems d (zoneTable t sec.location) :=
      (congrArg ZoneSection.items hs).trans (zoneSection_items _ _ _)
    rw [← hitems] at hs
    cases hi : sec.items with
    | nil => exact absurd hi hne
    | cons c rest =>
      rw [hi] at hs
      have hcb : sec.colorbuttons = colorButtons c := by rw [hs]; rfl
      have hrb : sec.radiobuttons = radioButtons := by rw [hs]; rfl
      have hci : sec.currentIndex = 0 := by rw [hs]; rfl
      refine ⟨c, ?_, rfl, by rw [hcb]; rfl, by rw [hrb]; rfl, ?_⟩
      · unfold ZoneSection.selected
        rw [hci, hi]
        rfl
      · intro i h1 h3
        exact colorVisible_iff sec QColor.green QColor.green QColor.green c.numColors
          (by rw [hcb]; rfl) i h1 h3
  · intro p location sec index capability hsec hb hr hcap
    obtain ⟨p1, sec1, g1, g2, g3, g4, g5, g6, g7, _⟩ :=
      commonCombo_sync t p location sec index capability hsec hb hr hcap
    exact ⟨p1, sec1, g1, g2, g3, g4, g5, g6, g7⟩

theorem effect_selector_filtered_witness :
    (⟨LightingLocation.Lighting,
        [⟨"lighting_breath_dual", "lighting_breath_dual", 2, false⟩,
          ⟨"lighting_static", "lighting_static", 1, false⟩], 0, true,
        [⟨QColor.green, false⟩, ⟨QColor.green, false⟩, ⟨QColor.green, true⟩],
        [⟨true⟩, ⟨true⟩], none⟩ : ZoneSection).items =
      (zoneTable sampleTables LightingLocation.Lighting).filter
        (fun c => (sampleDevice ["lighting", "lighting_static", "lighting_breath_dual"]
          []).hasCapability c.identifier) :=
  ((effect_selector_filtered sampleTables
    (sampleDevice ["lighting", "lighting_static", "lighting_breath_dual"] [])).2.1
      ⟨LightingLocation.Lighting,
        [⟨"lighting_breath_dual", "lighting_breath_dual", 2, false⟩,
          ⟨"lighting_static", "lighting_static", 1, false⟩], 0, true,
        [⟨QColor.green, false⟩, ⟨QColor.green, false⟩, ⟨QColor.green, true⟩],
        [⟨true⟩, ⟨true⟩], none⟩ (by decide)).1

theorem color_buttons_follow_selection_witness :
    ∃ p1 sec1, commonCombo sampleTables LightingLocation.Lighting 0 samplePanel =
        Except.ok (p1, "lighting_breath_single") ∧
      p1.findSection LightingLocation.Lighting = some sec1 ∧
      (sec1.colorVisible 1 ↔ ((1 : Nat) : Int) ≤ 1) ∧
      (sec1.colorVisible 2 ↔ ((2 : Nat) : Int) ≤ 1) := by
  obtain ⟨p1, sec1, h1, h2, _, _, _, _, h7⟩ :=
    (color_buttons_follow_selection sampleTables).2 samplePanel LightingLocation.Lighting
      ⟨LightingLocation.Lighting,
        [⟨"lighting_breath_single", "lighting_breath_single", 1, false⟩,
          ⟨"lighting_breath_dual", "lighting_breath_dual", 2, false⟩], 1, true,
        [⟨⟨16711680⟩, false⟩, ⟨⟨255⟩, false⟩, ⟨⟨65280⟩, true⟩], [⟨true⟩, ⟨true⟩], none⟩
      0 ⟨"lighting_breath_single", "lighting_breath_single", 1, false⟩ rfl rfl rfl rfl
  exact ⟨p1, sec1, h1, h2, h7 1 (by decide) (by decide), h7 2 (by decide) (by decide)⟩

theorem buildZones_radio_hidden (t : Tables) (d : DeviceInfo) (sec : ZoneSection)
    (hsec : sec ∈ buildZones t d) (hne : sec.items ≠ []) :
    sec.radiobuttons = [⟨true⟩, ⟨true⟩] ∧ ¬ sec.directionVisible := by
  obtain ⟨slider, _, hs⟩ := mem_buildZones t d sec hsec
  have hitems : sec.items = comboItems d (zoneTable t sec.location) :=
    (congrArg ZoneSection.items hs).trans (zoneSection_items _ _ _)
  rw [← hitems] at hs
  cases hi : sec.items with
  | nil => exact absurd hi hne
  | cons c rest =>
    rw [hi] at hs
    have hrb : sec.radiobuttons = [⟨true⟩, ⟨true⟩] := by rw [hs]; rfl
    refine ⟨hrb, ?_⟩
    rintro ⟨b1, b2, hb, h1, _⟩
    rw [hrb] at hb
    simp only [List.cons.injEq, and_true] at hb
    rw [← hb.1] at h1
    cases h1

/-- C19 (the code at the failing input): a device with `lighting` and
`lighting_wave` only.  The effect selector of the standard zone holds the wave
entry alone, which is the selected one and supports a direction, and both
radio buttons are hidden after construction (`radio->hide()` is called whatever
the selection). -/
theorem buildZones_wave_selected_toggle_hidden :
    buildZones sampleTables (sampleDevice ["lighting", "lighting_wave"] []) =
      [⟨LightingLocation.Lighting, [⟨"lighting_wave", "lighting_wave", 0, true⟩], 0, true,
        [⟨QColor.green, true⟩, ⟨QColor.green, true⟩, ⟨QColor.green, true⟩],
        [⟨true⟩, ⟨true⟩], none⟩] ∧
    (⟨LightingLocation.Lighting, [⟨"lighting_wave", "lighting_wave", 0, true⟩], 0, true,
        [⟨QColor.green, true⟩, ⟨QColor.green, true⟩, ⟨QColor.green, true⟩],
        [⟨true⟩, ⟨true⟩], none⟩ : ZoneSection).selected =
      some ⟨"lighting_wave", "lighting_wave", 0, true⟩ := by
  decide

/-! ## Theorems: the code at further inputs -/

/-- C21 (the code at the failing input): a device with `brightness` and
without `get_brightness`, and devices with both whose daemon brightness is 100
and 255.  The slider is created with the range 0..99 and the range is never
changed, so `setValue(100)` and `setValue(255)` leave the value 99.  A device
without `brightness` gets no slider. -/
theorem buildZones_brightness_bounded :
    (buildZones sampleTables (sampleDevice ["brightness"] [])).map
        ZoneSection.brightnessSlider = [some ⟨0, 99, 99⟩] ∧
    (buildZones sampleTables
        { sampleDevice ["brightness", "get_brightness"] [] with getBrightness := 100 }).map
        ZoneSection.brightnessSlider = [some ⟨0, 99, 99⟩] ∧
    (sampleDevice ["brightness", "get_brightness"] []).getBrightness = 255 ∧
    (buildZones sampleTables (sampleDevice ["brightness", "get_brightness"] [])).map
        ZoneSection.brightnessSlider = [some ⟨0, 99, 99⟩] ∧
    (buildZones sampleTables (sampleDevice ["lighting", "get_brightness"] [])).map
        ZoneSection.brightnessSlider = [none] := by
  decide

/-- C25 (the code at the failing input): a line whose vendor id is not
hexadecimal and whose product id is.  The flag `ok` read by the test is the
one of the product id, so the pair (0, 0x43) is returned and no warning is
written. -/
theorem getConnectedDevices_lsusb_bad_vendor :
    ¬ IsHexNumeral "zz" ∧
    getConnectedDevices_lsusb "zz:0043\n" = Except.ok ([(0, 67)], []) := by
  decide

/-- C26 (the code at the failing input): the loop of `clearDeviceList` starts
at `i = count`.  On the empty stack and on a stack of one panel the first
index passed to `widget` is the count, the page returned is null, and
`deleteLater` is called on it. -/
theorem clearDeviceList_first_index_is_count :
    widget initial.stackedWidget initial.stackedWidget.length = none ∧
    (clearDeviceList initial).deleteLater = [none] ∧
    widget (setupUi ["A"]).stackedWidget (setupUi ["A"]).stackedWidget.length = none ∧
    (clearDeviceList (setupUi ["A"])).deleteLater =
      [none, some (Widget.razerDeviceWidget 1 "A")] := by
  decide

/-- C27 (the code at the failing input): start-up with the empty daemon list
shows the cached placeholder; `clearDeviceList` then removes it from the
stack, calls `deleteLater` on it, and adds the same cached widget again. -/
theorem clearDeviceList_deletes_cached_placeholder :
    (setupUi []).stackedWidget = [Widget.placeholder 0] ∧
    (clearDeviceList (setupUi [])).deleteLater = [none, some (Widget.placeholder 0)] ∧
    (clearDeviceList (setupUi [])).stackedWidget = [Widget.placeholder 0] ∧
    (clearDeviceList (setupUi [])).noDevicePlaceholder = some 0 ∧
    (getNoDevicePlaceholder (clearDeviceList (setupUi []))).1 = Widget.placeholder 0 := by
  decide

/-- C24 (the code at the failing input): `applyEffect` with a location that is
none of the four, on the sample panel and on a panel as built for a device
with one effect.  No selector is named after the location, and the null
pointer from `findChild` is read before the location is tested, so the call
faults and the error message of the last branch is not reached. -/
theorem applyEffect_unrecognised_location_faults :
    applyEffect sampleTables (LightingLocation.other 4) samplePanel =
      Except.error Fault.nullPointer ∧
    (buildDeviceWidget sampleTables false
        (sampleDevice ["lighting", "lighting_wave"] [])).map
      (applyEffect sampleTables (LightingLocation.other 4)) =
      Except.ok (Except.error Fault.nullPointer) := by
  decide

/-! ## Theorems: the placeholder page -/

theorem mem_matchConnected (vid pid : Int) (connectedDevices : List (Int × Int))
    (x : Int × Int) :
    x ∈ matchConnected vid pid connectedDevices ↔
      x ∈ connectedDevices ∧ x.1 = vid ∧ x.2 = pid := by
  induction connectedDevices with
  | nil => simp [matchConnected]
  | cons y rest ih =>
    unfold matchConnected
    split
    · rename_i h
      rw [List.mem_cons, List.mem_cons, ih]
      constructor
      · rintro (rfl | h1)
        · exact ⟨Or.inl rfl, h⟩
        · exact ⟨Or.inr h1.1, h1.2⟩
      · rintro ⟨rfl | h1, h2⟩
        · exact Or.inl rfl
        · exact Or.inr ⟨h1, h2⟩
    · rename_i h
      rw [List.mem_cons, ih]
      constructor
      · rintro h1
        exact ⟨Or.inr h1.1, h1.2⟩
      · rintro ⟨rfl | h1, h2⟩
        · exact absurd h2 h
        · exact ⟨h1, h2⟩

theorem scanSupported_spec (connectedDevices : List (Int × Int))
    (supportedDevices : List (String × List Int)) :
    (∀ x, x ∈ (scanSupported connectedDevices supportedDevices).1 ↔
      x ∈ connectedDevices ∧ ∃ e ∈ supportedDevices, e.2 = [x.1, x.2]) ∧
    (scanSupported connectedDevices supportedDevices).2 =
      (supportedDevices.map Prod.snd).filter (fun list => decide (list.length ≠ 2)) := by
  induction supportedDevices with
  | nil => simp [scanSupported]
  | cons e rest ih =>
    obtain ⟨k, list⟩ := e
    obtain ⟨ih1, ih2⟩ := ih
    rcases list with _ | ⟨a, _ | ⟨b, _ | ⟨c, r⟩⟩⟩
    · refine ⟨fun x => ?_, ?_⟩
      · simp [scanSupported, ih1]
      · simp [scanSupported, ih2]
    · refine ⟨fun x => ?_, ?_⟩
      · simp [scanSupported, ih1]
      · simp [scanSupported, ih2]
    · refine ⟨fun x => ?_, ?_⟩
      · simp only [scanSupported, List.mem_append, mem_matchConnected, ih1, List.mem_cons,
          exists_eq_or_imp, List.cons.injEq, and_true]
        constructor
        · rintro (⟨h1, h2, h3⟩ | ⟨h1, h2⟩)
          · exact ⟨h1, Or.inl ⟨h2.symm, h3.symm⟩⟩
          · exact ⟨h1, Or.inr h2⟩
        · rintro ⟨h1, ⟨h2, h3⟩ | h2⟩
          · exact Or.inl ⟨h1, h2.symm, h3.symm⟩
          · exact Or.inr ⟨h1, h2⟩
      · simp [scanSupported, ih2]
    · refine ⟨fun x => ?_, ?_⟩
      · simp [scanSupported, ih1]
      · simp [scanSupported, ih2]

theorem placeholder_ne :
    (⟨"No device was detected", ("Open supported devices", Url.supportedDevicesUrl),
      ("Report issue", Url.newIssueUrl)⟩ : Placeholder) ≠
    ⟨"The daemon didn't detect a device that is connected",
      ("Open troubleshooting page", Url.troubleshootingUrl),
      ("Report issue", Url.newIssueUrl)⟩ := by
  decide

/-- C22: the placeholder built by `getNoDevicePlaceholder` is the page headed
"The daemon didn't detect a device that is connected", with the button to the
troubleshooting page, exactly when some pair of the OS enumeration equals the
pair of some two-element entry of the supported-device table, and the page
headed "No device was detected" exactly when there is none; the entries whose
list does not have two elements are the ones written as warnings, and the
scan goes on after them. -/
theorem buildNoDevicePlaceholder_variant (connectedDevices : List (Int × Int))
    (supportedDevices : List (String × List Int)) :
    ((buildNoDevicePlaceholder connectedDevices supportedDevices).1 =
        ⟨"The daemon didn't detect a device that is connected",
          ("Open troubleshooting page", Url.troubleshootingUrl),
          ("Report issue", Url.newIssueUrl)⟩ ↔
      ∃ x ∈ connectedDevices, ∃ e ∈ supportedDevices, e.2 = [x.1, x.2]) ∧
    ((buildNoDevicePlaceholder connectedDevices supportedDevices).1 =
        ⟨"No device was detected", ("Open supported devices", Url.supportedDevicesUrl),
          ("Report issue", Url.newIssueUrl)⟩ ↔
      ¬ ∃ x ∈ connectedDevices, ∃ e ∈ supportedDevices, e.2 = [x.1, x.2]) ∧
    (buildNoDevicePlaceholder connectedDevices supportedDevices).2 =
      (if connectedDevices = [] then []
        else (supportedDevices.map Prod.snd).filter (fun list => decide (list.length ≠ 2))) := by
  obtain ⟨h1, h2⟩ := scanSupported_spec connectedDevices supportedDevices
  have hm : (scanSupported connectedDevices supportedDevices).1 = [] ↔
      ¬ ∃ x ∈ connectedDevices, ∃ e ∈ supportedDevices, e.2 = [x.1, x.2] := by
    rw [List.eq_nil_iff_forall_not_mem]
    constructor
    · rintro h ⟨x, hx, he⟩
      exact h x ((h1 x).mpr ⟨hx, he⟩)
    · intro h x hx
      exact h ⟨x, ((h1 x).mp hx).1, ((h1 x).mp hx).2⟩
  cases hc : connectedDevices with
  | nil =>
    simp [buildNoDevicePlaceholder]
  | cons y ys =>
    rw [← hc]
    have hne : connectedDevices ≠ [] := by rw [hc]; exact List.cons_ne_nil _ _
    have hlen : connectedDevices.length ≠ 0 := fun h => hne (List.length_eq_zero.mp h)
    by_cases hemp : (scanSupported connectedDevices supportedDevices).1 = []
    · have hno := hm.mp hemp
      have hb : buildNoDevicePlaceholder connectedDevices supportedDevices =
          (⟨"No device was detected", ("Open supported devices", Url.supportedDevicesUrl),
            ("Report issue", Url.newIssueUrl)⟩,
            (scanSupported connectedDevices supportedDevices).2) := by
        simp only [buildNoDevicePlaceholder]
        rw [if_pos hlen, if_pos (by rw [hemp]; rfl)]
      rw [hb, if_neg hne]
      exact ⟨⟨fun h => absurd h placeholder_ne, fun h => absurd h hno⟩,
        ⟨fun _ => hno, fun _ => rfl⟩, h2⟩
    · have hyes := not_not.mp (mt hm.mpr hemp)
      have hl : ¬ (scanSupported connectedDevices supportedDevices).1.length = 0 :=
        fun h => hemp (List.length_eq_zero.mp h)
      have hb : buildNoDevicePlaceholder connectedDevices supportedDevices =
          (⟨"The daemon didn't detect a device that is connected",
            ("Open troubleshooting page", Url.troubleshootingUrl),
            ("Report issue", Url.newIssueUrl)⟩,
            (scanSupported connectedDevices supportedDevices).2) := by
        simp only [buildNoDevicePlaceholder]
        rw [if_pos hlen, if_neg hl]
      rw [hb, if_neg hne]
      exact ⟨⟨fun _ => hyes, fun _ => rfl⟩,
        ⟨fun h => absurd h.symm placeholder_ne, fun h => absurd hyes h⟩, h2⟩

/-! ## Theorems: start-up -/

/-- C23: the start-up view is a function of whether the daemon runs and of its
status.  Without the daemon the window shows the not-installed view for
NotInstalled, the no-systemd view for NoSystemd and the view with the raw
status output for Enabled, Disabled and Unknown, and for every status no bus
watcher is registered and the view is not the normal UI; the normal UI of
`setupUi` is the view exactly when the daemon runs, and the watcher is
registered exactly then. -/
theorem newRazerGenie_view (daemonStatus : DaemonStatus) (isDaemonRunning : Bool)
    (getDaemonStatusOutput : String) (serialnrs : List String) (enableClicked : Bool) :
    (newRazerGenie DaemonStatus.NotInstalled false getDaemonStatusOutput serialnrs
        enableClicked).view = View.notInstalled ("Open OpenRazer website", Url.websiteUrl) ∧
    (newRazerGenie DaemonStatus.NoSystemd false getDaemonStatusOutput serialnrs
        enableClicked).view = View.noSystemd ∧
    (newRazerGenie DaemonStatus.Enabled false getDaemonStatusOutput serialnrs
        enableClicked).view =
      View.statusOutput getDaemonStatusOutput ("Report issue", Url.newIssueUrl) ∧
    (newRazerGenie DaemonStatus.Disabled false getDaemonStatusOutput serialnrs
        enableClicked).view =
      View.statusOutput getDaemonStatusOutput ("Report issue", Url.newIssueUrl) ∧
    (newRazerGenie DaemonStatus.Unknown false getDaemonStatusOutput serialnrs
        enableClicked).view =
      View.statusOutput getDaemonStatusOutput ("Report issue", Url.newIssueUrl) ∧
    (newRazerGenie daemonStatus false getDaemonStatusOutput serialnrs enableClicked).watcher
      = false ∧
    (∀ ui, (newRazerGenie daemonStatus false getDaemonStatusOutput serialnrs
        enableClicked).view ≠ View.normal ui) ∧
    ((newRazerGenie daemonStatus isDaemonRunning getDaemonStatusOutput serialnrs
        enableClicked).view = View.normal (setupUi serialnrs) ↔ isDaemonRunning = true) ∧
    ((∃ ui, (newRazerGenie daemonStatus isDaemonRunning getDaemonStatusOutput serialnrs
        enableClicked).view = View.normal ui) ↔ isDaemonRunning = true) ∧
    (newRazerGenie daemonStatus isDaemonRunning getDaemonStatusOutput serialnrs
        enableClicked).watcher = isDaemonRunning := by
  refine ⟨rfl, rfl, rfl, rfl, rfl, ?_, ?_, ?_, ?_, ?_⟩
  · cases daemonStatus <;> rfl
  · intro ui
    cases daemonStatus <;> simp [newRazerGenie]
  · cases isDaemonRunning <;> cases daemonStatus <;> simp [newRazerGenie]
  · cases isDaemonRunning <;> cases daemonStatus <;> simp [newRazerGenie]
  · cases isDaemonRunning <;> cases daemonStatus <;> rfl

/-! ## Theorems: removing the right panel -/

/-- C28 (counterexample): `fillDeviceList` with [A], then with the empty list
while A is registered, then with [B].  All three lists are duplicate-free.
The second call appends the placeholder behind the panel of A and the third
one the panel of B behind it, so list entry 1 is B and page 1 is the
placeholder: `removeDeviceFromGui("B")` returns true and removes the
placeholder, and the panel of B stays. -/
theorem removeDeviceFromGui_misaligned :
    (run [Op.fillDeviceList ["A"], Op.fillDeviceList [], Op.fillDeviceList ["B"]]
        initial).listWidget.map DeviceListWidget.serial = ["A", "B"] ∧
    (run [Op.fillDeviceList ["A"], Op.fillDeviceList [], Op.fillDeviceList ["B"]]
        initial).stackedWidget =
      [Widget.razerDeviceWidget 1 "A", Widget.placeholder 2, Widget.razerDeviceWidget 4 "B"] ∧
    (removeDeviceFromGui "B"
      (run [Op.fillDeviceList ["A"], Op.fillDeviceList [], Op.fillDeviceList ["B"]]
        initial)).1 = true ∧
    (removeDeviceFromGui "B"
      (run [Op.fillDeviceList ["A"], Op.fillDeviceList [], Op.fillDeviceList ["B"]]
        initial)).2.stackedWidget =
      [Widget.razerDeviceWidget 1 "A", Widget.razerDeviceWidget 4 "B"] := by
  decide

theorem aligned_get {stack : List Widget} {list : List DeviceListWidget}
    (h : Aligned stack list) (i : Nat) (item : DeviceListWidget)
    (hi : list.get? i = some item) :
    ∃ w, stack.get? i = some w ∧ w.getSerial = some item.device.serial := by
  induction h generalizing i with
  | nil => simp at hi
  | cons hR _ ih =>
    cases i with
    | zero =>
      simp only [List.get?_cons_zero, Option.some.injEq] at hi
      subst hi
      exact ⟨_, rfl, hR⟩
    | succ j =>
      simp only [List.get?_cons_succ] at hi
      simpa using ih j hi

theorem findItem_nil (serial : String) : findItem serial [] = none :=
  rfl

theorem removeDeviceFromGui_false (serial : String) (s : State)
    (h : (removeDeviceFromGui serial s).1 = false) : (removeDeviceFromGui serial s).2 = s := by
  unfold removeDeviceFromGui at h ⊢
  cases hfi : findItem serial s.listWidget with
  | none => rfl
  | some i =>
    rw [hfi] at h
    simp only at h
    split at h <;> cases h

theorem removeDeviceFromGui_consistent (serial : String) (s : State) (hc : Consistent s) :
    (∀ i item, s.listWidget.get? i = some item →
      ∃ w, widget s.stackedWidget i = some w ∧ w.getSerial = some item.device.serial) ∧
    ((removeDeviceFromGui serial s).1 = true →
      ∃ i w, findItem serial s.listWidget = some i ∧ widget s.stackedWidget i = some w ∧
        w.getSerial = some serial ∧
        (removeDeviceFromGui serial s).2.stackedWidget =
          s.stackedWidget.filter (fun x => decide (x ≠ w)) ∧
        (removeDeviceFromGui serial s).2.listWidget = s.listWidget.eraseIdx i) ∧
    ((removeDeviceFromGui serial s).1 = false → (removeDeviceFromGui serial s).2 = s) := by
  obtain ⟨hk, hp, hgui, _⟩ := hc
  refine ⟨?_, ?_, removeDeviceFromGui_false serial s⟩
  · intro i item hi
    rcases hgui with hal | ⟨hl, _⟩
    · exact aligned_get hal i item hi
    · rw [hl] at hi
      simp at hi
  · intro ht
    cases hfi : findItem serial s.listWidget with
    | none =>
      unfold removeDeviceFromGui at ht
      rw [hfi] at ht
      cases ht
    | some i =>
      rcases hgui with hal | ⟨hl, _⟩
      · have hn : (s.listWidget.map DeviceListWidget.serial).Nodup :=
          (serial_perm_keys s hp).nodup_iff.mpr hk
        obtain ⟨w, g1, g2, _, _⟩ := (findItem_aligned serial hal hn).2 i hfi
        have hne : s.devices.isEmpty = false := by
          cases hd : s.devices with
          | nil =>
            rw [hd] at hp
            have hl := List.map_eq_nil_iff.mp hp.eq_nil
            rw [hl, findItem_nil] at hfi
            cases hfi
          | cons _ _ => rfl
        refine ⟨i, w, rfl, g1, g2, ?_, ?_⟩
        · unfold removeDeviceFromGui
          rw [hfi]
          simp only [hne, widget, g1, removeWidget]
          rfl
        · unfold removeDeviceFromGui
          rw [hfi]
          simp only [hne]
          rfl
      · rw [hl, findItem_nil] at hfi
        cases hfi

/-- C28 (amended): in every state reached from start-up by calls with
duplicate-free daemon lists in which `fillDeviceList` runs only while nothing
is registered, page `i` of the stack is the panel of the serial of list entry
`i`; when `removeDeviceFromGui(serial)` returns true the page it removed is
the one at the index of the entry found, that page is the panel of `serial`,
the other pages stay and the entry is taken out of the list; when it returns
false the state is unchanged. -/
theorem removeDeviceFromGui_right_panel (ops : List Op) (ho : orderly ops initial = true)
    (serial : String) :
    (∀ i item, (run ops initial).listWidget.get? i = some item →
      ∃ w, widget (run ops initial).stackedWidget i = some w ∧
        w.getSerial = some item.device.serial) ∧
    ((removeDeviceFromGui serial (run ops initial)).1 = true →
      ∃ i w, findItem serial (run ops initial).listWidget = some i ∧
        widget (run ops initial).stackedWidget i = some w ∧
        w.getSerial = some serial ∧
        (removeDeviceFromGui serial (run ops initial)).2.stackedWidget =
          (run ops initial).stackedWidget.filter (fun x => decide (x ≠ w)) ∧
        (removeDeviceFromGui serial (run ops initial)).2.listWidget =
          (run ops initial).listWidget.eraseIdx i) ∧
    ((removeDeviceFromGui serial (run ops initial)).1 = false →
      (removeDeviceFromGui serial (run ops initial)).2 = run ops initial) :=
  removeDeviceFromGui_consistent serial _ (orderly_consistent ops initial consistent_initial ho)

theorem removeDeviceFromGui_right_panel_witness :
    orderly sampleOps initial = true ∧
    (removeDeviceFromGui "B" (run sampleOps initial)).1 = true ∧
    ((∀ i item, (run sampleOps initial).listWidget.get? i = some item →
      ∃ w, widget (run sampleOps initial).stackedWidget i = some w ∧
        w.getSerial = some item.device.serial) ∧
    ((removeDeviceFromGui "B" (run sampleOps initial)).1 = true →
      ∃ i w, findItem "B" (run sampleOps initial).listWidget = some i ∧
        widget (run sampleOps initial).stackedWidget i = some w ∧
        w.getSerial = some "B" ∧
        (removeDeviceFromGui "B" (run sampleOps initial)).2.stackedWidget =
          (run sampleOps initial).stackedWidget.filter (fun x => decide (x ≠ w)) ∧
        (removeDeviceFromGui "B" (run sampleOps initial)).2.listWidget =
          (run sampleOps initial).listWidget.eraseIdx i) ∧
    ((removeDeviceFromGui "B" (run sampleOps initial)).1 = false →
      (removeDeviceFromGui "B" (run sampleOps initial)).2 = run sampleOps initial)) :=
  ⟨by decide, by decide, removeDeviceFromGui_right_panel sampleOps (by decide) "B"⟩

/-! ## Theorems: signals during construction -/

theorem emit_unconnected {α : Type} (w : Wired α) (h : w.connected = none) (signal : Signal)
    (argument : Int) : w.emit signal argument = [] := by
  unfold Wired.emit
  rw [h]

theorem setValue_unconnected (w : Wired QSlider) (h : w.connected = none) (v : Int) :
    (w.setValue v).2 = [] ∧ (w.setValue v).1.connected = none := by
  refine ⟨?_, h⟩
  unfold Wired.setValue
  simp only [emit_unconnected w h, ite_self]

theorem setMaximum_unconnected (w : Wired QSlider) (h : w.connected = none) (max : Int) :
    (w.setMaximum max).2 = [] ∧ (w.setMaximum max).1.connected = none := by
  refine ⟨?_, h⟩
  unfold Wired.setMaximum
  simp only [emit_unconnected w h, ite_self]

theorem setChecked_unconnected (w : Wired Bool) (h : w.connected = none) (checked : Bool) :
    (w.setChecked checked).2 = [] := by
  unfold Wired.setChecked
  simp only [emit_unconnected w h, ite_self]

theorem addItem_unconnected (w : Wired QComboBox) (h : w.connected = none) :
    w.addItem.2 = [] ∧ w.addItem.1.connected = none := by
  unfold Wired.addItem
  split
  · exact ⟨emit_unconnected w h _ _, h⟩
  · exact ⟨rfl, h⟩

theorem addItems_unconnected (n : Nat) (w : Wired QComboBox) (h : w.connected = none) :
    (w.addItems n).2 = [] ∧ (w.addItems n).1.connected = none := by
  induction n generalizing w with
  | zero => exact ⟨rfl, h⟩
  | succ n ih =>
    obtain ⟨h1, h2⟩ := addItem_unconnected w h
    obtain ⟨h3, h4⟩ := ih w.addItem.1 h2
    refine ⟨?_, h4⟩
    show w.addItem.2 ++ (Wired.addItems w.addItem.1 n).2 = []
    rw [h1, h3]
    rfl

theorem setCurrentText_unconnected (w : Wired QComboBox) (h : w.connected = none)
    (found : Option Nat) : (w.setCurrentText found).2 = [] := by
  unfold Wired.setCurrentText
  cases found with
  | none => rfl
  | some i =>
    simp only
    split
    · rfl
    · exact emit_unconnected w h _ _

theorem addCheckBox_runs (checked : Bool) (slot : Slot) : (addCheckBox checked slot).2 = [] :=
  setChecked_unconnected (Wired.new false) rfl checked

theorem dpiSliderRuns_nil (syncDpi : Bool) (d : DeviceInfo) : dpiSliderRuns syncDpi d = [] := by
  unfold dpiSliderRuns
  simp only
  generalize d.getDPI = l
  have hc := setChecked_unconnected (Wired.new false) rfl syncDpi
  rcases l with _ | ⟨a, _ | ⟨b, _ | ⟨c, r⟩⟩⟩
  · simp only [hc, (setMaximum_unconnected (Wired.new QSlider.new) rfl _).1, List.append_nil]
  · simp only [hc, (setMaximum_unconnected (Wired.new QSlider.new) rfl _).1, List.append_nil]
  · obtain ⟨a1, a2⟩ := setValue_unconnected (Wired.new QSlider.new) rfl (Int.tdiv a 100)
    obtain ⟨b1, b2⟩ := setValue_unconnected (Wired.new QSlider.new) rfl (Int.tdiv b 100)
    simp only [hc, a1, b1, (setMaximum_unconnected _ a2 _).1, (setMaximum_unconnected _ b2 _).1,
      List.append_nil]
  · simp only [hc, (setMaximum_unconnected (Wired.new QSlider.new) rfl _).1, List.append_nil]

theorem dpiComboRuns_nil (d : DeviceInfo) : (dpiComboRuns d).1 = [] := by
  unfold dpiComboRuns
  obtain ⟨h1, h2⟩ := addItems_unconnected d.availableDPI.length (Wired.new QComboBox.new) rfl
  cases d.getDPI.get? 0 with
  | none => exact h1
  | some dpi =>
    simp only [h1, setCurrentText_unconnected _ h2, List.append_nil]

theorem pollComboRuns_nil (d : DeviceInfo) : pollComboRuns d = [] := by
  unfold pollComboRuns
  obtain ⟨h1, h2⟩ := addItems_unconnected 3 (Wired.new QComboBox.new) rfl
  simp only [h1, setCurrentText_unconnected _ h2, List.append_nil]

theorem harmless_emit (w : Wired Bool)
    (h : w.connected = none ∨
      ∃ slot, w.connected = some (Signal.toggled, slot) ∧ WaveSlot (some slot)) :
    ∀ r ∈ w.emit Signal.toggled 0, Harmless r := by
  intro r hr
  rcases h with h | ⟨slot, h, hw⟩
  · rw [emit_unconnected w h] at hr
    cases hr
  · unfold Wired.emit at hr
    rw [h] at hr
    simp only [if_true, List.mem_singleton] at hr
    subst hr
    refine ⟨rfl, ?_⟩
    rcases hw with hw | hw | hw | hw
    · cases hw
    · exact Or.inl (Option.some.inj hw)
    · exact Or.inr (Or.inl (Option.some.inj hw))
    · exact Or.inr (Or.inr (Option.some.inj hw))

theorem uncheckOthers_spec (radios : List (Wired Bool)) (h : RadiosWave radios) :
    RadiosWave (uncheckOthers radios).1 ∧ ∀ r ∈ (uncheckOthers radios).2, Harmless r := by
  induction radios with
  | nil =>
    refine ⟨?_, ?_⟩
    · intro w hw
      cases hw
    · intro r hr
      cases hr
  | cons w rest ih =>
    have hw := h w (List.mem_cons_self _ _)
    obtain ⟨ih1, ih2⟩ := ih (fun x hx => h x (List.mem_cons_of_mem _ hx))
    unfold uncheckOthers
    cases hc : w.control with
    | true =>
      simp only [if_true]
      refine ⟨?_, ?_⟩
      · intro x hx
        rcases List.mem_cons.mp hx with rfl | hx1
        · exact hw
        · exact ih1 x hx1
      · intro r hr
        rcases List.mem_append.mp hr with hr1 | hr1
        · exact harmless_emit w hw r hr1
        · exact ih2 r hr1
    | false =>
      simp only [Bool.false_eq_true, if_false]
      refine ⟨?_, ih2⟩
      intro x hx
      rcases List.mem_cons.mp hx with rfl | hx1
      · exact hw
      · exact ih1 x hx1

theorem radiosWave_append (a b : List (Wired Bool)) (ha : RadiosWave a) (hb : RadiosWave b) :
    RadiosWave (a ++ b) := by
  intro w hw
  rcases List.mem_append.mp hw with h | h
  · exact ha w h
  · exact hb w h

theorem radiosWave_new (checked : Bool) : RadiosWave [(⟨checked, none⟩ : Wired Bool)] := by
  intro w hw
  rw [List.mem_singleton] at hw
  subst hw
  exact Or.inl rfl

theorem connectLast_wave (radios : List (Wired Bool)) (slot : Option Slot)
    (h : RadiosWave radios) (hs : WaveSlot slot) : RadiosWave (connectLast radios slot) := by
  unfold connectLast
  cases slot with
  | none => exact h
  | some sl =>
    cases hl : radios.getLast? with
    | none => exact h
    | some radio =>
      simp only
      apply radiosWave_append
      · intro w hw
        exact h w (List.mem_of_mem_dropLast hw)
      · intro w hw
        rw [List.mem_singleton] at hw
        subst hw
        exact Or.inr ⟨sl, rfl, hs⟩

theorem addRadioButtons_spec (radios : List (Wired Bool)) (slot : Option Slot)
    (h : RadiosWave radios) (hs : WaveSlot slot) :
    RadiosWave (addRadioButtons radios slot).1 ∧
      ∀ r ∈ (addRadioButtons radios slot).2, Harmless r := by
  obtain ⟨h1, h2⟩ := uncheckOthers_spec radios h
  unfold addRadioButtons
  simp only
  refine ⟨?_, ?_⟩
  · apply connectLast_wave _ _ _ hs
    apply radiosWave_append _ _ _ (radiosWave_new false)
    apply connectLast_wave _ _ _ hs
    exact radiosWave_append _ _ h1 (radiosWave_new true)
  · intro r hr
    rw [setChecked_unconnected (Wired.new false) rfl true, List.append_nil] at hr
    exact h2 r hr

/-- The radio buttons so far are connected to wave slots only, and the slots
run so far are wave slots with the argument false. -/
theorem zoneControls_spec (d : DeviceInfo) (items : List RazerCapability) (comboSlot : Slot)
    (brightness getter : String) (current : Int) (brightnessSlot : Slot)
    (waveSlot : Option Slot) (c : Construction) (hs : WaveSlot waveSlot)
    (h1 : RadiosWave c.radios) (h2 : ∀ r ∈ c.runs, Harmless r) :
    RadiosWave
        (zoneControls d items comboSlot brightness getter current brightnessSlot waveSlot
          c).radios ∧
      ∀ r ∈ (zoneControls d items comboSlot brightness getter current brightnessSlot waveSlot
          c).runs, Harmless r := by
  obtain ⟨a1, _⟩ := addItems_unconnected items.length (Wired.new QComboBox.new) rfl
  obtain ⟨b1, b2⟩ := addRadioButtons_spec c.radios waveSlot h1 hs
  have hsl : (match (if d.hasCapability brightness = true then
        some (((if d.hasCapability getter = true then (Wired.new QSlider.new).setValue current
          else (Wired.new QSlider.new).setValue 100).1.connect Signal.valueChanged
            brightnessSlot),
          (if d.hasCapability getter = true then (Wired.new QSlider.new).setValue current
          else (Wired.new QSlider.new).setValue 100).2)
      else none : Option (Wired QSlider × List SlotRun)) with
      | some r => r.2
      | none => []) = [] := by
    cases d.hasCapability brightness with
    | false => rfl
    | true =>
      cases d.hasCapability getter with
      | false => exact (setValue_unconnected (Wired.new QSlider.new) rfl 100).1
      | true => exact (setValue_unconnected (Wired.new QSlider.new) rfl current).1
  unfold zoneControls
  simp only [a1, hsl, List.append_nil]
  split
  · refine ⟨b1, ?_⟩
    intro r hr
    rcases List.mem_append.mp hr with h | h
    · exact h2 r h
    · exact b2 r h
  · exact ⟨h1, h2⟩

theorem zoneRuns_spec (t : Tables) (d : DeviceInfo) (f : DeviceFlags) (loc : LightingLocation)
    (c : Construction) (h1 : RadiosWave c.radios) (h2 : ∀ r ∈ c.runs, Harmless r) :
    RadiosWave (zoneRuns t d f loc c).radios ∧ ∀ r ∈ (zoneRuns t d f loc c).runs, Harmless r := by
  cases loc with
  | Lighting =>
    simp only [zoneRuns, addCheckBox_runs, List.append_nil, ite_self]
    exact zoneControls_spec _ _ _ _ _ _ _ _ c (Or.inr (Or.inl rfl)) h1 h2
  | LightingLogo =>
    simp only [zoneRuns, addCheckBox_runs, List.append_nil, ite_self]
    exact zoneControls_spec _ _ _ _ _ _ _ _ c (Or.inr (Or.inr (Or.inl rfl))) h1 h2
  | LightingScroll =>
    simp only [zoneRuns, addCheckBox_runs, List.append_nil, ite_self]
    exact zoneControls_spec _ _ _ _ _ _ _ _ c (Or.inr (Or.inr (Or.inr rfl))) h1 h2
  | LightingBacklight =>
    simp only [zoneRuns, addCheckBox_runs, List.append_nil, ite_self]
    exact zoneControls_spec _ _ _ _ _ _ _ _ c (Or.inl rfl) h1 h2
  | other v => exact ⟨h1, h2⟩

theorem foldl_zoneRuns_spec (t : Tables) (d : DeviceInfo) (f : DeviceFlags)
    (todo : List LightingLocation) (c : Construction) (h1 : RadiosWave c.radios)
    (h2 : ∀ r ∈ c.runs, Harmless r) :
    ∀ r ∈ (todo.foldl (fun c loc => zoneRuns t d f loc c) c).runs, Harmless r := by
  induction todo generalizing c with
  | nil => exact h2
  | cons loc rest ih =>
    obtain ⟨g1, g2⟩ := zoneRuns_spec t d f loc c h1 h2
    exact ih _ g1 g2

theorem addDeviceToGuiRuns_harmless (t : Tables) (syncDpi : Bool) (d : DeviceInfo)
    (f : DeviceFlags) : ∀ r ∈ addDeviceToGuiRuns t syncDpi d f, Harmless r := by
  have hz := foldl_zoneRuns_spec t d f (lightingLocationsTodo d) ⟨[], []⟩
    (fun w hw => by cases hw) (fun r hr => by cases hr)
  have hdrop : (if (d.hasCapability "dpi" && d.hasCapability "available_dpi") = true
      then dpiComboRuns d else ([], true)).1 = [] := by
    split
    · exact dpiComboRuns_nil d
    · rfl
  unfold addDeviceToGuiRuns
  simp only [dpiSliderRuns_nil, pollComboRuns_nil, ite_self, hdrop, List.append_nil]
  exact hz

theorem calls_harmless {α : Type} (applyEffect : LightingLocation → List α)
    (slotCalls : Slot → Int → List α) (r : SlotRun) (h : Harmless r) :
    r.calls applyEffect slotCalls = [] := by
  obtain ⟨slot, argument⟩ := r
  obtain ⟨h0, h1 | h1 | h1⟩ := h
  all_goals
    simp only at h0 h1
    subst h0 h1
    rfl

/-- A slider that is set after it was connected runs the slot: the order of
the two statements matters. -/
theorem setValue_connected_emits :
    (((Wired.new QSlider.new).connect Signal.valueChanged Slot.brightnessChanged).setValue
      50).2 = [⟨Slot.brightnessChanged, 50⟩] := by
  decide

/-- A device with an effect in the standard zone and one in the logo zone:
checking the Left button of the logo zone unchecks the one of the standard
zone, which is connected by then, and its slot runs with the argument false. -/
theorem addDeviceToGuiRuns_two_zones :
    addDeviceToGuiRuns sampleTables false
      (sampleDevice ["lighting", "lighting_wave", "lighting_logo", "lighting_logo_wave",
        "brightness", "get_brightness", "dpi", "poll_rate", "lighting_profile_leds"]
        [800, 800]) sampleFlags = [⟨Slot.waveRadioButtonStandard, 0⟩] := by
  decide

/-- C29: building a device panel makes no daemon call through a slot,
whatever the capability set and the daemon's answers and whatever the slots
would write: every control is set before its signal is connected, the check
boxes are connected through `clicked`, which `setChecked` does not emit, and
the only slots that run are wave slots of radio buttons unchecked by a later
zone, with the argument false, for which they do nothing. -/
theorem addDeviceToGui_no_mutator_call {α : Type} (applyEffect : LightingLocation → List α)
    (slotCalls : Slot → Int → List α) (t : Tables) (syncDpi : Bool) (d : DeviceInfo)
    (f : DeviceFlags) :
    addDeviceToGuiCalls applyEffect slotCalls t syncDpi d f = [] ∧
    ∀ r ∈ addDeviceToGuiRuns t syncDpi d f, r.argument = 0 ∧
      (r.slot = Slot.waveRadioButtonStandard ∨ r.slot = Slot.waveRadioButtonLogo ∨
        r.slot = Slot.waveRadioButtonScroll) := by
  have h := addDeviceToGuiRuns_harmless t syncDpi d f
  refine ⟨?_, h⟩
  unfold addDeviceToGuiCalls
  rw [List.flatten_eq_nil_iff]
  intro l hl
  obtain ⟨r, hr, rfl⟩ := List.mem_map.mp hl
  exact calls_harmless applyEffect slotCalls r (h r hr)

/-! ## Theorems: losing the daemon while the placeholder is shown -/

/-- C5 (the code at the failing input): start-up with the empty daemon list
shows the cached placeholder, then the daemon is lost.  At the return of
`dbusServiceUnregistered` the stack holds the placeholder, which the loop of
`clearDeviceList` has passed to `deleteLater` before adding it again; when the
deferred deletion runs the page is destroyed, so the stack ends empty and
`noDevicePlaceholder` still holds the pointer.  After start-up with a device
the placeholder is built anew and stays. -/
theorem dbusServiceUnregistered_placeholder_destroyed :
    (setupUi []).stackedWidget = [Widget.placeholder 0] ∧
    (dbusServiceUnregistered (setupUi [])).stackedWidget = [Widget.placeholder 0] ∧
    (dbusServiceUnregistered (setupUi [])).deleteLater = [none, some (Widget.placeholder 0)] ∧
    (deferredDelete (dbusServiceUnregistered (setupUi []))).stackedWidget = [] ∧
    (deferredDelete (dbusServiceUnregistered (setupUi []))).noDevicePlaceholder = some 0 ∧
    (deferredDelete (dbusServiceUnregistered (setupUi ["A"]))).stackedWidget =
      [Widget.placeholder 2] := by
  decide

end RazerGenie
